import Mathlib

/-!
# uAP cfg80211 glue (moal_uap_cfg80211.c): a shallow embedding

The embedding follows `mlinux/moal_uap_cfg80211.c`.  Byte buffers are total
maps from offsets to bytes, C `int` values are `Int`, unsigned values are
`Nat` reduced modulo the width of their type, and the flags that the driver
only ever sets to MTRUE or MFALSE are `Bool` (MTRUE is `true`).

Everything the file takes from headers that are not part of the sources
(structure sizes, field offsets, enumerators and bit masks) is a field of
`Hdr`; the functions take a `Hdr` as their first argument.
-/

namespace MoalUapCfg80211

/-! ## Header constants -/

/-- Sizes, field offsets and constants that `moal_uap_cfg80211.c` uses but that
are declared in headers outside the sources (`mlan_ieee.h`, `mlan_ioctl.h`,
the kernel's `ieee80211.h`).  Offsets are `offsetof` values in bytes. -/
structure Hdr where
  /-- Width of `size_t` in bits. -/
  size_t_bits : Nat
  sizeof_IEEEtypes_Header_t : Nat
  sizeof_IEEEtypes_Rsn_t : Nat
  sizeof_IEEEtypes_Wpa_t : Nat
  sizeof_wpa_suite : Nat
  sizeof_wpa_suite_auth_key_mgmt_t : Nat
  /-- Size of `vend_hdr.oui` in `IEEEtypes_VendorSpecific_t`. -/
  sizeof_vend_oui : Nat
  /-- Offset of `len` in `IEEEtypes_Rsn_t` and `IEEEtypes_Wpa_t`. -/
  off_len : Nat
  /-- Offset of `group_cipher.type` in `IEEEtypes_Rsn_t`. -/
  off_rsn_group_type : Nat
  /-- Offset of `pairwise_cipher.count` in `IEEEtypes_Rsn_t`. -/
  off_rsn_pairwise_count : Nat
  /-- Offset of `pairwise_cipher.list` in `IEEEtypes_Rsn_t`. -/
  off_rsn_pairwise_list : Nat
  /-- Offset of `group_cipher.type` in `IEEEtypes_Wpa_t`. -/
  off_wpa_group_type : Nat
  /-- Offset of `pairwise_cipher.count` in `IEEEtypes_Wpa_t`. -/
  off_wpa_pairwise_count : Nat
  /-- Offset of `pairwise_cipher.list` in `IEEEtypes_Wpa_t`. -/
  off_wpa_pairwise_list : Nat
  /-- Offset of `type` in `wpa_suite`. -/
  off_suite_type : Nat
  /-- Offset of `count` in `wpa_suite_auth_key_mgmt_t`. -/
  off_akm_count : Nat
  /-- Offset of `list` in `wpa_suite_auth_key_mgmt_t`. -/
  off_akm_list : Nat
  /-- Offset of `vend_hdr.oui` in `IEEEtypes_VendorSpecific_t`. -/
  off_vend_oui : Nat
  /-- Offset of `vend_hdr.oui_type` in `IEEEtypes_VendorSpecific_t`. -/
  off_vend_oui_type : Nat
  RSN_IE : Nat
  VENDOR_SPECIFIC_221 : Nat
  WPA_CIPHER_TKIP : Nat
  WPA_CIPHER_AES_CCM : Nat
  CIPHER_TKIP : Nat
  CIPHER_AES_CCMP : Nat
  RSN_AKM_8021X : Nat
  RSN_AKM_PSK : Nat
  RSN_AKM_PSK_SHA256 : Nat
  RSN_AKM_SAE : Nat
  RSN_AKM_OWE : Nat
  KEY_MGMT_EAP : Nat
  KEY_MGMT_PSK : Nat
  KEY_MGMT_PSK_SHA256 : Nat
  KEY_MGMT_SAE : Nat
  KEY_MGMT_OWE : Nat
  PROTOCOL_WPA : Nat
  PROTOCOL_WPA2 : Nat
  deriving DecidableEq, Repr

/-- The packed on-air layout of the RSN and WPA elements (two-byte element
header, four-byte suites, suite lists directly after their two-byte counts
and declared as flexible arrays, so that no suite is counted in a `sizeof`)
with the enumerators of IEEE 802.11 and the bit masks of the mlan headers,
on a 32-bit target.  It is the instance at which the worked examples are
evaluated; the theorems hold for every `Hdr` that meets their hypotheses. -/
def wireHdr : Hdr where
  size_t_bits := 32
  sizeof_IEEEtypes_Header_t := 2
  sizeof_IEEEtypes_Rsn_t := 10
  sizeof_IEEEtypes_Wpa_t := 14
  sizeof_wpa_suite := 4
  sizeof_wpa_suite_auth_key_mgmt_t := 2
  sizeof_vend_oui := 3
  off_len := 1
  off_rsn_group_type := 7
  off_rsn_pairwise_count := 8
  off_rsn_pairwise_list := 10
  off_wpa_group_type := 11
  off_wpa_pairwise_count := 12
  off_wpa_pairwise_list := 14
  off_suite_type := 3
  off_akm_count := 0
  off_akm_list := 2
  off_vend_oui := 2
  off_vend_oui_type := 5
  RSN_IE := 48
  VENDOR_SPECIFIC_221 := 221
  WPA_CIPHER_TKIP := 2
  WPA_CIPHER_AES_CCM := 4
  CIPHER_TKIP := 4
  CIPHER_AES_CCMP := 8
  RSN_AKM_8021X := 1
  RSN_AKM_PSK := 2
  RSN_AKM_PSK_SHA256 := 6
  RSN_AKM_SAE := 8
  RSN_AKM_OWE := 18
  KEY_MGMT_EAP := 1
  KEY_MGMT_PSK := 2
  KEY_MGMT_PSK_SHA256 := 256
  KEY_MGMT_SAE := 1024
  KEY_MGMT_OWE := 512
  PROTOCOL_WPA := 8
  PROTOCOL_WPA2 := 32

/-! ## Memory and machine integers -/

/-- Memory seen through a `t_u8 *`: the byte stored at each offset from the
pointer.  The map is total, so a read past the end of an element or of the
buffer still has a value, as it has in C. -/
abbrev Mem := Nat → Nat

/-- Read of one `t_u8`. -/
def rd8 (mem : Mem) (a : Nat) : Nat := mem a % 256

/-- Read of a `t_u16` field followed by `woal_le16_to_cpu`. -/
def rd16le (mem : Mem) (a : Nat) : Nat := rd8 mem a + 256 * rd8 mem (a + 1)

/-- Memory holding the bytes of a list from offset 0 on, zero elsewhere. -/
def memOfList (l : List Nat) : Mem := fun a => l.getD a 0

/-- Conversion of an unsigned value to a 32-bit `int` (two's complement). -/
def toInt32 (u : Nat) : Int :=
  if u % 2 ^ 32 < 2 ^ 31 then ((u % 2 ^ 32 : Nat) : Int) else ((u % 2 ^ 32 : Nat) : Int) - 2 ^ 32

/-- The statement `left -= amount` for an `int left` and a `size_t amount`:
`left` is converted to `size_t`, the subtraction wraps modulo `2 ^ bits`, and
the result is converted back to `int`. -/
def intSubSize (bits : Nat) (left : Int) (amount : Nat) : Int :=
  toInt32 (((left - (amount : Int)) % (2 ^ bits : Int)).toNat)

/-- The loop `for (i = 0; i < count; i++) body`. -/
def forLoop {σ : Type} (count : Nat) (body : Nat → σ → σ) (s : σ) : σ :=
  (List.range count).foldl (fun acc i => body i acc) s

/-! ## The firmware BSS configuration -/

/-- The fields of `mlan_uap_bss_param` written by the information-element
readers (`wpa_cfg.x` is field `x`). -/
structure SysConfig where
  protocol : Nat
  key_mgmt : Nat
  group_cipher : Nat
  pairwise_cipher_wpa : Nat
  pairwise_cipher_wpa2 : Nat
  deriving DecidableEq, Repr

/-! ## woal_check_rsn_ie -/

/-- The `switch` on a group cipher suite type, shared by the RSN and WPA
readers: the new value of `wpa_cfg.group_cipher`. -/
def groupCipherSwitch (h : Hdr) (ty : Nat) (cur : Nat) : Nat :=
  if ty = h.WPA_CIPHER_TKIP then h.CIPHER_TKIP
  else if ty = h.WPA_CIPHER_AES_CCM then h.CIPHER_AES_CCMP
  else cur

/-- The `switch` on a pairwise cipher suite type: the new value of the
pairwise cipher mask. -/
def pairwiseSwitch (h : Hdr) (ty : Nat) (cur : Nat) : Nat :=
  if ty = h.WPA_CIPHER_TKIP then cur ||| h.CIPHER_TKIP
  else if ty = h.WPA_CIPHER_AES_CCM then cur ||| h.CIPHER_AES_CCMP
  else cur

/-- The `switch` on an AKM suite type in `woal_check_rsn_ie`: the new value of
`key_mgmt`. -/
def rsnAkmSwitch (h : Hdr) (ty : Nat) (cur : Nat) : Nat :=
  if ty = h.RSN_AKM_8021X then cur ||| h.KEY_MGMT_EAP
  else if ty = h.RSN_AKM_PSK then cur ||| h.KEY_MGMT_PSK
  else if ty = h.RSN_AKM_PSK_SHA256 then cur ||| h.KEY_MGMT_PSK_SHA256
  else if ty = h.RSN_AKM_SAE then cur ||| h.KEY_MGMT_SAE
  else if ty = h.RSN_AKM_OWE then cur ||| h.KEY_MGMT_OWE
  else cur

/-- Embedding of `woal_check_rsn_ie`; `rsn_ie` is the offset of the element in
`mem`.  Returns the `t_u8` result and the configuration as it is on return. -/
def woal_check_rsn_ie (h : Hdr) (mem : Mem) (rsn_ie : Nat) (sys_config : SysConfig) :
    Bool × SysConfig :=
  let left : Int := (rd8 mem (rsn_ie + h.off_len) : Int) + 2
  if left < (h.sizeof_IEEEtypes_Rsn_t : Int) then (false, sys_config)
  else
    let c1 : SysConfig :=
      { sys_config with group_cipher := 0, pairwise_cipher_wpa2 := 0, key_mgmt := 0 }
    let ty := rd8 mem (rsn_ie + h.off_rsn_group_type)
    let c2 : SysConfig := { c1 with group_cipher := groupCipherSwitch h ty c1.group_cipher }
    let count : Nat := rd16le mem (rsn_ie + h.off_rsn_pairwise_count)
    if count < 1 then (false, c2)
    else
      let c3 : SysConfig := forLoop count (fun i c =>
        let ty := rd8 mem (rsn_ie + h.off_rsn_pairwise_list + i * h.sizeof_wpa_suite
          + h.off_suite_type)
        { c with pairwise_cipher_wpa2 := pairwiseSwitch h ty c.pairwise_cipher_wpa2 }) c2
      let left : Int :=
        intSubSize h.size_t_bits left (h.sizeof_IEEEtypes_Rsn_t + count * h.sizeof_wpa_suite)
      if left < (h.sizeof_wpa_suite_auth_key_mgmt_t : Int) + (h.sizeof_wpa_suite : Int) then
        (false, c3)
      else
        let key_mgmt : Nat := rsn_ie + h.sizeof_IEEEtypes_Rsn_t + count * h.sizeof_wpa_suite
        let count : Nat := rd16le mem (key_mgmt + h.off_akm_count)
        if left < (h.sizeof_wpa_suite_auth_key_mgmt_t : Int)
            + (count : Int) * (h.sizeof_wpa_suite : Int) then (false, c3)
        else
          let c4 : SysConfig := forLoop count (fun i c =>
            let ty := rd8 mem (key_mgmt + h.off_akm_list + i * h.sizeof_wpa_suite
              + h.off_suite_type)
            { c with key_mgmt := rsnAkmSwitch h ty c.key_mgmt }) c3
          (true, c4)

/-! ## woal_check_wpa_ie -/

/-- The `switch` on an AKM suite type in `woal_check_wpa_ie`: the new value of
`key_mgmt` (an assignment, not an OR). -/
def wpaAkmSwitch (h : Hdr) (ty : Nat) (cur : Nat) : Nat :=
  if ty = h.RSN_AKM_8021X then h.KEY_MGMT_EAP
  else if ty = h.RSN_AKM_PSK then h.KEY_MGMT_PSK
  else cur

/-- Embedding of `woal_check_wpa_ie`; `wpa_ie` is the offset of the element in
`mem`. -/
def woal_check_wpa_ie (h : Hdr) (mem : Mem) (wpa_ie : Nat) (sys_config : SysConfig) :
    Bool × SysConfig :=
  let left : Int := (rd8 mem (wpa_ie + h.off_len) : Int) + 2
  if left < (h.sizeof_IEEEtypes_Wpa_t : Int) then (false, sys_config)
  else
    let c1 : SysConfig := { sys_config with group_cipher := 0, pairwise_cipher_wpa := 0 }
    let ty := rd8 mem (wpa_ie + h.off_wpa_group_type)
    let c2 : SysConfig := { c1 with group_cipher := groupCipherSwitch h ty c1.group_cipher }
    let count : Nat := rd16le mem (wpa_ie + h.off_wpa_pairwise_count)
    if count < 1 then (false, c2)
    else
      let c3 : SysConfig := forLoop count (fun i c =>
        let ty := rd8 mem (wpa_ie + h.off_wpa_pairwise_list + i * h.sizeof_wpa_suite
          + h.off_suite_type)
        { c with pairwise_cipher_wpa := pairwiseSwitch h ty c.pairwise_cipher_wpa }) c2
      let left : Int :=
        intSubSize h.size_t_bits left (h.sizeof_IEEEtypes_Wpa_t + count * h.sizeof_wpa_suite)
      if left < (h.sizeof_wpa_suite_auth_key_mgmt_t : Int) + (h.sizeof_wpa_suite : Int) then
        (false, c3)
      else
        let key_mgmt : Nat := wpa_ie + h.sizeof_IEEEtypes_Wpa_t + count * h.sizeof_wpa_suite
        let count : Nat := rd16le mem (key_mgmt + h.off_akm_count)
        if left < (h.sizeof_wpa_suite_auth_key_mgmt_t : Int)
            + (count : Int) * (h.sizeof_wpa_suite : Int) then (false, c3)
        else
          let c4 : SysConfig := forLoop count (fun i c =>
            let ty := rd8 mem (key_mgmt + h.off_akm_list + i * h.sizeof_wpa_suite
              + h.off_suite_type)
            { c with key_mgmt := wpaAkmSwitch h ty c.key_mgmt }) c3
          (true, c4)

/-! ## woal_find_wpa_ies -/

/-- The local array `wpa_oui` of `woal_find_wpa_ies`. -/
def wpa_oui : List Nat := [0x00, 0x50, 0xf2, 0x01]

/-- The test `!memcmp(mem + a, pat, n)`: the `n` bytes at `a` equal the first
`n` bytes of `pat`. -/
def memcmpEq (mem : Mem) (a : Nat) (pat : List Nat) (n : Nat) : Bool :=
  (List.range n).all (fun j => rd8 mem (a + j) == pat.getD j 0)

/-- The local variables of the element walk of `woal_find_wpa_ies` together
with the configuration being filled in. -/
structure WpaWalk where
  bytes_left : Int
  pcurrent_ptr : Nat
  wpa2 : Bool
  wpa : Bool
  sys_config : SysConfig
  deriving DecidableEq, Repr

/-- The loop `while (cond) body`, run for at most `fuel` iterations. -/
def whileLoop {σ : Type} (cond : σ → Bool) (body : σ → σ) : Nat → σ → σ
  | 0, s => s
  | fuel + 1, s => if cond s then whileLoop cond body fuel (body s) else s

/-- The guard `bytes_left >= 2` of the element walk. -/
def wpaWalkCond (s : WpaWalk) : Bool := decide (2 ≤ s.bytes_left)

/-- One iteration of the `while (bytes_left >= 2)` loop of
`woal_find_wpa_ies`. -/
def wpaWalkBody (h : Hdr) (ie : Mem) (s : WpaWalk) : WpaWalk :=
  let element_id := rd8 ie s.pcurrent_ptr
  let element_len := rd8 ie (s.pcurrent_ptr + 1)
  let total_ie_len : Nat := (element_len + h.sizeof_IEEEtypes_Header_t) % 2 ^ 16
  if s.bytes_left < (total_ie_len : Int) then { s with bytes_left := 0 }
  else
    let s1 : WpaWalk :=
      if element_id = h.RSN_IE then
        let r := woal_check_rsn_ie h ie s.pcurrent_ptr s.sys_config
        { s with wpa2 := r.1, sys_config := r.2 }
      else if element_id = h.VENDOR_SPECIFIC_221 then
        if memcmpEq ie (s.pcurrent_ptr + h.off_vend_oui) wpa_oui h.sizeof_vend_oui
            && rd8 ie (s.pcurrent_ptr + h.off_vend_oui_type) == wpa_oui.getD 3 0 then
          let r := woal_check_wpa_ie h ie s.pcurrent_ptr s.sys_config
          { s with wpa := r.1, sys_config := r.2 }
        else s
      else s
    { s1 with
      pcurrent_ptr := s.pcurrent_ptr + (element_len + 2),
      bytes_left := s.bytes_left - ((element_len : Int) + 2) }

/-- The state in which `woal_find_wpa_ies` leaves its `while` loop.  Every
iteration lowers `bytes_left` by at least two or sets it to zero, so `len`
iterations are enough (`wpaWalk_exits`). -/
def wpaWalk (h : Hdr) (ie : Mem) (len : Int) (sys_config : SysConfig) : WpaWalk :=
  whileLoop wpaWalkCond (wpaWalkBody h ie) len.toNat
    { bytes_left := len, pcurrent_ptr := 0, wpa2 := false, wpa := false,
      sys_config := sys_config }

/-- Embedding of `woal_find_wpa_ies`: the `t_u8` result and the configuration
on return. -/
def woal_find_wpa_ies (h : Hdr) (ie : Mem) (len : Int) (sys_config : SysConfig) :
    Bool × SysConfig :=
  let s := wpaWalk h ie len sys_config
  if s.wpa && s.wpa2 then
    (true, { s.sys_config with protocol := h.PROTOCOL_WPA ||| h.PROTOCOL_WPA2 })
  else if s.wpa2 then (true, { s.sys_config with protocol := h.PROTOCOL_WPA2 })
  else if s.wpa then (true, { s.sys_config with protocol := h.PROTOCOL_WPA })
  else (false, s.sys_config)

/-! ## Well-formedness of the header constants -/

/-- Bounds under which the `int` and `size_t` arithmetic of the element
readers cannot overflow: `size_t` has at least 32 bits and the structure
sizes are small. -/
@[reducible] def Hdr.SizesOk (h : Hdr) : Prop :=
  32 ≤ h.size_t_bits ∧ h.sizeof_IEEEtypes_Rsn_t ≤ 1024 ∧ h.sizeof_IEEEtypes_Wpa_t ≤ 1024 ∧
  h.sizeof_wpa_suite ≤ 1024 ∧ h.sizeof_wpa_suite_auth_key_mgmt_t ≤ 1024

/-- Layout facts used by the RSN reader: every field lies inside its
structure, a suite list follows its count, and the structures are small.
They hold whether the suite lists are declared with one element or as
flexible arrays. -/
@[reducible] def Hdr.RsnLayoutOk (h : Hdr) : Prop :=
  h.off_rsn_group_type < h.sizeof_IEEEtypes_Rsn_t ∧
  h.off_rsn_pairwise_count + 2 ≤ h.off_rsn_pairwise_list ∧
  h.off_rsn_pairwise_list ≤ h.sizeof_IEEEtypes_Rsn_t ∧
  h.off_suite_type < h.sizeof_wpa_suite ∧
  h.off_akm_count + 2 ≤ h.off_akm_list ∧
  h.off_akm_list ≤ h.sizeof_wpa_suite_auth_key_mgmt_t

/-- The case labels of each `switch` of the element readers are pairwise
different, as C requires. -/
@[reducible] def Hdr.LabelsDistinct (h : Hdr) : Prop :=
  h.WPA_CIPHER_TKIP ≠ h.WPA_CIPHER_AES_CCM ∧
  [h.RSN_AKM_8021X, h.RSN_AKM_PSK, h.RSN_AKM_PSK_SHA256, h.RSN_AKM_SAE, h.RSN_AKM_OWE].Nodup

/-! ## What an RSN element says (specification side) -/

/-- The bytes of the element at offset `o`: its two header bytes followed by
as many body bytes as its length byte declares. -/
def elementBytes (h : Hdr) (mem : Mem) (o : Nat) : List Nat :=
  (List.range (rd8 mem (o + h.off_len) + 2)).map (fun k => rd8 mem (o + k))

/-- Byte `k` of an element given by its bytes. -/
def elemByte (e : List Nat) (k : Nat) : Nat := e.getD k 0

/-- Little-endian 16-bit value at byte `k` of an element. -/
def elemU16 (e : List Nat) (k : Nat) : Nat := elemByte e k + 256 * elemByte e (k + 1)

/-- Type of the group cipher suite of an RSN element. -/
def rsnGroupType (h : Hdr) (e : List Nat) : Nat := elemByte e h.off_rsn_group_type

/-- Types of the pairwise cipher suites listed in an RSN element. -/
def rsnPairwiseTypes (h : Hdr) (e : List Nat) : List Nat :=
  (List.range (elemU16 e h.off_rsn_pairwise_count)).map
    (fun i => elemByte e (h.off_rsn_pairwise_list + i * h.sizeof_wpa_suite + h.off_suite_type))

/-- Offset, inside an RSN element, of the AKM suite count and list: they
follow `sizeof(IEEEtypes_Rsn_t)` bytes and the pairwise suites. -/
def rsnAkmOffset (h : Hdr) (e : List Nat) : Nat :=
  h.sizeof_IEEEtypes_Rsn_t + elemU16 e h.off_rsn_pairwise_count * h.sizeof_wpa_suite

/-- Types of the AKM suites listed in an RSN element. -/
def rsnAkmTypes (h : Hdr) (e : List Nat) : List Nat :=
  (List.range (elemU16 e (rsnAkmOffset h e + h.off_akm_count))).map
    (fun i => elemByte e
      (rsnAkmOffset h e + h.off_akm_list + i * h.sizeof_wpa_suite + h.off_suite_type))

/-- Group cipher selected by a group suite type: CIPHER_TKIP, CIPHER_AES_CCMP
or 0. -/
def groupCipherOf (h : Hdr) (ty : Nat) : Nat :=
  if ty = h.WPA_CIPHER_TKIP then h.CIPHER_TKIP
  else if ty = h.WPA_CIPHER_AES_CCM then h.CIPHER_AES_CCMP
  else 0

/-- Bitwise OR of CIPHER_TKIP and CIPHER_AES_CCMP over the listed suites of
those types. -/
def pairwiseMaskOf (h : Hdr) (types : List Nat) : Nat :=
  (if h.WPA_CIPHER_TKIP ∈ types then h.CIPHER_TKIP else 0) |||
  (if h.WPA_CIPHER_AES_CCM ∈ types then h.CIPHER_AES_CCMP else 0)

/-- Bitwise OR of the key-management bits over the listed AKM suites of types
802.1X, PSK, PSK-SHA256, SAE and OWE. -/
def keyMgmtOf (h : Hdr) (types : List Nat) : Nat :=
  (if h.RSN_AKM_8021X ∈ types then h.KEY_MGMT_EAP else 0) |||
  (if h.RSN_AKM_PSK ∈ types then h.KEY_MGMT_PSK else 0) |||
  (if h.RSN_AKM_PSK_SHA256 ∈ types then h.KEY_MGMT_PSK_SHA256 else 0) |||
  (if h.RSN_AKM_SAE ∈ types then h.KEY_MGMT_SAE else 0) |||
  (if h.RSN_AKM_OWE ∈ types then h.KEY_MGMT_OWE else 0)


/-! ## What a buffer of elements contains (specification side) -/

/-- Facts about the constants of the element walk: the element header is the
identifier byte and the length byte, a vendor OUI has three bytes, the vendor
specific identifier is 221 and differs from the RSN identifier. -/
@[reducible] def Hdr.WalkOk (h : Hdr) : Prop :=
  h.sizeof_IEEEtypes_Header_t = 2 ∧ h.sizeof_vend_oui = 3 ∧
  h.VENDOR_SPECIFIC_221 = 221 ∧ h.RSN_IE ≠ h.VENDOR_SPECIFIC_221

/-- Offsets of the elements of a buffer, in order: an element starts where
the previous one ends, and it belongs to the buffer when its header and its
declared body fit in the `left` bytes that remain. -/
def ieOffsets (ie : Mem) : Nat → Nat → Int → List Nat
  | 0, _, _ => []
  | fuel + 1, pos, left =>
    if (rd8 ie (pos + 1) : Int) + 2 ≤ left then
      pos :: ieOffsets ie fuel (pos + (rd8 ie (pos + 1) + 2))
        (left - ((rd8 ie (pos + 1) : Int) + 2))
    else []

/-- The elements contained in the buffer `(ie, len)`, as offsets.  An element
takes at least two bytes, so `len` bounds their number
(`ieOffsets_fuel_stable`). -/
def bufferElements (ie : Mem) (len : Int) : List Nat := ieOffsets ie len.toNat 0 len

/-- The element at `o` is an RSN element. -/
def isRsnIe (h : Hdr) (ie : Mem) (o : Nat) : Bool := rd8 ie o == h.RSN_IE

/-- The element at `o` is a WPA vendor element: identifier 221, OUI 00:50:f2,
OUI type 1. -/
def isWpaVendorIe (h : Hdr) (ie : Mem) (o : Nat) : Bool :=
  rd8 ie o == 221 &&
  (rd8 ie (o + h.off_vend_oui) == 0x00 && rd8 ie (o + h.off_vend_oui + 1) == 0x50
    && rd8 ie (o + h.off_vend_oui + 2) == 0xf2) &&
  rd8 ie (o + h.off_vend_oui_type) == 1

/-- The element at `o` is accepted by `woal_check_rsn_ie`. -/
def rsnAccepted (h : Hdr) (ie : Mem) (o : Nat) : Bool :=
  (woal_check_rsn_ie h ie o ⟨0, 0, 0, 0, 0⟩).1

/-- The element at `o` is accepted by `woal_check_wpa_ie`. -/
def wpaAccepted (h : Hdr) (ie : Mem) (o : Nat) : Bool :=
  (woal_check_wpa_ie h ie o ⟨0, 0, 0, 0, 0⟩).1

/-- Whether the last element of a list of elements is accepted; false for the
empty list. -/
def lastAccepted (l : List Nat) (accepted : Nat → Bool) : Bool :=
  match l.getLast? with
  | some o => accepted o
  | none => false

/-- The last RSN element of the buffer exists and is accepted. -/
def lastRsnAccepted (h : Hdr) (ie : Mem) (len : Int) : Bool :=
  lastAccepted ((bufferElements ie len).filter (isRsnIe h ie)) (rsnAccepted h ie)

/-- The last WPA vendor element of the buffer exists and is accepted. -/
def lastWpaAccepted (h : Hdr) (ie : Mem) (len : Int) : Bool :=
  lastAccepted ((bufferElements ie len).filter (isWpaVendorIe h ie)) (wpaAccepted h ie)


/-! ## Driver state, firmware requests and the outside world -/

/-- Kernel and driver constants used by the cfg80211 handlers and declared
outside the sources (`errno.h`, `nl80211.h`, `cfg80211.h`, `mlan_decl.h`). -/
structure Consts where
  EFAULT : Nat
  EBUSY : Nat
  EINVAL : Nat
  ENOMEM : Nat
  ENOENT : Nat
  ETH_ALEN : Nat
  /-- Value of the enumerator `MLAN_STATUS_FAILURE` when stored in an `int`. -/
  MLAN_STATUS_FAILURE : Int
  IEEE80211_DFS_MIN_CAC_TIME_MS : Nat
  IEEE80211_CHAN_RADAR : Nat
  NL80211_CHAN_WIDTH_20_NOHT : Nat
  NL80211_CHAN_WIDTH_20 : Nat
  NL80211_CHAN_WIDTH_40 : Nat
  NL80211_CHAN_WIDTH_80 : Nat
  NL80211_CHAN_WIDTH_80P80 : Nat
  NL80211_CHAN_WIDTH_160 : Nat
  NL80211_CHAN_WIDTH_5 : Nat
  NL80211_CHAN_WIDTH_10 : Nat
  CHAN_BW_20MHZ : Nat
  CHAN_BW_40MHZ : Nat
  CHAN_BW_80MHZ : Nat
  SEC_CHAN_NONE : Nat
  SEC_CHAN_ABOVE : Nat
  SEC_CHAN_BELOW : Nat
  MGMT_MASK_BEACON : Nat
  MGMT_MASK_PROBE_RESP : Nat
  MGMT_MASK_ASSOC_RESP : Nat
  MGMT_MASK_BEACON_WPS_P2P : Nat
  NL80211_STA_INFO_INACTIVE_TIME : Nat
  NL80211_STA_INFO_RX_BYTES : Nat
  NL80211_STA_INFO_TX_BYTES : Nat
  NL80211_STA_INFO_RX_PACKETS : Nat
  NL80211_STA_INFO_TX_PACKETS : Nat
  NL80211_STA_INFO_SIGNAL : Nat
  NL80211_STA_INFO_TX_RETRIES : Nat
  NL80211_STA_INFO_TX_FAILED : Nat
  NL80211_STA_INFO_RX_DROP_MISC : Nat
  deriving DecidableEq, Repr

/-- The values of Linux and of the mlan headers, at which the worked examples
are evaluated; the theorems hold for every `Consts` that meets their
hypotheses. -/
def linuxConsts : Consts where
  EFAULT := 14
  EBUSY := 16
  EINVAL := 22
  ENOMEM := 12
  ENOENT := 2
  ETH_ALEN := 6
  MLAN_STATUS_FAILURE := -1
  IEEE80211_DFS_MIN_CAC_TIME_MS := 60000
  IEEE80211_CHAN_RADAR := 8
  NL80211_CHAN_WIDTH_20_NOHT := 0
  NL80211_CHAN_WIDTH_20 := 1
  NL80211_CHAN_WIDTH_40 := 2
  NL80211_CHAN_WIDTH_80 := 3
  NL80211_CHAN_WIDTH_80P80 := 4
  NL80211_CHAN_WIDTH_160 := 5
  NL80211_CHAN_WIDTH_5 := 6
  NL80211_CHAN_WIDTH_10 := 7
  CHAN_BW_20MHZ := 0
  CHAN_BW_40MHZ := 2
  CHAN_BW_80MHZ := 3
  SEC_CHAN_NONE := 0
  SEC_CHAN_ABOVE := 1
  SEC_CHAN_BELOW := 3
  MGMT_MASK_BEACON := 256
  MGMT_MASK_PROBE_RESP := 32
  MGMT_MASK_ASSOC_RESP := 2
  MGMT_MASK_BEACON_WPS_P2P := 32768
  NL80211_STA_INFO_INACTIVE_TIME := 1
  NL80211_STA_INFO_RX_BYTES := 2
  NL80211_STA_INFO_TX_BYTES := 3
  NL80211_STA_INFO_RX_PACKETS := 9
  NL80211_STA_INFO_TX_PACKETS := 10
  NL80211_STA_INFO_SIGNAL := 7
  NL80211_STA_INFO_TX_RETRIES := 11
  NL80211_STA_INFO_TX_FAILED := 12
  NL80211_STA_INFO_RX_DROP_MISC := 28

/-- The enumeration `mlan_status`; `OTHER` stands for any enumerator that the
file does not name. -/
inductive mlan_status where
  | MLAN_STATUS_FAILURE
  | MLAN_STATUS_SUCCESS
  | MLAN_STATUS_PENDING
  | OTHER (code : Nat)
  deriving DecidableEq, Repr

open mlan_status

/-- The fields of `struct cfg80211_chan_def` that the file reads, with the
fields of the `struct ieee80211_channel` it points to (`hw_value`,
`center_freq`, `band`, `flags`) flattened in. -/
structure cfg80211_chan_def where
  hw_value : Nat
  center_freq : Nat
  band : Nat
  flags : Nat
  width : Nat
  center_freq1 : Nat
  center_freq2 : Nat
  deriving DecidableEq, Repr

/-- The fields of `struct cfg80211_beacon_data` that `woal_cfg80211_set_beacon`
tests: whether each IE pointer is non-NULL, and each length. -/
structure cfg80211_beacon_data where
  tail : Bool
  tail_len : Nat
  proberesp_ies : Bool
  proberesp_ies_len : Nat
  assocresp_ies : Bool
  assocresp_ies_len : Nat
  beacon_ies : Bool
  beacon_ies_len : Nat
  deriving DecidableEq, Repr

/-- The fields of `moal_handle` used by the handlers (`drcs` is
`card_info->drcs`). -/
structure moal_handle where
  cac_period : Nat
  is_cac_timer_set : Bool
  cac_bss_index : Nat
  dfs_channel : cfg80211_chan_def
  fw_ecsa_enable : Nat
  drcs : Nat
  driver_status : Nat := 0
  surprise_removed : Nat := 0
  /-- Whether `user_scan_cfg` is a non-NULL pointer. -/
  user_scan_cfg : Bool := false
  deriving DecidableEq, Repr

/-- The fields of `moal_private` used by the handlers. -/
structure moal_private where
  phandle : moal_handle
  bss_index : Nat
  bss_started : Bool
  media_connected : Bool
  user_cac_period_msec : Nat
  channel : Nat
  bandwidth : Nat
  chan : cfg80211_chan_def
  csa_chan : cfg80211_chan_def
  beacon_after : cfg80211_beacon_data
  uap_tx_blocked : Bool
  uap_host_based : Bool := false
  /-- The bytes of the array `dscp_map`. -/
  dscp_map : List Nat := []
  cipher : Nat := 0
  /-- The bytes of the array `uap_wep_key`. -/
  uap_wep_key : List Nat := []
  multi_ap_flag : Nat := 0
  /-- Whether `csa_workqueue` is a non-NULL pointer. -/
  csa_workqueue : Bool := false
  deriving DecidableEq, Repr

/-- The `chan_band_info` passed to `woal_set_get_ap_channel`. -/
structure chan_band_info where
  channel : Nat
  chanBand : Nat
  chanWidth : Nat
  chan2Offset : Nat
  deriving DecidableEq, Repr

/-- What an ioctl request asks of the firmware: its sub-command with the
parameters the file fills in. -/
inductive IoctlCmd where
  | MLAN_OID_UAP_DEAUTH_STA (mac_addr : List Nat) (reason_code : Nat)
  | MLAN_OID_UAP_STA_LIST
  | MLAN_OID_BSS_REMOVE
  | MLAN_OID_11H_CHANNEL_CHECK (chanNum : Nat) (host_based : Bool) (millisec_dwell_time : Nat)
  deriving DecidableEq, Repr

/-- The `mac_filter` member of `mlan_uap_bss_param`; `mac_list` is the array
of addresses as bytes. -/
structure mac_filter where
  filter_mode : Nat
  mac_count : Nat
  mac_list : List Nat
  deriving DecidableEq, Repr

/-- One entry of `wmm_parameter_t.ac_params`: the bit-fields of `aci_aifsn`
and `ecw`, and `tx_op_limit`. -/
structure wmm_ac_parameters_t where
  aifsn : Nat
  acm : Nat
  aci : Nat
  ecw_max : Nat
  ecw_min : Nat
  tx_op_limit : Nat
  deriving DecidableEq, Repr

/-- The actions of `woal_uap_bss_ctrl` used by the file. -/
inductive BssCtrl where
  | UAP_BSS_START
  | UAP_BSS_STOP
  | UAP_BSS_RESET
  deriving DecidableEq, Repr

/-- Calls that leave the file, in the order they are made.  A buffer is named
by the number the allocator gave it; `kfree none` is `kfree(NULL)`. -/
inductive Event where
  | alloc_mlan_ioctl_req (req : Nat)
  | request_ioctl (req : Nat) (cmd : IoctlCmd)
  | kzalloc (buf : Nat)
  | kfree (p : Option Nat)
  | mod_timer (msec : Nat)
  | broadcast_event (hw_value : Nat)
  | mc_policy_cfg
  | get_active_intf_channel
  | clear_all_mgmt_ies
  | uap_bss_ctrl (data : BssCtrl)
  | mgmt_frame_ie (mask : Nat)
  | set_get_ap_channel (uap_channel : chan_band_info)
  | ch_switch_notify (chandef : cfg80211_chan_def)
  | netif_carrier_on
  | netif_carrier_off
  | start_queue
  | stop_queue
  | get_sys_config
  | queue_delayed_work (msec : Nat)
  | cfg80211_del_sta (mac_addr : List Nat)
  | sched_timeout (msec : Nat)
  | get_stats_info
  | get_system_time
  | update_uap_channel_dfs_state
  | cancel_scan
  | cancel_cac_block
  | cancel_chan_report_ioctl
  | cancel_chan_report_ioctl_dfs
  | update_channels_dfs_state (chanNum : Nat) (chanWidth : Nat)
  | background_cac_abort
  | cancel_timer
  | cac_event_aborted (chandef : cfg80211_chan_def)
  | flush_workqueue
  | request_set_mac_address
  | set_scan_time
  | set_sys_config_bss (pkt_forward_ctl : Nat) (preamble_type : Nat)
  | set_sys_config_filter (filter : mac_filter)
  | get_ap_wmm_para
  | set_ap_wmm_para (ac_params : List wmm_ac_parameters_t)
  deriving DecidableEq, Repr

/-- What a handler leaves behind: its return value, the driver state and the
calls it made. -/
structure Outcome where
  ret : Int
  priv : moal_private
  events : List Event
  deriving DecidableEq, Repr

/-- The common exit `if (status != MLAN_STATUS_PENDING) kfree(req);`. -/
def freeUnlessPending (status : mlan_status) (req : Option Nat) : List Event :=
  if status ≠ MLAN_STATUS_PENDING then [Event.kfree req] else []


/-! ## woal_cfg80211_start_radar_detection -/

/-- Results of the calls that `woal_cfg80211_start_radar_detection` makes
outside the file. -/
structure RadarEnv where
  /-- Status of `woal_mc_policy_cfg` and the `enable` it reads. -/
  mc_policy_status : mlan_status
  mc_policy_enable : Nat
  /-- Status of `woal_get_active_intf_channel` and the channel it reads. -/
  active_status : mlan_status
  active_channel : Nat
  /-- Buffer returned by `woal_alloc_mlan_ioctl_req`, `none` for NULL. -/
  alloc : Option Nat
  /-- Whether `woal_is_etsi_country(country_code)` is MTRUE. -/
  is_etsi : Bool
  /-- Status returned by `woal_request_ioctl`. -/
  ioctl_status : mlan_status
  deriving DecidableEq, Repr

/-- The `millisec_dwell_time` that `woal_cfg80211_start_radar_detection`
writes into the channel-check request: the assignments of the source, in
order.  The field is a `t_u32` of `mlan_ds_11h_chan_rep_req`, like the
`u32 cac_time_ms` assigned to it, so every assignment is taken modulo
`2 ^ 32`. -/
def radarDwellTime (k : Consts) (env : RadarEnv) (priv : moal_private)
    (chandef : cfg80211_chan_def) (cac_time_ms : Nat) : Nat :=
  let d0 : Nat := cac_time_ms % 2 ^ 32
  let d1 : Nat :=
    if env.is_etsi then
      let d : Nat :=
        if chandef.hw_value = 120 ∨ chandef.hw_value = 124 ∨ chandef.hw_value = 128 then
          (k.IEEE80211_DFS_MIN_CAC_TIME_MS * 10) % 2 ^ 32
        else d0
      if chandef.hw_value = 116 ∧
          (chandef.width = k.NL80211_CHAN_WIDTH_40 ∨ chandef.width = k.NL80211_CHAN_WIDTH_80) then
        (k.IEEE80211_DFS_MIN_CAC_TIME_MS * 10) % 2 ^ 32
      else d
    else d0
  if priv.user_cac_period_msec ≠ 0 then priv.user_cac_period_msec % 2 ^ 32 else d1

/-- The check made when `card_info->drcs` is set: a DFS channel is refused
when multi-channel policy is enabled and another interface is active on a
different channel.  Returns whether the request is refused and the calls made. -/
def radarDrcsCheck (env : RadarEnv) (priv : moal_private) (chandef : cfg80211_chan_def) :
    Bool × List Event :=
  if priv.phandle.drcs ≠ 0 then
    if env.mc_policy_status = MLAN_STATUS_SUCCESS then
      if env.mc_policy_enable ≠ 0 then
        if env.active_status = MLAN_STATUS_SUCCESS then
          (decide (env.active_channel ≠ chandef.hw_value),
            [Event.mc_policy_cfg, Event.get_active_intf_channel])
        else (false, [Event.mc_policy_cfg, Event.get_active_intf_channel])
      else (false, [Event.mc_policy_cfg])
    else (false, [Event.mc_policy_cfg])
  else (false, [])

/-- Embedding of `woal_cfg80211_start_radar_detection` (the signature with
`cac_time_ms`, kernels from 3.15 on).  The period handed to `woal_mod_timer`
is the `t_u32` sum `millisec_dwell_time + 1000`, taken modulo `2 ^ 32`.  The
outcome holds the writes of this function; what the callees do to the driver
state lies outside the sources. -/
def woal_cfg80211_start_radar_detection (k : Consts) (env : RadarEnv) (priv : moal_private)
    (chandef : cfg80211_chan_def) (cac_time_ms : Nat) : Outcome :=
  if priv.bss_started = true then
    { ret := -(k.EFAULT : Int), priv := priv,
      events := freeUnlessPending MLAN_STATUS_SUCCESS none }
  else if priv.phandle.cac_period ≠ 0 ∨ priv.phandle.is_cac_timer_set = true then
    { ret := -(k.EBUSY : Int), priv := priv,
      events := freeUnlessPending MLAN_STATUS_SUCCESS none }
  else
    let ev0 : List Event := [Event.broadcast_event chandef.hw_value]
    let drcs := radarDrcsCheck env priv chandef
    if drcs.1 = true then
      { ret := -(k.EINVAL : Int), priv := priv,
        events := ev0 ++ drcs.2 ++ freeUnlessPending MLAN_STATUS_SUCCESS none }
    else
      match env.alloc with
      | none =>
        { ret := -(k.ENOMEM : Int), priv := priv,
          events := ev0 ++ drcs.2 ++ freeUnlessPending MLAN_STATUS_SUCCESS none }
      | some req =>
        let dwell := radarDwellTime k env priv chandef cac_time_ms
        let ev1 : List Event := ev0 ++ drcs.2 ++
          [Event.alloc_mlan_ioctl_req req,
           Event.request_ioctl req
             (IoctlCmd.MLAN_OID_11H_CHANNEL_CHECK (chandef.hw_value % 2 ^ 8) true dwell)]
        let status := env.ioctl_status
        if status ≠ MLAN_STATUS_SUCCESS then
          { ret := -(k.EFAULT : Int), priv := priv,
            events := ev1 ++ freeUnlessPending status (some req) }
        else
          let handle : moal_handle :=
            { priv.phandle with
              dfs_channel := chandef, cac_bss_index := priv.bss_index,
              is_cac_timer_set := true }
          { ret := 0, priv := { priv with phandle := handle },
            events := ev1 ++ [Event.mod_timer ((dwell + 1000) % 2 ^ 32)]
              ++ freeUnlessPending status (some req) }


/-! ## woal_cfg80211_set_beacon -/

/-- Return values of the two calls of `woal_cfg80211_mgmt_frame_ie` that
`woal_cfg80211_set_beacon` can make. -/
structure BeaconEnv where
  mgmt_ies_ret : Int
  wps_p2p_ret : Int
  deriving DecidableEq, Repr

/-- Embedding of `woal_cfg80211_set_beacon` (kernels from 3.2 on); `params`
is `none` for a NULL pointer.  Returns `ret` and the calls made. -/
def woal_cfg80211_set_beacon (k : Consts) (env : BeaconEnv)
    (params : Option cfg80211_beacon_data) : Int × List Event :=
  match params with
  | none => (0, [])
  | some params =>
    let mask0 : Nat := 0
    let mask1 : Nat :=
      if params.tail = true ∧ params.tail_len ≠ 0 then mask0 ||| k.MGMT_MASK_BEACON else mask0
    let mask2 : Nat :=
      if params.proberesp_ies = true ∧ params.proberesp_ies_len ≠ 0 then
        mask1 ||| k.MGMT_MASK_PROBE_RESP
      else mask1
    let mask3 : Nat :=
      if params.assocresp_ies = true ∧ params.assocresp_ies_len ≠ 0 then
        mask2 ||| k.MGMT_MASK_ASSOC_RESP
      else mask2
    let mask : Nat := mask3 % 2 ^ 16
    let step1 : Int × List Event :=
      if mask ≠ 0 then (env.mgmt_ies_ret, [Event.mgmt_frame_ie mask]) else (0, [])
    if mask ≠ 0 ∧ step1.1 ≠ 0 then step1
    else if params.beacon_ies = true ∧ params.beacon_ies_len ≠ 0 then
      (env.wps_p2p_ret, step1.2 ++ [Event.mgmt_frame_ie k.MGMT_MASK_BEACON_WPS_P2P])
    else step1

/-! ## woal_switch_uap_channel -/

/-- Results of the calls that `woal_switch_uap_channel` makes outside the
file, and the value found in the uninitialised `uap_channel.bandcfg.chanWidth`. -/
structure SwitchEnv where
  /-- Return value of `woal_uap_bss_ctrl(priv, wait_option, UAP_BSS_STOP)`. -/
  stop_ret : Int
  beacon : BeaconEnv
  /-- The kernel's `ieee80211_frequency_to_channel`. -/
  frequency_to_channel : Nat → Nat
  /-- The driver's `woal_get_second_channel_offset(priv, channel)`. -/
  second_channel_offset : Nat → Nat
  /-- The driver's `woal_ieee_band_to_radio_type`. -/
  band_to_radio_type : Nat → Nat
  /-- Status of `woal_set_get_ap_channel`. -/
  set_channel_status : mlan_status
  /-- Return value of `woal_uap_bss_ctrl(priv, ..., UAP_BSS_START)`. -/
  start_ret : Int
  /-- Result of `netif_carrier_ok`. -/
  carrier_ok : Bool
  /-- Content of the local `uap_channel.bandcfg.chanWidth` before it is
  assigned; the `default` case of the width switch leaves it as it is. -/
  uninit_chanWidth : Nat

/-- The `switch (priv->csa_chan.width)` of `woal_switch_uap_channel`: the
resulting `chanWidth` and `chan2Offset`. -/
def csaWidthSwitch (k : Consts) (env : SwitchEnv) (csa_chan : cfg80211_chan_def)
    (channel : Nat) : Nat × Nat :=
  if csa_chan.width = k.NL80211_CHAN_WIDTH_5 ∨ csa_chan.width = k.NL80211_CHAN_WIDTH_10
      ∨ csa_chan.width = k.NL80211_CHAN_WIDTH_20_NOHT then
    (k.CHAN_BW_20MHZ, k.SEC_CHAN_NONE)
  else if csa_chan.width = k.NL80211_CHAN_WIDTH_20 then (k.CHAN_BW_20MHZ, k.SEC_CHAN_NONE)
  else if csa_chan.width = k.NL80211_CHAN_WIDTH_40 then
    if csa_chan.center_freq1 < csa_chan.center_freq then (k.CHAN_BW_40MHZ, k.SEC_CHAN_BELOW)
    else (k.CHAN_BW_40MHZ, k.SEC_CHAN_ABOVE)
  else if csa_chan.width = k.NL80211_CHAN_WIDTH_80 ∨ csa_chan.width = k.NL80211_CHAN_WIDTH_80P80
      ∨ csa_chan.width = k.NL80211_CHAN_WIDTH_160 then
    (k.CHAN_BW_80MHZ, env.second_channel_offset channel)
  else (env.uninit_chanWidth, k.SEC_CHAN_NONE)

/-- Embedding of `woal_switch_uap_channel`.  The function returns nothing;
`ret` of the outcome is 0.  The outcome holds the writes of this function to
`priv`; `woal_uap_bss_ctrl`, `woal_cfg80211_mgmt_frame_ie` and
`woal_set_get_ap_channel` lie outside the sources and appear as calls with a
result. -/
def woal_switch_uap_channel (k : Consts) (env : SwitchEnv) (priv : moal_private) : Outcome :=
  let ev0 : List Event := [Event.clear_all_mgmt_ies, Event.uap_bss_ctrl BssCtrl.UAP_BSS_STOP]
  if env.stop_ret ≠ 0 then { ret := 0, priv := priv, events := ev0 }
  else
    let sb := woal_cfg80211_set_beacon k env.beacon (some priv.beacon_after)
    let ev1 := ev0 ++ sb.2
    if sb.1 ≠ 0 then { ret := 0, priv := priv, events := ev1 }
    else
      let channel := env.frequency_to_channel priv.csa_chan.center_freq
      let w := csaWidthSwitch k env priv.csa_chan channel
      let uap_channel : chan_band_info :=
        { channel := channel, chanBand := env.band_to_radio_type priv.csa_chan.band,
          chanWidth := w.1, chan2Offset := w.2 }
      let ev2 := ev1 ++ [Event.set_get_ap_channel uap_channel]
      if MLAN_STATUS_SUCCESS ≠ env.set_channel_status then
        { ret := 0, priv := priv, events := ev2 }
      else
        let ev3 := ev2 ++ [Event.uap_bss_ctrl BssCtrl.UAP_BSS_START]
        if env.start_ret ≠ 0 then { ret := 0, priv := priv, events := ev3 }
        else
          let priv1 : moal_private :=
            { priv with
              channel := uap_channel.channel, bandwidth := uap_channel.chanWidth,
              chan := priv.csa_chan }
          let ev4 := ev3 ++ [Event.ch_switch_notify priv1.chan]
          if priv1.uap_tx_blocked = true then
            { ret := 0, priv := { priv1 with uap_tx_blocked := false },
              events := ev4
                ++ (if env.carrier_ok = false then [Event.netif_carrier_on] else [])
                ++ [Event.start_queue] }
          else { ret := 0, priv := priv1, events := ev4 }


/-! ## woal_enable_dfs_support -/

/-- Results of the allocation and of the request of a function that sends one
ioctl request. -/
structure IoctlEnv where
  /-- Buffer returned by `woal_alloc_mlan_ioctl_req`, `none` for NULL. -/
  alloc : Option Nat
  /-- Status returned by `woal_request_ioctl`. -/
  ioctl_status : mlan_status
  deriving DecidableEq, Repr

/-- Embedding of `woal_enable_dfs_support`: the calls it makes. -/
def woal_enable_dfs_support (k : Consts) (env : IoctlEnv) (chandef : cfg80211_chan_def) :
    List Event :=
  if chandef.flags &&& k.IEEE80211_CHAN_RADAR = 0 then []
  else
    match env.alloc with
    | none => []
    | some req =>
      [Event.alloc_mlan_ioctl_req req,
       Event.request_ioctl req
         (IoctlCmd.MLAN_OID_11H_CHANNEL_CHECK (chandef.hw_value % 2 ^ 8) true 0)]
        ++ freeUnlessPending env.ioctl_status (some req)

/-! ## woal_cfg80211_channel_switch -/

/-- The fields of `struct cfg80211_csa_settings` read by
`woal_cfg80211_channel_switch`. -/
structure cfg80211_csa_settings where
  chandef : cfg80211_chan_def
  beacon_csa : cfg80211_beacon_data
  beacon_after : cfg80211_beacon_data
  radar_required : Bool
  block_tx : Bool
  count : Nat
  deriving DecidableEq, Repr

/-- Results of the calls that `woal_cfg80211_channel_switch` makes outside
the file. -/
structure CsaEnv where
  dfs : IoctlEnv
  /-- Result of `cfg80211_chandef_identical(&params->chandef, &priv->chan)`. -/
  chandef_identical : Bool
  /-- Buffer returned by `kzalloc` for `bss_cfg`, `none` for NULL. -/
  kzalloc : Option Nat
  /-- Result of `netif_carrier_ok`. -/
  carrier_ok : Bool
  beacon : BeaconEnv
  /-- Status of `woal_set_get_sys_config(priv, MLAN_ACT_GET, ...)`. -/
  sys_config_status : mlan_status
  /-- The `beacon_period` it reads into `bss_cfg`. -/
  beacon_period : Nat
  deriving DecidableEq, Repr

/-- Embedding of `woal_cfg80211_channel_switch`; `params` is `none` for a
NULL pointer. -/
def woal_cfg80211_channel_switch (k : Consts) (env : CsaEnv) (priv : moal_private)
    (params : Option cfg80211_csa_settings) : Outcome :=
  match params with
  | none => { ret := -(k.EINVAL : Int), priv := priv, events := [Event.kfree none] }
  | some params =>
    let ev0 : List Event :=
      if params.radar_required = true then woal_enable_dfs_support k env.dfs params.chandef
      else []
    if env.chandef_identical = true then
      { ret := -(k.EINVAL : Int), priv := priv, events := ev0 ++ [Event.kfree none] }
    else
      match env.kzalloc with
      | none => { ret := -(k.EFAULT : Int), priv := priv, events := ev0 ++ [Event.kfree none] }
      | some bss_cfg =>
        let ev1 := ev0 ++ [Event.kzalloc bss_cfg]
        let blocked : moal_private × List Event :=
          if params.block_tx = true then
            ({ priv with uap_tx_blocked := true },
              (if env.carrier_ok = true then [Event.netif_carrier_off] else [])
                ++ [Event.stop_queue])
          else (priv, [])
        let priv1 := blocked.1
        let sb := woal_cfg80211_set_beacon k env.beacon (some params.beacon_csa)
        let ev2 := ev1 ++ blocked.2 ++ [Event.clear_all_mgmt_ies] ++ sb.2
        if sb.1 ≠ 0 then
          { ret := 0, priv := priv1, events := ev2 ++ [Event.kfree (some bss_cfg)] }
        else
          let priv2 : moal_private :=
            { priv1 with csa_chan := params.chandef, beacon_after := params.beacon_after }
          if priv2.phandle.fw_ecsa_enable = 0 then
            let ev3 := ev2 ++ [Event.get_sys_config]
            if MLAN_STATUS_SUCCESS ≠ env.sys_config_status then
              { ret := -(k.EFAULT : Int), priv := priv2,
                events := ev3 ++ [Event.kfree (some bss_cfg)] }
            else
              let chsw_msec : Nat := (params.count * env.beacon_period) % 2 ^ 32
              { ret := 0, priv := priv2,
                events := ev3 ++ [Event.queue_delayed_work chsw_msec,
                  Event.kfree (some bss_cfg)] }
          else
            { ret := 0, priv := priv2, events := ev2 ++ [Event.kfree (some bss_cfg)] }


/-! ## Station list requests -/

/-- The fields of one entry of the firmware station list
(`info->param.sta_list.info[i]`) read by the file. -/
structure sta_info_data where
  mac_address : List Nat
  rssi : Int
  rx_bytes : Nat
  tx_bytes : Nat
  rx_packets : Nat
  tx_packets : Nat
  last_rx_in_msec : Nat
  deriving DecidableEq, Repr

/-- The station list written by the firmware into the request buffer:
`sta_count` and what is found at `info[i]` for each index `i` (the array is
indexed with an `int`). -/
structure StaList where
  sta_count : Nat
  info : Int → sta_info_data

/-- The fields of `struct station_info` written by the file. -/
structure station_info where
  filled : Nat
  rx_bytes : Nat
  tx_bytes : Nat
  rx_packets : Nat
  tx_packets : Nat
  inactive_time : Nat
  signal : Int
  tx_failed : Nat
  tx_retries : Nat
  rx_dropped_misc : Nat
  deriving DecidableEq, Repr

/-- The test `!memcmp(a, b, ETH_ALEN)` on two MAC addresses. -/
def macEq (k : Consts) (a b : List Nat) : Bool :=
  (List.range k.ETH_ALEN).all (fun j => a.getD j 0 % 256 == b.getD j 0 % 256)

/-- The macro `BIT(n)`. -/
def BIT (n : Nat) : Nat := 2 ^ n

/-- First index below `sta_count` whose entry has the MAC address `mac`: the
index at which the search loops of the file `break`. -/
def findStation (k : Consts) (sta_list : StaList) (mac : List Nat) : Option Nat :=
  (List.range sta_list.sta_count).find? (fun i => macEq k (sta_list.info (i : Int)).mac_address mac)

/-! ## woal_deauth_station and its callers -/

/-- Embedding of `woal_deauth_station`: `ret` and the calls made. -/
def woal_deauth_station (k : Consts) (env : IoctlEnv) (mac_addr : List Nat)
    (reason_code : Nat) : Int × List Event :=
  match env.alloc with
  | none => (-(k.ENOMEM : Int), freeUnlessPending MLAN_STATUS_SUCCESS none)
  | some req =>
    let ev : List Event :=
      [Event.alloc_mlan_ioctl_req req,
       Event.request_ioctl req
         (IoctlCmd.MLAN_OID_UAP_DEAUTH_STA (mac_addr.take k.ETH_ALEN) (reason_code % 2 ^ 16))]
    if env.ioctl_status ≠ MLAN_STATUS_SUCCESS then
      (-(k.EFAULT : Int), ev ++ freeUnlessPending env.ioctl_status (some req))
    else (0, ev ++ freeUnlessPending env.ioctl_status (some req))

/-- Results of the calls made by `woal_deauth_assoc_station`. -/
structure DeauthAssocEnv where
  /-- Whether `moal_extflg_isset(priv->phandle, EXT_HOST_MLME)` holds. -/
  host_mlme : Bool
  own : IoctlEnv
  sta_list : StaList
  /-- Allocation and request of the nested `woal_deauth_station`. -/
  nested : IoctlEnv

/-- Embedding of `woal_deauth_assoc_station` (kernels from 3.8 on);
`mac_addr` is `none` for a NULL pointer. -/
def woal_deauth_assoc_station (k : Consts) (env : DeauthAssocEnv) (priv : moal_private)
    (mac_addr : Option (List Nat)) (reason_code : Nat) : Int × List Event :=
  match mac_addr with
  | none => (-(k.EINVAL : Int), [])
  | some mac =>
    let ev0 : List Event := if env.host_mlme = true then [Event.cfg80211_del_sta mac] else []
    if priv.media_connected = false then (0, ev0)
    else
      match env.own.alloc with
      | none => (-(k.ENOMEM : Int), ev0)
      | some req =>
        let ev1 := ev0 ++
          [Event.alloc_mlan_ioctl_req req, Event.request_ioctl req IoctlCmd.MLAN_OID_UAP_STA_LIST]
        let status := env.own.ioctl_status
        if status ≠ MLAN_STATUS_SUCCESS then
          (-(k.EFAULT : Int), ev1 ++ freeUnlessPending status (some req))
        else if env.sta_list.sta_count = 0 then (0, ev1 ++ freeUnlessPending status (some req))
        else
          match findStation k env.sta_list mac with
          | some _ =>
            let r := woal_deauth_station k env.nested mac reason_code
            (r.1, ev1 ++ r.2 ++ freeUnlessPending status (some req))
          | none => (0, ev1 ++ freeUnlessPending status (some req))

/-- Results of the calls made by `woal_deauth_all_station`; `nested i` is the
allocation and request of the `i`-th call of `woal_deauth_station`. -/
structure DeauthAllEnv where
  own : IoctlEnv
  sta_list : StaList
  nested : Nat → IoctlEnv

/-- The deauthentication reason used by `woal_deauth_all_station`. -/
def REASON_CODE_DEAUTH_LEAVING : Nat := 3

/-- One iteration of the loop of `woal_deauth_all_station`: deauthenticate
station `i`, keep its result as `ret` and record its calls. -/
def deauthAllBody (k : Consts) (env : DeauthAllEnv) (i : Nat) (acc : Int × List Event) :
    Int × List Event :=
  let d := woal_deauth_station k (env.nested i) (env.sta_list.info (i : Int)).mac_address
    REASON_CODE_DEAUTH_LEAVING
  (d.1, acc.2 ++ d.2)

/-- Embedding of `woal_deauth_all_station`. -/
def woal_deauth_all_station (k : Consts) (env : DeauthAllEnv) (priv : moal_private) :
    Int × List Event :=
  if priv.media_connected = false then (0, [])
  else
    match env.own.alloc with
    | none => (-(k.ENOMEM : Int), freeUnlessPending MLAN_STATUS_SUCCESS none)
    | some req =>
      let ev1 : List Event :=
        [Event.alloc_mlan_ioctl_req req, Event.request_ioctl req IoctlCmd.MLAN_OID_UAP_STA_LIST]
      let status := env.own.ioctl_status
      if status ≠ MLAN_STATUS_SUCCESS then
        (-(k.EFAULT : Int), ev1 ++ freeUnlessPending status (some req))
      else if env.sta_list.sta_count = 0 then
        (-(k.EFAULT : Int), ev1 ++ freeUnlessPending status (some req))
      else
        let r : Int × List Event :=
          forLoop env.sta_list.sta_count (deauthAllBody k env) (-(k.EFAULT : Int), ev1)
        (r.1, r.2 ++ [Event.sched_timeout 200] ++ freeUnlessPending status (some req))

/-! ## woal_bss_remove -/

/-- Embedding of `woal_bss_remove`: the status it returns and the calls made. -/
def woal_bss_remove (env : IoctlEnv) : mlan_status × List Event :=
  match env.alloc with
  | none => (MLAN_STATUS_FAILURE, freeUnlessPending MLAN_STATUS_FAILURE none)
  | some req =>
    (env.ioctl_status,
      [Event.alloc_mlan_ioctl_req req, Event.request_ioctl req IoctlCmd.MLAN_OID_BSS_REMOVE]
        ++ freeUnlessPending env.ioctl_status (some req))


/-! ## woal_uap_cfg80211_get_station and woal_uap_cfg80211_dump_station -/

/-- What the station handlers leave behind: the return value, the
`station_info` and `mac` buffers of the caller, and the calls made. -/
structure StationOutcome where
  ret : Int
  sinfo : station_info
  mac : List Nat
  events : List Event
  deriving DecidableEq, Repr

/-- Results of the calls made by `woal_uap_cfg80211_get_station`. -/
structure GetStationEnv where
  own : IoctlEnv
  sta_list : StaList
  /-- Status of `woal_get_stats_info` and the counters it reads. -/
  stats_status : mlan_status
  stats_failed : Nat
  stats_retry : Nat
  stats_fcs_error : Nat

/-- Embedding of `woal_uap_cfg80211_get_station` (kernels from 4.0 on). -/
def woal_uap_cfg80211_get_station (k : Consts) (env : GetStationEnv) (priv : moal_private)
    (mac : List Nat) (stainfo : station_info) : StationOutcome :=
  if priv.media_connected = false then
    { ret := -(k.ENOENT : Int), sinfo := stainfo, mac := mac, events := [] }
  else
    match env.own.alloc with
    | none =>
      { ret := -(k.ENOMEM : Int), sinfo := stainfo, mac := mac,
        events := freeUnlessPending MLAN_STATUS_SUCCESS none }
    | some req =>
      let ev1 : List Event :=
        [Event.alloc_mlan_ioctl_req req, Event.request_ioctl req IoctlCmd.MLAN_OID_UAP_STA_LIST]
      let status := env.own.ioctl_status
      if status ≠ MLAN_STATUS_SUCCESS then
        { ret := -(k.EFAULT : Int), sinfo := stainfo, mac := mac,
          events := ev1 ++ freeUnlessPending status (some req) }
      else
        let found : Int × station_info :=
          match findStation k env.sta_list mac with
          | some i =>
            let e := env.sta_list.info (i : Int)
            (0, { stainfo with
                  filled := BIT k.NL80211_STA_INFO_INACTIVE_TIME
                    ||| BIT k.NL80211_STA_INFO_RX_BYTES ||| BIT k.NL80211_STA_INFO_TX_BYTES
                    ||| BIT k.NL80211_STA_INFO_RX_PACKETS ||| BIT k.NL80211_STA_INFO_TX_PACKETS
                    ||| BIT k.NL80211_STA_INFO_SIGNAL,
                  rx_bytes := e.rx_bytes, tx_bytes := e.tx_bytes,
                  rx_packets := e.rx_packets, tx_packets := e.tx_packets,
                  inactive_time := 0, signal := e.rssi })
          | none => (-(k.EFAULT : Int), stainfo)
        let ev2 := ev1 ++ [Event.get_stats_info]
        if MLAN_STATUS_SUCCESS ≠ env.stats_status then
          { ret := k.MLAN_STATUS_FAILURE, sinfo := found.2, mac := mac,
            events := ev2 ++ freeUnlessPending status (some req) }
        else
          { ret := found.1,
            sinfo := { found.2 with
              filled := found.2.filled ||| (BIT k.NL80211_STA_INFO_TX_RETRIES
                ||| BIT k.NL80211_STA_INFO_TX_FAILED ||| BIT k.NL80211_STA_INFO_RX_DROP_MISC),
              tx_failed := env.stats_failed, tx_retries := env.stats_retry,
              rx_dropped_misc := env.stats_fcs_error },
            mac := mac,
            events := ev2 ++ freeUnlessPending status (some req) }

/-- Results of the calls made by `woal_uap_cfg80211_dump_station`. -/
structure DumpStationEnv where
  own : IoctlEnv
  sta_list : StaList
  /-- The `sec` and `usec` read by `moal_get_system_time`. -/
  sec : Nat
  usec : Nat

/-- Embedding of `woal_uap_cfg80211_dump_station` (kernels from 4.0 on);
`idx` is an `int`. -/
def woal_uap_cfg80211_dump_station (k : Consts) (env : DumpStationEnv) (priv : moal_private)
    (idx : Int) (mac : List Nat) (sinfo : station_info) : StationOutcome :=
  if priv.media_connected = false then
    { ret := -(k.ENOENT : Int), sinfo := sinfo, mac := mac, events := [] }
  else
    match env.own.alloc with
    | none =>
      { ret := -(k.ENOMEM : Int), sinfo := sinfo, mac := mac,
        events := freeUnlessPending MLAN_STATUS_SUCCESS none }
    | some req =>
      let ev1 : List Event :=
        [Event.alloc_mlan_ioctl_req req, Event.request_ioctl req IoctlCmd.MLAN_OID_UAP_STA_LIST]
      let status := env.own.ioctl_status
      if status ≠ MLAN_STATUS_SUCCESS then
        { ret := -(k.EFAULT : Int), sinfo := sinfo, mac := mac,
          events := ev1 ++ freeUnlessPending status (some req) }
      else if idx ≥ (env.sta_list.sta_count : Int) then
        { ret := -(k.EFAULT : Int), sinfo := sinfo, mac := mac,
          events := ev1 ++ freeUnlessPending status (some req) }
      else
        let e := env.sta_list.info idx
        let mac1 : List Nat := e.mac_address.take k.ETH_ALEN ++ mac.drop k.ETH_ALEN
        let s1 : station_info :=
          { sinfo with
            filled := BIT k.NL80211_STA_INFO_INACTIVE_TIME ||| BIT k.NL80211_STA_INFO_SIGNAL }
        if e.last_rx_in_msec ≠ 0 then
          let cur_msec : Nat := ((env.sec % 2 ^ 32) * 1000 + (env.usec % 2 ^ 32) / 1000) % 2 ^ 64
          let diff : Nat := (cur_msec + 2 ^ 64 - e.last_rx_in_msec % 2 ^ 64) % 2 ^ 64
          { ret := 0,
            sinfo := { s1 with inactive_time := diff % 2 ^ 32, signal := e.rssi },
            mac := mac1,
            events := ev1 ++ [Event.get_system_time] ++ freeUnlessPending status (some req) }
        else
          { ret := 0, sinfo := { s1 with inactive_time := 0, signal := e.rssi }, mac := mac1,
            events := ev1 ++ freeUnlessPending status (some req) }


/-! ## Reading the record of calls (specification side) -/

/-- The firmware requests sent, in order. -/
def sentRequests (events : List Event) : List IoctlCmd :=
  events.filterMap (fun e => match e with
    | Event.request_ioctl _ cmd => some cmd
    | _ => none)

/-- The periods, in milliseconds, for which the CAC timer was armed. -/
def armedTimers (events : List Event) : List Nat :=
  events.filterMap (fun e => match e with
    | Event.mod_timer msec => some msec
    | _ => none)

/-- The delays, in milliseconds, of the CSA work items queued. -/
def queuedWork (events : List Event) : List Nat :=
  events.filterMap (fun e => match e with
    | Event.queue_delayed_work msec => some msec
    | _ => none)

/-- How many times the buffer `req` was handed to `kfree`. -/
def freeCount (req : Nat) (events : List Event) : Nat :=
  events.count (Event.kfree (some req))

/-- The CAC dwell time in the words of the specification: the user period
when it is nonzero; otherwise ten times the minimum CAC time for an ETSI
country on channel 120, 124 or 128, or on channel 116 with width 40 or
80 MHz; otherwise the time supplied by the kernel. -/
def cacDwellSpec (k : Consts) (is_etsi : Bool) (user_cac_period_msec : Nat)
    (chandef : cfg80211_chan_def) (cac_time_ms : Nat) : Nat :=
  if user_cac_period_msec ≠ 0 then user_cac_period_msec
  else if is_etsi = true ∧
      (chandef.hw_value = 120 ∨ chandef.hw_value = 124 ∨ chandef.hw_value = 128 ∨
        (chandef.hw_value = 116 ∧
          (chandef.width = k.NL80211_CHAN_WIDTH_40 ∨ chandef.width = k.NL80211_CHAN_WIDTH_80)))
    then 10 * k.IEEE80211_DFS_MIN_CAC_TIME_MS
  else cac_time_ms

/-! ## Sample states for the worked examples -/

/-- A 20 MHz channel definition for channel 52 (5260 MHz, radar flag set). -/
def chandef52 : cfg80211_chan_def :=
  { hw_value := 52, center_freq := 5260, band := 1, flags := 8, width := 1,
    center_freq1 := 5260, center_freq2 := 0 }

/-- A 20 MHz channel definition for channel 36 (5180 MHz). -/
def chandef36 : cfg80211_chan_def :=
  { hw_value := 36, center_freq := 5180, band := 1, flags := 0, width := 1,
    center_freq1 := 5180, center_freq2 := 0 }

/-- Beacon data with a tail of 40 bytes and no other elements. -/
def beaconTail : cfg80211_beacon_data :=
  { tail := true, tail_len := 40, proberesp_ies := false, proberesp_ies_len := 0,
    assocresp_ies := false, assocresp_ies_len := 0, beacon_ies := false, beacon_ies_len := 0 }

/-- A handle with no CAC in progress and firmware ECSA disabled. -/
def idleHandle : moal_handle :=
  { cac_period := 0, is_cac_timer_set := false, cac_bss_index := 255,
    dfs_channel := ⟨0, 0, 0, 0, 0, 0, 0⟩, fw_ecsa_enable := 0, drcs := 0 }

/-- A BSS that is not started, on interface 0. -/
def idlePriv : moal_private :=
  { phandle := idleHandle, bss_index := 0, bss_started := false, media_connected := false,
    user_cac_period_msec := 0, channel := 0, bandwidth := 0,
    chan := ⟨0, 0, 0, 0, 0, 0, 0⟩, csa_chan := ⟨0, 0, 0, 0, 0, 0, 0⟩,
    beacon_after := beaconTail, uap_tx_blocked := false }

/-- A started BSS on channel 36 with transmission blocked for a pending
switch to channel 52. -/
def runningPriv : moal_private :=
  { phandle := idleHandle, bss_index := 0, bss_started := true, media_connected := true,
    user_cac_period_msec := 0, channel := 36, bandwidth := 0,
    chan := chandef36, csa_chan := chandef52,
    beacon_after := beaconTail, uap_tx_blocked := true }

/-- A started BSS whose handle has a CAC period pending. -/
def startedBusyPriv : moal_private :=
  { runningPriv with phandle := { idleHandle with cac_period := 1 } }

/-- Every call of the radar handler succeeds; the allocator returns buffer 1. -/
def radarEnvOk : RadarEnv :=
  { mc_policy_status := MLAN_STATUS_SUCCESS, mc_policy_enable := 0,
    active_status := MLAN_STATUS_SUCCESS, active_channel := 0,
    alloc := some 1, is_etsi := false, ioctl_status := MLAN_STATUS_SUCCESS }


/-- The enumerators of `enum nl80211_chan_width` named in the width switch
are pairwise different. -/
@[reducible] def Consts.WidthsDistinct (k : Consts) : Prop :=
  [k.NL80211_CHAN_WIDTH_5, k.NL80211_CHAN_WIDTH_10, k.NL80211_CHAN_WIDTH_20_NOHT,
    k.NL80211_CHAN_WIDTH_20, k.NL80211_CHAN_WIDTH_40, k.NL80211_CHAN_WIDTH_80,
    k.NL80211_CHAN_WIDTH_80P80, k.NL80211_CHAN_WIDTH_160].Nodup

/-- The bandwidth of a CSA target of a given width, for the widths the driver
knows: 20 MHz for 5, 10, 20-no-HT and 20, 40 MHz for 40, 80 MHz for 80, 80+80
and 160. -/
def csaTargetBandwidth (k : Consts) (width : Nat) : Option Nat :=
  if width ∈ [k.NL80211_CHAN_WIDTH_5, k.NL80211_CHAN_WIDTH_10, k.NL80211_CHAN_WIDTH_20_NOHT,
      k.NL80211_CHAN_WIDTH_20] then some k.CHAN_BW_20MHZ
  else if width = k.NL80211_CHAN_WIDTH_40 then some k.CHAN_BW_40MHZ
  else if width ∈ [k.NL80211_CHAN_WIDTH_80, k.NL80211_CHAN_WIDTH_80P80,
      k.NL80211_CHAN_WIDTH_160] then some k.CHAN_BW_80MHZ
  else none

/-- The `chan_band_info` that `woal_switch_uap_channel` hands to
`woal_set_get_ap_channel`. -/
def csaChannelInfo (k : Consts) (env : SwitchEnv) (priv : moal_private) : chan_band_info :=
  { channel := env.frequency_to_channel priv.csa_chan.center_freq,
    chanBand := env.band_to_radio_type priv.csa_chan.band,
    chanWidth := (csaWidthSwitch k env priv.csa_chan
      (env.frequency_to_channel priv.csa_chan.center_freq)).1,
    chan2Offset := (csaWidthSwitch k env priv.csa_chan
      (env.frequency_to_channel priv.csa_chan.center_freq)).2 }

/-- Every call of the channel switch succeeds. -/
def switchEnvOk : SwitchEnv :=
  { stop_ret := 0, beacon := { mgmt_ies_ret := 0, wps_p2p_ret := 0 },
    frequency_to_channel := fun f => (f - 5000) / 5,
    second_channel_offset := fun _ => 0, band_to_radio_type := fun b => b,
    set_channel_status := MLAN_STATUS_SUCCESS, start_ret := 0, carrier_ok := false,
    uninit_chanWidth := 0 }


/-- CSA settings asking for a switch to channel 52 after 5 beacons. -/
def csaTo52 : cfg80211_csa_settings :=
  { chandef := chandef52, beacon_csa := beaconTail, beacon_after := beaconTail,
    radar_required := false, block_tx := false, count := 5 }

/-- Every call of the channel-switch handler succeeds; the beacon period
read from the firmware is 100. -/
def csaEnvOk : CsaEnv :=
  { dfs := { alloc := some 1, ioctl_status := MLAN_STATUS_SUCCESS },
    chandef_identical := false, kzalloc := some 2, carrier_ok := true,
    beacon := { mgmt_ies_ret := 0, wps_p2p_ret := 0 },
    sys_config_status := MLAN_STATUS_SUCCESS, beacon_period := 100 }

/-- As `csaEnvOk`, but the read of the firmware BSS configuration fails. -/
def csaEnvConfigFails : CsaEnv := { csaEnvOk with sys_config_status := MLAN_STATUS_FAILURE }

/-- As `csaEnvOk`, but installing the CSA management IEs fails with -EFAULT. -/
def csaEnvBeaconFails : CsaEnv :=
  { csaEnvOk with beacon := { mgmt_ies_ret := -14, wps_p2p_ret := 0 } }


/-! ## Constants of the access-point entry points

Macros, enumerators, structure sizes and bit-field widths of `mlan_ieee.h`,
`mlan_decl.h`, `moal_main.h` and `nl80211.h` used by the functions below; the
headers are not among the sources, so the values are parameters. -/

structure ApConsts where
  BAND_B : Nat
  BAND_G : Nat
  BAND_GN : Nat
  BAND_GAC : Nat
  BAND_2GHZ : Nat
  BAND_5GHZ : Nat
  CHANNEL_BW_20MHZ : Nat
  PKT_FWD_INTRA_BCAST : Nat
  PKT_FWD_INTRA_UCAST : Nat
  MAX_MAC_FILTER_NUM : Nat
  sizeof_mlan_802_11_mac_addr : Nat
  MAC_FILTER_MODE_ALLOW_MAC : Nat
  MAC_FILTER_MODE_BLOCK_MAC : Nat
  NL80211_ACL_POLICY_ACCEPT_UNLESS_LISTED : Nat
  NL80211_ACL_POLICY_DENY_UNLESS_LISTED : Nat
  NL80211_AC_VO : Nat
  NL80211_AC_VI : Nat
  NL80211_AC_BE : Nat
  NL80211_AC_BK : Nat
  /-- Width in bits of the bit-field `aci_aifsn.aifsn`. -/
  bits_aifsn : Nat
  /-- Width in bits of the bit-fields `ecw.ecw_min` and `ecw.ecw_max`. -/
  bits_ecw : Nat
  sizeof_IEEEtypes_WmmParameter_t : Nat
  PROTOCOL_STATIC_WEP : Nat
  NL80211_WPA_VERSION_1 : Nat
  NL80211_WPA_VERSION_2 : Nat
  deriving Repr

/-- The values of the vendor and kernel headers. -/
def mlanApConsts : ApConsts where
  BAND_B := 1
  BAND_G := 2
  BAND_GN := 8
  BAND_GAC := 32
  BAND_2GHZ := 0
  BAND_5GHZ := 1
  CHANNEL_BW_20MHZ := 0
  PKT_FWD_INTRA_BCAST := 4
  PKT_FWD_INTRA_UCAST := 8
  MAX_MAC_FILTER_NUM := 64
  sizeof_mlan_802_11_mac_addr := 6
  MAC_FILTER_MODE_ALLOW_MAC := 1
  MAC_FILTER_MODE_BLOCK_MAC := 2
  NL80211_ACL_POLICY_ACCEPT_UNLESS_LISTED := 0
  NL80211_ACL_POLICY_DENY_UNLESS_LISTED := 1
  NL80211_AC_VO := 0
  NL80211_AC_VI := 1
  NL80211_AC_BE := 2
  NL80211_AC_BK := 3
  bits_aifsn := 4
  bits_ecw := 4
  sizeof_IEEEtypes_WmmParameter_t := 26
  PROTOCOL_STATIC_WEP := 2
  NL80211_WPA_VERSION_1 := 1
  NL80211_WPA_VERSION_2 := 2

/-! ## `woal_cfg80211_add_mon_if` -/

/-- The `netmon_band_chan_cfg` member of `monitor_iface`. -/
structure netmon_band_chan_cfg where
  band : Nat
  channel : Nat
  chan_bandwidth : Nat
  deriving DecidableEq, Repr

/-- The fields of the local `chan_band_info` that the function writes. -/
structure MonChanInfo where
  channel : Nat
  is_11n_enabled : Bool
  chanBand : Nat
  chanWidth : Nat
  deriving DecidableEq, Repr

/-- Calls made by `woal_cfg80211_add_mon_if` into code outside the sources. -/
inductive MonCall where
  | prepare_mon_if
  | set_net_monitor (enable : Bool) (flag : Nat) (cfg : Option netmon_band_chan_cfg)
  | chandef_create (chan_info : MonChanInfo)
  | register_netdevice (ndev : Nat)
  | free_netdev (ndev : Nat)
  deriving DecidableEq, Repr

/-- What the function reads of its surroundings and the results of the calls
it makes. -/
structure MonEnv where
  /-- Whether `handle->mon_if` is non-NULL on entry. -/
  mon_if_exists : Bool
  /-- Whether `woal_get_priv(handle, MLAN_BSS_ROLE_STA)` is non-NULL. -/
  sta_priv : Bool
  /-- Result of `woal_prepare_mon_if`: the `mon_ndev` of the new
  `monitor_iface`, or `none` for NULL. -/
  prepare : Option Nat
  /-- Result of the first `woal_is_any_interface_active`. -/
  any_active_first : Bool
  /-- The value of `handle->params.mon_filter`. -/
  mon_filter : Nat
  /-- The `band_chan_cfg` a freshly prepared `monitor_iface` holds. -/
  initial_cfg : netmon_band_chan_cfg
  /-- Status of `woal_set_net_monitor(..., MTRUE, ...)`. -/
  net_monitor_status : mlan_status
  /-- The `band_chan_cfg` after that call, which receives a pointer to it. -/
  cfg_after : netmon_band_chan_cfg
  /-- Result of the second `woal_is_any_interface_active`. -/
  any_active_second : Bool
  /-- Status of `woal_chandef_create`. -/
  chandef_status : mlan_status
  /-- Return value of `cfg80211_register_netdevice`. -/
  register_ret : Int
  /-- Whether the argument `new_dev` is non-NULL. -/
  new_dev : Bool

/-- Result of `woal_cfg80211_add_mon_if`: the return value, the device stored
in `handle->mon_if` (when the function stored one), the device written through
`new_dev` (when the function wrote one) and the calls made. -/
structure MonOutcome where
  ret : Int
  mon_if : Option Nat
  new_dev : Option Nat
  calls : List MonCall
  deriving DecidableEq, Repr

/-- `woal_cfg80211_add_mon_if`, for kernels from 5.12 on. The set-up of the
addresses and of the `wdev` of the new device does not influence the control
flow and is left out. -/
def woal_cfg80211_add_mon_if (k : Consts) (a : ApConsts) (env : MonEnv) : MonOutcome :=
  let ret : Int := 0
  if env.mon_if_exists then
    { ret := -(k.EFAULT : Int), mon_if := none, new_dev := none, calls := [] }
  else if !env.sta_priv then
    { ret := -(k.EFAULT : Int), mon_if := none, new_dev := none, calls := [] }
  else
    match env.prepare with
    | none => { ret := ret, mon_if := none, new_dev := none, calls := [MonCall.prepare_mon_if] }
    | some ndev =>
      let chan_info : MonChanInfo := ⟨0, false, 0, 0⟩
      let cfg : netmon_band_chan_cfg := { env.initial_cfg with channel := 0 }
      let cfg : netmon_band_chan_cfg :=
        if !env.any_active_first then
          { band := (a.BAND_B ||| a.BAND_G) ||| a.BAND_GN, channel := 1,
            chan_bandwidth := a.CHANNEL_BW_20MHZ }
        else cfg
      let chan_info : MonChanInfo :=
        if !env.any_active_first then ⟨1, true, 0, 0⟩ else chan_info
      let flag := env.mon_filter
      let calls := [MonCall.prepare_mon_if, MonCall.set_net_monitor true flag (some cfg)]
      if env.net_monitor_status ≠ MLAN_STATUS_SUCCESS then
        { ret := -(k.EFAULT : Int), mon_if := none, new_dev := none, calls := calls }
      else
        let cfg := env.cfg_after
        let chan_info : MonChanInfo :=
          if env.any_active_second then
            { channel := cfg.channel, is_11n_enabled := true,
              chanBand :=
                if cfg.band &&& (((a.BAND_B ||| a.BAND_G) ||| a.BAND_GN) ||| a.BAND_GAC) ≠ 0
                then a.BAND_2GHZ else a.BAND_5GHZ,
              chanWidth := cfg.chan_bandwidth }
          else chan_info
        let calls := calls ++ [MonCall.chandef_create chan_info]
        if env.chandef_status = MLAN_STATUS_FAILURE then
          { ret := -(k.EFAULT : Int), mon_if := none, new_dev := none,
            calls := calls ++ [MonCall.set_net_monitor false 0 none] }
        else
          let ret := env.register_ret
          let calls := calls ++ [MonCall.register_netdevice ndev]
          if ret ≠ 0 then
            { ret := ret, mon_if := none, new_dev := none,
              calls := calls ++ [MonCall.free_netdev ndev] }
          else
            { ret := ret, mon_if := some ndev,
              new_dev := if env.new_dev then some ndev else none, calls := calls }

/-- A request in which only `woal_prepare_mon_if` fails. -/
def monEnvPrepareFails : MonEnv where
  mon_if_exists := false
  sta_priv := true
  prepare := none
  any_active_first := false
  mon_filter := 0
  initial_cfg := ⟨0, 0, 0⟩
  net_monitor_status := MLAN_STATUS_SUCCESS
  cfg_after := ⟨11, 1, 0⟩
  any_active_second := false
  chandef_status := MLAN_STATUS_SUCCESS
  register_ret := 0
  new_dev := true

/-! ## `woal_cfg80211_change_bss` -/

/-- The fields of `struct bss_parameters` that the function reads. -/
structure bss_parameters where
  ap_isolate : Int
  use_short_preamble : Int
  deriving DecidableEq, Repr

/-- Results of the calls made by `woal_cfg80211_change_bss`. -/
structure ChangeBssEnv where
  /-- Result of `kzalloc`: the buffer, or `none` for NULL. -/
  kzalloc : Option Nat
  /-- Status of the `MLAN_ACT_GET` request. -/
  get_status : mlan_status
  /-- The `pkt_forward_ctl` (a `t_u8`) that the request read. -/
  pkt_forward_ctl : Nat
  stop_ret : Int
  /-- Status of the `MLAN_ACT_SET` request. -/
  set_status : mlan_status
  start_ret : Int

/-- `woal_cfg80211_change_bss`. -/
def woal_cfg80211_change_bss (k : Consts) (a : ApConsts) (env : ChangeBssEnv)
    (priv : moal_private) (params : bss_parameters) : Outcome :=
  let ret : Int := 0
  match env.kzalloc with
  | none => { ret := -(k.EFAULT : Int), priv := priv, events := [] }
  | some buf =>
    let ev := [Event.kzalloc buf, Event.get_sys_config]
    if env.get_status ≠ MLAN_STATUS_SUCCESS then
      { ret := -(k.EFAULT : Int), priv := priv, events := ev ++ [Event.kfree (some buf)] }
    else
      let pkt_forward_ctl := env.pkt_forward_ctl % 2 ^ 8
      let cfg_ctl : Nat :=
        if params.ap_isolate ≠ 0 then
          (((pkt_forward_ctl ||| a.PKT_FWD_INTRA_BCAST) % 2 ^ 8) ||| a.PKT_FWD_INTRA_UCAST) % 2 ^ 8
        else
          (pkt_forward_ctl &&& ((2 ^ 8 - 1) ^^^ (a.PKT_FWD_INTRA_BCAST % 2 ^ 8))) &&&
            ((2 ^ 8 - 1) ^^^ (a.PKT_FWD_INTRA_UCAST % 2 ^ 8))
      let change := decide (pkt_forward_ctl ≠ cfg_ctl)
      if change then
        let bss_started := decide (priv.bss_started = true)
        let ev := if bss_started then ev ++ [Event.uap_bss_ctrl BssCtrl.UAP_BSS_STOP] else ev
        let preamble_type : Nat :=
          if params.use_short_preamble = 1 then 1
          else if params.use_short_preamble = 0 then 2 else 0
        let ev := ev ++ [Event.set_sys_config_bss cfg_ctl preamble_type]
        let ret : Int := if env.set_status = MLAN_STATUS_SUCCESS then 0 else ret
        let ev := if bss_started then ev ++ [Event.uap_bss_ctrl BssCtrl.UAP_BSS_START] else ev
        { ret := ret, priv := priv, events := ev ++ [Event.kfree (some buf)] }
      else
        { ret := ret, priv := priv, events := ev ++ [Event.kfree (some buf)] }

/-- A request that turns AP isolation on while the firmware rejects the SET. -/
def changeBssEnvSetFails : ChangeBssEnv where
  kzalloc := some 1
  get_status := MLAN_STATUS_SUCCESS
  pkt_forward_ctl := 0
  stop_ret := 0
  set_status := MLAN_STATUS_FAILURE
  start_ret := 0


/-! ## `woal_cfg80211_set_mac_acl` -/

/-- The routine `moal_memcpy_ext(handle, dest, src, num, dest_size)` of the
shim layer, which copies `min(num, dest_size)` bytes: the destination after
the call. -/
def moal_memcpy_ext (dest : List Nat) (src : Mem) (num dest_size : Nat) : List Nat :=
  let n := min num dest_size
  (List.range n).map (fun j => rd8 src j) ++ dest.drop n

/-- The fields of `struct cfg80211_acl_data`; `mac_addrs` is the flexible
array of `struct mac_address` as bytes. -/
structure cfg80211_acl_data where
  acl_policy : Nat
  n_acl_entries : Int
  mac_addrs : Mem

/-- Results of the calls made by `woal_cfg80211_set_mac_acl`. -/
structure AclEnv where
  kzalloc : Option Nat
  get_status : mlan_status
  stop_ret : Int
  set_status : mlan_status
  start_ret : Int

/-- The `sys_config->filter` that `woal_cfg80211_set_mac_acl` builds between
its `memset` and the SET request; `mac_count` and `filter_mode` are `t_u16`. -/
def setMacAclFilter (a : ApConsts) (params : cfg80211_acl_data) : mac_filter :=
  let mac_list0 : List Nat :=
    List.replicate (a.MAX_MAC_FILTER_NUM * a.sizeof_mlan_802_11_mac_addr) 0
  let mac_count : Nat :=
    if params.n_acl_entries ≤ (a.MAX_MAC_FILTER_NUM : Int)
    then (params.n_acl_entries % 2 ^ 16).toNat
    else a.MAX_MAC_FILTER_NUM % 2 ^ 16
  let filter_mode : Nat :=
    if params.acl_policy = a.NL80211_ACL_POLICY_DENY_UNLESS_LISTED
    then a.MAC_FILTER_MODE_ALLOW_MAC % 2 ^ 16
    else if params.acl_policy = a.NL80211_ACL_POLICY_ACCEPT_UNLESS_LISTED
    then a.MAC_FILTER_MODE_BLOCK_MAC % 2 ^ 16
    else 0
  { filter_mode := filter_mode, mac_count := mac_count,
    mac_list := moal_memcpy_ext mac_list0 params.mac_addrs
      (mac_count * a.sizeof_mlan_802_11_mac_addr) mac_list0.length }

/-- `woal_cfg80211_set_mac_acl`. -/
def woal_cfg80211_set_mac_acl (k : Consts) (a : ApConsts) (env : AclEnv)
    (priv : moal_private) (params : cfg80211_acl_data) : Outcome :=
  let ret : Int := -(k.EFAULT : Int)
  match env.kzalloc with
  | none => { ret := -(k.EFAULT : Int), priv := priv, events := [] }
  | some buf =>
    let ev := [Event.kzalloc buf, Event.get_sys_config]
    if env.get_status ≠ MLAN_STATUS_SUCCESS then
      { ret := -(k.EFAULT : Int), priv := priv, events := ev ++ [Event.kfree (some buf)] }
    else
      let filter := setMacAclFilter a params
      let bss_started := decide (priv.bss_started = true)
      let ev := if bss_started then ev ++ [Event.uap_bss_ctrl BssCtrl.UAP_BSS_STOP] else ev
      let ev := ev ++ [Event.set_sys_config_filter filter]
      let ret : Int := if env.set_status = MLAN_STATUS_SUCCESS then 0 else ret
      let ev := ev ++ [Event.kfree (some buf)]
      let ev := if bss_started then ev ++ [Event.uap_bss_ctrl BssCtrl.UAP_BSS_START] else ev
      { ret := ret, priv := priv, events := ev }

/-- The filters of the SET requests recorded in a trace. -/
def submittedFilters (evs : List Event) : List mac_filter :=
  evs.filterMap (fun e => match e with
    | Event.set_sys_config_filter f => some f
    | _ => none)

/-- An ACL request with two addresses, and calls that all succeed. -/
def aclTwoAddrs : cfg80211_acl_data where
  acl_policy := 1
  n_acl_entries := 2
  mac_addrs := memOfList [2, 0, 0, 0, 0, 1, 2, 0, 0, 0, 0, 2]

def aclEnvOk : AclEnv where
  kzalloc := some 1
  get_status := MLAN_STATUS_SUCCESS
  stop_ret := 0
  set_status := MLAN_STATUS_SUCCESS
  start_ret := 0

/-! ## `woal_cfg80211_set_txq_params` -/

/-- The fields of `struct ieee80211_txq_params`: `ac` is an
`enum nl80211_ac`, `txop`, `cwmin` and `cwmax` are `u16`, `aifs` is `u8`. -/
structure ieee80211_txq_params where
  ac : Nat
  txop : Nat
  cwmin : Nat
  cwmax : Nat
  aifs : Nat
  deriving DecidableEq, Repr

/-- Results of the calls made by `woal_cfg80211_set_txq_params`;
`ac_params` is the array `ap_wmm_para.ac_params` that the GET request read. -/
structure TxqEnv where
  get_status : mlan_status
  ac_params : List wmm_ac_parameters_t
  set_status : mlan_status

/-- The `switch (params->ac)` of `woal_cfg80211_set_txq_params`. -/
def txqAcIndex (a : ApConsts) (ac : Nat) : Nat :=
  if ac = a.NL80211_AC_VO then 3
  else if ac = a.NL80211_AC_VI then 2
  else if ac = a.NL80211_AC_BK then 1
  else if ac = a.NL80211_AC_BE then 0
  else 0

/-- Halving loop behind `ilog2`. -/
def ilog2Aux : Nat → Nat → Nat
  | 0, _ => 0
  | fuel + 1, n => if n < 2 then 0 else ilog2Aux fuel (n / 2) + 1

/-- The kernel's `ilog2` on a positive argument: the index of the highest
set bit. -/
def ilog2 (n : Nat) : Nat := ilog2Aux n n

/-- The four assignments to `ap_wmm_para.ac_params[ac]`: the bit-fields keep
the low bits of the value assigned, `tx_op_limit` is a `t_u16`. -/
def txqEntry (a : ApConsts) (params : ieee80211_txq_params)
    (e : wmm_ac_parameters_t) : wmm_ac_parameters_t :=
  { e with
    aifsn := params.aifs % 2 ^ a.bits_aifsn,
    ecw_max := ilog2 (params.cwmax + 1) % 2 ^ a.bits_ecw,
    ecw_min := ilog2 (params.cwmin + 1) % 2 ^ a.bits_ecw,
    tx_op_limit := params.txop % 2 ^ 16 }

/-- `woal_cfg80211_set_txq_params`: the return value and the calls. -/
def woal_cfg80211_set_txq_params (k : Consts) (a : ApConsts) (env : TxqEnv)
    (params : ieee80211_txq_params) : Int × List Event :=
  let ret : Int := 0
  let ac := txqAcIndex a params.ac
  if env.get_status ≠ MLAN_STATUS_SUCCESS then (ret, [Event.get_ap_wmm_para])
  else
    let ac_params := env.ac_params.modify (txqEntry a params) ac
    let ret : Int := if env.set_status ≠ MLAN_STATUS_SUCCESS then -(k.EFAULT : Int) else ret
    (ret, [Event.get_ap_wmm_para, Event.set_ap_wmm_para ac_params])

/-- Four WMM entries as read from firmware, and calls that succeed. -/
def txqEnvOk : TxqEnv where
  get_status := MLAN_STATUS_SUCCESS
  ac_params := [⟨3, 0, 0, 10, 4, 0⟩, ⟨7, 0, 1, 10, 4, 0⟩, ⟨2, 0, 2, 4, 3, 94⟩, ⟨2, 0, 3, 3, 2, 47⟩]
  set_status := MLAN_STATUS_SUCCESS


/-- A request for the best-effort queue. -/
def txqParamsBe : ieee80211_txq_params := ⟨2, 47, 15, 1023, 3⟩


/-- The indices with which `woal_uap_cfg80211_dump_station` reads
`info->param.sta_list.info[]`, in the order of the reads of one call that
distinguishes them: the array is read, always at `idx`, only after the test
`idx >= sta_count` has failed. -/
def dumpStationIndices (env : DumpStationEnv) (priv : moal_private) (idx : Int) : List Int :=
  if priv.media_connected = false then []
  else
    match env.own.alloc with
    | none => []
    | some _ =>
      if env.own.ioctl_status ≠ MLAN_STATUS_SUCCESS then []
      else if idx ≥ (env.sta_list.sta_count : Int) then []
      else [idx]

/-- A station list with one entry at index 0; what lies before the array is
shown as an entry with other contents. -/
def oneStation : StaList where
  sta_count := 1
  info := fun i =>
    if i = 0 then ⟨[2, 0, 0, 0, 0, 1], -40, 100, 200, 3, 4, 5000⟩
    else ⟨[9, 9, 9, 9, 9, 9], -1, 0, 0, 0, 0, 0⟩

def dumpEnvOne : DumpStationEnv where
  own := { alloc := some 1, ioctl_status := MLAN_STATUS_SUCCESS }
  sta_list := oneStation
  sec := 10
  usec := 500000

def getEnvOne : GetStationEnv where
  own := { alloc := some 1, ioctl_status := MLAN_STATUS_SUCCESS }
  sta_list := oneStation
  stats_status := MLAN_STATUS_SUCCESS
  stats_failed := 0
  stats_retry := 0
  stats_fcs_error := 0

/-- A `station_info` with every field zero. -/
def emptySinfo : station_info := ⟨0, 0, 0, 0, 0, 0, 0, 0, 0, 0⟩


/-! ## `woal_cfg80211_del_beacon` -/

/-- The fields of the DFS interface's `moal_private` that the function
touches; `chan_rpt_req` is shown by its `chanNum` and `bandcfg.chanWidth`. -/
structure DfsPriv where
  radar_background : Bool
  chan_rpt_pending : Bool
  chan_rpt_chanNum : Nat
  chan_rpt_chanWidth : Nat
  deriving DecidableEq, Repr

/-- Results of the calls made by `woal_cfg80211_del_beacon`. -/
structure DelBeaconEnv where
  /-- Result of `woal_get_priv_bss_type(priv->phandle, MLAN_BSS_TYPE_DFS)`, an
  interface other than `priv`. -/
  dfs_priv : Option DfsPriv
  deauth : DeauthAllEnv
  /-- Result of `moal_extflg_isset(priv->phandle, EXT_DFS_OFFLOAD)`. -/
  dfs_offload : Bool
  /-- Return value of `woal_11h_cancel_chan_report_ioctl(priv, ...)`. -/
  cancel_report_ret : Int
  stop_ret : Int
  reset_ret : Int
  /-- Status of `woal_request_set_mac_address`. -/
  set_mac_status : mlan_status
  /-- Result of `woal_is_any_interface_active`. -/
  any_interface_active : Bool
  /-- Whether `woal_get_priv(handle, MLAN_BSS_ROLE_STA)` is non-NULL. -/
  sta_priv : Bool

/-- What `woal_cfg80211_del_beacon` leaves behind. -/
structure DelBeaconOutcome where
  ret : Int
  priv : moal_private
  dfs_priv : Option DfsPriv
  events : List Event

/-- The all-zero `struct cfg80211_chan_def`. -/
def zeroChandef : cfg80211_chan_def := ⟨0, 0, 0, 0, 0, 0, 0⟩

/-- The part of `woal_cfg80211_del_beacon` from `woal_clear_all_mgmt_ies` to
the label `done` (with `STA_SUPPORT`). -/
def delBeaconReset (env : DelBeaconEnv) (priv : moal_private) (ev : List Event) :
    moal_private × List Event :=
  let ev := ev ++ [Event.clear_all_mgmt_ies]
  let ev :=
    if !env.any_interface_active then
      if env.sta_priv && !priv.phandle.user_scan_cfg then ev ++ [Event.set_scan_time] else ev
    else ev
  ({ priv with
      cipher := 0,
      uap_wep_key := priv.uap_wep_key.map (fun _ => 0),
      channel := 0,
      bandwidth := 0,
      multi_ap_flag := 0 }, ev)

/-- The part of `woal_cfg80211_del_beacon` from
`woal_update_uap_channel_dfs_state` to `woal_cancel_cac_block`. -/
def delBeaconBegin (k : Consts) (env : DelBeaconEnv) (priv : moal_private) :
    moal_private × List Event :=
  let ev : List Event := [Event.update_uap_channel_dfs_state]
  let priv1 := { priv with uap_host_based := false }
  let ev := ev ++ [Event.cancel_scan]
  let priv2 := { priv1 with dscp_map := priv1.dscp_map.map (fun _ => 0xFF) }
  let ev := ev ++ (woal_deauth_all_station k env.deauth priv2).2
  (priv2, if env.dfs_offload then ev ++ [Event.cancel_cac_block] else ev)

/-- The block `if (dfs_priv && dfs_priv->radar_background)`. -/
def delBeaconBackground (env : DelBeaconEnv) (ev : List Event) :
    Option DfsPriv × List Event :=
  match env.dfs_priv with
  | some d =>
    if d.radar_background then
      (some { radar_background := false, chan_rpt_pending := false,
              chan_rpt_chanNum := 0, chan_rpt_chanWidth := 0 },
        ev ++ [Event.cancel_chan_report_ioctl_dfs,
          Event.update_channels_dfs_state d.chan_rpt_chanNum d.chan_rpt_chanWidth,
          Event.background_cac_abort])
    else (some d, ev)
  | none => (none, ev)

/-- The part from `memset(&priv->chan, ...)` to `flush_workqueue`. -/
def delBeaconCac (priv : moal_private) (ev : List Event) : moal_private × List Event :=
  let priv1 := { priv with chan := zeroChandef }
  let cac : moal_private × List Event :=
    if priv1.phandle.is_cac_timer_set = true ∧ priv1.bss_index = priv1.phandle.cac_bss_index then
      ({ priv1 with phandle := { priv1.phandle with
            is_cac_timer_set := false, dfs_channel := zeroChandef, cac_bss_index := 0xff } },
        ev ++ [Event.cancel_timer, Event.cancel_chan_report_ioctl,
          Event.cac_event_aborted priv1.phandle.dfs_channel])
    else (priv1, ev)
  (cac.1, if cac.1.csa_workqueue then cac.2 ++ [Event.flush_workqueue] else cac.2)

/-- The part from `if (priv->bss_started == MTRUE)` to the end: a failing
request jumps to `done` past the reset of the fields. -/
def delBeaconStop (env : DelBeaconEnv) (priv : moal_private) (ev : List Event) :
    moal_private × List Event :=
  if priv.bss_started = true then
    let ev := ev ++ [Event.uap_bss_ctrl BssCtrl.UAP_BSS_STOP]
    if env.stop_ret ≠ 0 then (priv, ev)
    else
      let ev := ev ++ [Event.uap_bss_ctrl BssCtrl.UAP_BSS_RESET]
      if env.reset_ret ≠ 0 then (priv, ev)
      else
        let ev := ev ++ [Event.request_set_mac_address]
        if env.set_mac_status = MLAN_STATUS_FAILURE then (priv, ev)
        else delBeaconReset env priv ev
  else delBeaconReset env priv ev

/-- `woal_cfg80211_del_beacon`, for kernels from 5.17 on with `UAP_CFG80211`
and `STA_SUPPORT`. -/
def woal_cfg80211_del_beacon (k : Consts) (env : DelBeaconEnv) (priv : moal_private) :
    DelBeaconOutcome :=
  let ret : Int := 0
  if priv.phandle.driver_status ≠ 0 ∨ priv.phandle.surprise_removed ≠ 0 then
    { ret := ret, priv := priv, dfs_priv := env.dfs_priv, events := [] }
  else
    let b := delBeaconBegin k env priv
    let bg := delBeaconBackground env b.2
    let c := delBeaconCac b.1 bg.2
    let r := delBeaconStop env c.1 c.2
    { ret := ret, priv := r.1, dfs_priv := bg.1, events := r.2 }

/-- A started BSS that owns a running CAC, with keys and a DSCP map set. -/
def cacOwnerPriv : moal_private :=
  { phandle := ⟨0, true, 0, chandef52, 0, 0, 0, 0, false⟩, bss_index := 0,
    bss_started := true, media_connected := false,
    user_cac_period_msec := 0, channel := 36, bandwidth := 0,
    chan := chandef36, csa_chan := chandef52,
    beacon_after := beaconTail, uap_tx_blocked := false,
    uap_host_based := true, dscp_map := [1, 2, 3, 4], cipher := 5,
    uap_wep_key := [7, 7, 7, 7], multi_ap_flag := 1, csa_workqueue := true }

/-- Every request of `woal_cfg80211_del_beacon` succeeds. -/
def delBeaconEnvOk : DelBeaconEnv where
  dfs_priv := none
  deauth := { own := { alloc := some 1, ioctl_status := MLAN_STATUS_SUCCESS },
              sta_list := oneStation,
              nested := fun _ => { alloc := some 2, ioctl_status := MLAN_STATUS_SUCCESS } }
  dfs_offload := false
  cancel_report_ret := 0
  stop_ret := 0
  reset_ret := 0
  set_mac_status := MLAN_STATUS_SUCCESS
  any_interface_active := true
  sta_priv := true


/-! ## `woal_set_wmm_ies` -/

/-- The local array `wmm_oui` of `woal_set_wmm_ies`. -/
def wmm_oui : List Nat := [0x00, 0x50, 0xf2, 0x02]

/-- The two members of `mlan_uap_bss_param` that `woal_set_wmm_ies` writes;
`wmm_para` is shown as its bytes, so its length is `sizeof(wmm_para)`. -/
structure WmmConfig where
  wmm_para : List Nat
  uap_host_based_config : Bool
  deriving DecidableEq, Repr

/-- The local variables of the element walk of `woal_set_wmm_ies` together
with the configuration being filled in. -/
structure WmmWalk where
  bytes_left : Int
  pcurrent_ptr : Nat
  sys_config : WmmConfig
  deriving DecidableEq, Repr

/-- The guard `bytes_left >= 2` of the walk. -/
def wmmWalkCond (s : WmmWalk) : Bool := decide (2 ≤ s.bytes_left)

/-- One iteration of the `while (bytes_left >= 2)` loop of
`woal_set_wmm_ies`. -/
def wmmWalkBody (h : Hdr) (a : ApConsts) (ie : Mem) (s : WmmWalk) : WmmWalk :=
  let element_id := rd8 ie s.pcurrent_ptr
  let element_len := rd8 ie (s.pcurrent_ptr + 1)
  let total_ie_len : Nat := (element_len + h.sizeof_IEEEtypes_Header_t) % 2 ^ 16
  if s.bytes_left < (total_ie_len : Int) then { s with bytes_left := 0 }
  else
    let cfg : WmmConfig :=
      if element_id = h.VENDOR_SPECIFIC_221 then
        if memcmpEq ie (s.pcurrent_ptr + h.off_vend_oui) wmm_oui h.sizeof_vend_oui
            && rd8 ie (s.pcurrent_ptr + h.off_vend_oui_type) == wmm_oui.getD 3 0 then
          if total_ie_len = a.sizeof_IEEEtypes_WmmParameter_t then
            { wmm_para := moal_memcpy_ext s.sys_config.wmm_para
                (fun j => ie (s.pcurrent_ptr + h.sizeof_IEEEtypes_Header_t + j))
                element_len s.sys_config.wmm_para.length,
              uap_host_based_config := true }
          else s.sys_config
        else s.sys_config
      else s.sys_config
    { sys_config := cfg,
      pcurrent_ptr := s.pcurrent_ptr + (element_len + 2),
      bytes_left := s.bytes_left - ((element_len : Int) + 2) }

/-- The state in which `woal_set_wmm_ies` leaves its `while` loop; `len`
iterations are enough. -/
def wmmWalk (h : Hdr) (a : ApConsts) (ie : Mem) (len : Int) (sys_config : WmmConfig) :
    WmmWalk :=
  whileLoop wmmWalkCond (wmmWalkBody h a ie) len.toNat
    { bytes_left := len, pcurrent_ptr := 0, sys_config := sys_config }

/-- `woal_set_wmm_ies`: the configuration on return. -/
def woal_set_wmm_ies (h : Hdr) (a : ApConsts) (ie : Mem) (len : Int)
    (sys_config : WmmConfig) : WmmConfig :=
  (wmmWalk h a ie len sys_config).sys_config

/-- The element at `o` is a WMM vendor element: identifier 221, OUI 00:50:f2,
OUI type 2. -/
def isWmmVendorIe (h : Hdr) (ie : Mem) (o : Nat) : Bool :=
  rd8 ie o == 221 &&
  (rd8 ie (o + h.off_vend_oui) == 0x00 && rd8 ie (o + h.off_vend_oui + 1) == 0x50
    && rd8 ie (o + h.off_vend_oui + 2) == 0xf2) &&
  rd8 ie (o + h.off_vend_oui_type) == 2

/-- The element at `o` is a WMM vendor element whose total length, header
included, is `sizeof(IEEEtypes_WmmParameter_t)`. -/
def isWmmParameterIe (h : Hdr) (a : ApConsts) (ie : Mem) (o : Nat) : Bool :=
  isWmmVendorIe h ie o && (rd8 ie (o + 1) + 2 == a.sizeof_IEEEtypes_WmmParameter_t)

/-- Copying the body of the element at `o` into `wmm_para` and setting the
flag. -/
def wmmCopy (ie : Mem) (c : WmmConfig) (o : Nat) : WmmConfig :=
  { wmm_para := moal_memcpy_ext c.wmm_para (fun j => ie (o + 2 + j)) (rd8 ie (o + 1))
      c.wmm_para.length,
    uap_host_based_config := true }

/-- A buffer with an SSID element and a WMM parameter element of 26 bytes. -/
def wmmBuffer : List Nat :=
  [0, 1, 65, 221, 24, 0, 0x50, 0xf2, 2, 1, 1, 0, 0, 3, 164, 0, 0, 39, 164, 0, 0,
   66, 67, 94, 0, 98, 50, 47, 0]


/-! ## The bytes read by `woal_find_wpa_ies` -/

/-- Offsets read by `memcmp(mem + a, pat, n)`: the bytes are compared in order
up to and including the first one that differs. -/
def memcmpReads (mem : Mem) (a : Nat) (pat : List Nat) (n : Nat) : List Nat :=
  match (List.range n).find? (fun j => rd8 mem (a + j) != pat.getD j 0) with
  | some j => (List.range (j + 1)).map (fun i => a + i)
  | none => (List.range n).map (fun i => a + i)

/-- Offsets read by `woal_check_rsn_ie` (with `sz = sizeof(IEEEtypes_Rsn_t)`
and the offsets of `group_cipher.type`, `pairwise_cipher.count` and
`pairwise_cipher.list` in it) and by `woal_check_wpa_ie` (the same for
`IEEEtypes_Wpa_t`), in program order: the two functions read the same fields
behind the same tests. -/
def checkIeReads (h : Hdr) (mem : Mem) (o sz off_group off_count off_list : Nat) : List Nat :=
  let r0 : List Nat := [o + h.off_len]
  let left : Int := (rd8 mem (o + h.off_len) : Int) + 2
  if left < (sz : Int) then r0
  else
    let r1 := r0 ++ [o + off_group, o + off_count, o + off_count + 1]
    let count : Nat := rd16le mem (o + off_count)
    if count < 1 then r1
    else
      let r2 := r1 ++ (List.range count).map
        (fun i => o + off_list + i * h.sizeof_wpa_suite + h.off_suite_type)
      let left : Int := intSubSize h.size_t_bits left (sz + count * h.sizeof_wpa_suite)
      if left < (h.sizeof_wpa_suite_auth_key_mgmt_t : Int) + (h.sizeof_wpa_suite : Int) then r2
      else
        let key_mgmt : Nat := o + sz + count * h.sizeof_wpa_suite
        let r3 := r2 ++ [key_mgmt + h.off_akm_count, key_mgmt + h.off_akm_count + 1]
        let count : Nat := rd16le mem (key_mgmt + h.off_akm_count)
        if left < (h.sizeof_wpa_suite_auth_key_mgmt_t : Int)
            + (count : Int) * (h.sizeof_wpa_suite : Int) then r3
        else
          r3 ++ (List.range count).map
            (fun i => key_mgmt + h.off_akm_list + i * h.sizeof_wpa_suite + h.off_suite_type)

/-- Offsets read by one iteration of the loop of `woal_find_wpa_ies`,
including the reads of the element reader it calls. -/
def wpaWalkBodyReads (h : Hdr) (ie : Mem) (s : WpaWalk) : List Nat :=
  let element_id := rd8 ie s.pcurrent_ptr
  let element_len := rd8 ie (s.pcurrent_ptr + 1)
  let total_ie_len : Nat := (element_len + h.sizeof_IEEEtypes_Header_t) % 2 ^ 16
  let r0 : List Nat := [s.pcurrent_ptr, s.pcurrent_ptr + 1]
  if s.bytes_left < (total_ie_len : Int) then r0
  else if element_id = h.RSN_IE then
    r0 ++ checkIeReads h ie s.pcurrent_ptr h.sizeof_IEEEtypes_Rsn_t h.off_rsn_group_type
      h.off_rsn_pairwise_count h.off_rsn_pairwise_list
  else if element_id = h.VENDOR_SPECIFIC_221 then
    let r1 := r0 ++ memcmpReads ie (s.pcurrent_ptr + h.off_vend_oui) wpa_oui h.sizeof_vend_oui
    if memcmpEq ie (s.pcurrent_ptr + h.off_vend_oui) wpa_oui h.sizeof_vend_oui then
      let r2 := r1 ++ [s.pcurrent_ptr + h.off_vend_oui_type]
      if rd8 ie (s.pcurrent_ptr + h.off_vend_oui_type) == wpa_oui.getD 3 0 then
        r2 ++ checkIeReads h ie s.pcurrent_ptr h.sizeof_IEEEtypes_Wpa_t h.off_wpa_group_type
          h.off_wpa_pairwise_count h.off_wpa_pairwise_list
      else r2
    else r1
  else r0

/-- Offsets read by the loop of `woal_find_wpa_ies` from a given state. -/
def wpaWalkReads (h : Hdr) (ie : Mem) : Nat → WpaWalk → List Nat
  | 0, _ => []
  | fuel + 1, s =>
    if wpaWalkCond s then wpaWalkBodyReads h ie s ++ wpaWalkReads h ie fuel (wpaWalkBody h ie s)
    else []

/-- Offsets of the buffer `ie` read by `woal_find_wpa_ies(priv, ie, len,
sys_config)`, in program order. -/
def findWpaIesReads (h : Hdr) (ie : Mem) (len : Int) : List Nat :=
  wpaWalkReads h ie len.toNat
    { bytes_left := len, pcurrent_ptr := 0, wpa2 := false, wpa := false,
      sys_config := ⟨0, 0, 0, 0, 0⟩ }


/-! ## `woal_cfg80211_beacon_config`: the flag `enable_11n` -/

/-- The assignments to `enable_11n` in the `switch (priv->chan.width)` of
`woal_cfg80211_beacon_config` (kernels from 3.11 on): the cases for 5 MHz,
10 MHz and 20 MHz without HT clear the flag, every other case leaves it. -/
def beaconConfigWidthSwitch (k : Consts) (width : Nat) (enable_11n : Bool) : Bool :=
  if width = k.NL80211_CHAN_WIDTH_5 ∨ width = k.NL80211_CHAN_WIDTH_10
      ∨ width = k.NL80211_CHAN_WIDTH_20_NOHT then false
  else enable_11n

/-- The security test on `enable_11n` that follows `woal_set_wmm_ies`:
`sys_config` is the configuration as the function has filled it in by then,
`wpa_versions` is `params->crypto.wpa_versions`. -/
def beaconConfigSecurity (h : Hdr) (a : ApConsts) (sys_config : SysConfig)
    (wpa_versions : Nat) (enable_11n : Bool) : Bool :=
  if sys_config.protocol = a.PROTOCOL_STATIC_WEP then false
  else if sys_config.protocol &&& (h.PROTOCOL_WPA ||| h.PROTOCOL_WPA2) ≠ 0 then
    let e1 :=
      if wpa_versions &&& a.NL80211_WPA_VERSION_1 ≠ 0
          ∧ sys_config.pairwise_cipher_wpa = h.CIPHER_TKIP then false
      else enable_11n
    if wpa_versions &&& a.NL80211_WPA_VERSION_2 ≠ 0
        ∧ sys_config.pairwise_cipher_wpa2 = h.CIPHER_TKIP then false
    else e1
  else enable_11n

/-- The value of the local `enable_11n` of `woal_cfg80211_beacon_config` when
the function reaches `if (!enable_11n)`: it is initialised to MTRUE, written
by the width switch when `priv->channel` is nonzero, and by the security
test; `channel` and `width` are `priv->channel` and `priv->chan.width` at the
switch. -/
def beaconConfigEnable11n (h : Hdr) (k : Consts) (a : ApConsts) (channel width : Nat)
    (sys_config : SysConfig) (wpa_versions : Nat) : Bool :=
  let enable_11n := true
  let enable_11n := if channel ≠ 0 then beaconConfigWidthSwitch k width enable_11n
    else enable_11n
  beaconConfigSecurity h a sys_config wpa_versions enable_11n

/-- The firmware calls that take the flag. -/
inductive HtCall where
  | set_uap_ht_tx_cfg (en : Bool)
  | uap_set_11n_status (enable : Bool)
  | get_tx_bf_cap
  deriving DecidableEq, Repr

/-- The block `if (!enable_11n) ... else ...` of
`woal_cfg80211_beacon_config`: the calls made and whether the function goes
on (a failing `woal_set_uap_ht_tx_cfg` jumps to `done` with `-EFAULT`). -/
def beaconConfigHtBlock (k : Consts) (ht_tx_cfg_ret : Int) (enable_11n : Bool) :
    Option Int × List HtCall :=
  if !enable_11n then
    if ht_tx_cfg_ret ≠ 0 then (some (-(k.EFAULT : Int)), [HtCall.set_uap_ht_tx_cfg false])
    else (none, [HtCall.set_uap_ht_tx_cfg false, HtCall.uap_set_11n_status false])
  else
    if ht_tx_cfg_ret ≠ 0 then (some (-(k.EFAULT : Int)), [HtCall.set_uap_ht_tx_cfg true])
    else (none, [HtCall.set_uap_ht_tx_cfg true, HtCall.uap_set_11n_status true,
      HtCall.get_tx_bf_cap])

/-- The flags handed to firmware by a list of calls. -/
def htFlags (calls : List HtCall) : List Bool :=
  calls.filterMap (fun c => match c with
    | HtCall.set_uap_ht_tx_cfg en => some en
    | HtCall.uap_set_11n_status enable => some enable
    | HtCall.get_tx_bf_cap => none)


/-! # Theorems -/

theorem rd8_lt (mem : Mem) (a : Nat) : rd8 mem a < 256 := by
  unfold rd8; omega

theorem rd16le_lt (mem : Mem) (a : Nat) : rd16le mem a < 65536 := by
  have h1 := rd8_lt mem a
  have h2 := rd8_lt mem (a + 1)
  unfold rd16le; omega

theorem toInt32_of_nonneg (x : Int) (h1 : x < 2 ^ 31) (u : Nat)
    (hu : (u : Int) % 2 ^ 32 = x) : toInt32 u = x := by
  unfold toInt32
  have hc : ((u % 2 ^ 32 : Nat) : Int) = x := by rw [← hu]; push_cast; rfl
  have hlt : u % 2 ^ 32 < 2 ^ 31 := by
    have : ((u % 2 ^ 32 : Nat) : Int) < 2 ^ 31 := by rw [hc]; exact h1
    exact_mod_cast this
  rw [if_pos hlt, hc]

theorem toInt32_of_neg (x : Int) (h0 : x < 0) (h1 : -(2 ^ 31) ≤ x) (u : Nat)
    (hu : (u : Int) % 2 ^ 32 = x + 2 ^ 32) : toInt32 u = x := by
  unfold toInt32
  have hc : ((u % 2 ^ 32 : Nat) : Int) = x + 2 ^ 32 := by rw [← hu]; push_cast; rfl
  have hlt : ¬ u % 2 ^ 32 < 2 ^ 31 := by
    intro hcon
    have : ((u % 2 ^ 32 : Nat) : Int) < 2 ^ 31 := by exact_mod_cast hcon
    rw [hc] at this
    omega
  rw [if_neg hlt, hc]
  omega

/-- With at least 32 bits in `size_t`, `left -= amount` is exact whenever the
difference is representable as a 32-bit `int`. -/
theorem intSubSize_eq (bits : Nat) (left : Int) (amount : Nat) (hb : 32 ≤ bits)
    (hlo : -(2 ^ 31) ≤ left - amount) (hhi : left - amount < 2 ^ 31) :
    intSubSize bits left amount = left - amount := by
  unfold intSubSize
  have hpos : (0 : Int) < 2 ^ bits := by positivity
  have hnn : 0 ≤ (left - (amount : Int)) % 2 ^ bits := Int.emod_nonneg _ (ne_of_gt hpos)
  have hdvd : ((2 : Int) ^ 32) ∣ 2 ^ bits := pow_dvd_pow 2 hb
  have hmod : ((((left - (amount : Int)) % 2 ^ bits).toNat : Nat) : Int) % 2 ^ 32
      = (left - amount) % 2 ^ 32 := by
    rw [Int.toNat_of_nonneg hnn, Int.emod_emod_of_dvd _ hdvd]
  by_cases hx : 0 ≤ left - (amount : Int)
  · apply toInt32_of_nonneg _ hhi
    rw [hmod]
    exact Int.emod_eq_of_lt hx (by omega)
  · apply toInt32_of_neg _ (by omega) hlo
    rw [hmod]
    have : (left - (amount : Int)) % 2 ^ 32 = (left - amount + 2 ^ 32) % 2 ^ 32 := by
      simp
    rw [this]
    exact Int.emod_eq_of_lt (by omega) (by omega)

/-- The result of `woal_check_rsn_ie` does not depend on the configuration it
is given. -/
theorem woal_check_rsn_ie_fst_indep (h : Hdr) (mem : Mem) (o : Nat) (c c' : SysConfig) :
    (woal_check_rsn_ie h mem o c).1 = (woal_check_rsn_ie h mem o c').1 := by
  simp only [woal_check_rsn_ie]
  split_ifs <;> rfl

/-- The result of `woal_check_wpa_ie` does not depend on the configuration it
is given. -/
theorem woal_check_wpa_ie_fst_indep (h : Hdr) (mem : Mem) (o : Nat) (c c' : SysConfig) :
    (woal_check_wpa_ie h mem o c).1 = (woal_check_wpa_ie h mem o c').1 := by
  simp only [woal_check_wpa_ie]
  split_ifs <;> rfl

/-! ## Loops over one field of the configuration -/

theorem foldl_pairwise_wpa2 (f : Nat → Nat → Nat) (l : List Nat) (c : SysConfig) :
    l.foldl (fun acc i => { acc with pairwise_cipher_wpa2 := f i acc.pairwise_cipher_wpa2 }) c
      = { c with pairwise_cipher_wpa2 :=
            l.foldl (fun a i => f i a) c.pairwise_cipher_wpa2 } := by
  induction l generalizing c with
  | nil => rfl
  | cons x xs ih => simp only [List.foldl_cons]; rw [ih]

theorem foldl_pairwise_wpa (f : Nat → Nat → Nat) (l : List Nat) (c : SysConfig) :
    l.foldl (fun acc i => { acc with pairwise_cipher_wpa := f i acc.pairwise_cipher_wpa }) c
      = { c with pairwise_cipher_wpa :=
            l.foldl (fun a i => f i a) c.pairwise_cipher_wpa } := by
  induction l generalizing c with
  | nil => rfl
  | cons x xs ih => simp only [List.foldl_cons]; rw [ih]

theorem foldl_key_mgmt (f : Nat → Nat → Nat) (l : List Nat) (c : SysConfig) :
    l.foldl (fun acc i => { acc with key_mgmt := f i acc.key_mgmt }) c
      = { c with key_mgmt := l.foldl (fun a i => f i a) c.key_mgmt } := by
  induction l generalizing c with
  | nil => rfl
  | cons x xs ih => simp only [List.foldl_cons]; rw [ih]

/-! ## The switches as bitwise ORs -/

theorem ite_mem_cons_or (x t b : Nat) (l : List Nat) :
    (if x ∈ t :: l then b else 0) = (if t = x then b else 0) ||| (if x ∈ l then b else 0) := by
  by_cases h1 : t = x
  · subst h1; by_cases h2 : t ∈ l <;> simp [h2]
  · have h1' : ¬ x = t := fun hh => h1 hh.symm
    by_cases h2 : x ∈ l <;> simp [h1, h1', h2]

theorem pairwiseSwitch_eq (h : Hdr) (hd : h.LabelsDistinct) (t cur : Nat) :
    pairwiseSwitch h t cur = cur ||| pairwiseMaskOf h [t] := by
  obtain ⟨hne, -⟩ := hd
  unfold pairwiseSwitch pairwiseMaskOf
  by_cases h1 : t = h.WPA_CIPHER_TKIP
  · subst h1; simp [hne, hne.symm]
  · by_cases h2 : t = h.WPA_CIPHER_AES_CCM
    · subst h2; simp [hne, hne.symm]
    · have h1' : ¬ h.WPA_CIPHER_TKIP = t := fun hh => h1 hh.symm
      have h2' : ¬ h.WPA_CIPHER_AES_CCM = t := fun hh => h2 hh.symm
      simp [h1, h2, h1', h2']

theorem pairwiseMaskOf_cons (h : Hdr) (t : Nat) (l : List Nat) :
    pairwiseMaskOf h (t :: l) = pairwiseMaskOf h [t] ||| pairwiseMaskOf h l := by
  unfold pairwiseMaskOf
  rw [ite_mem_cons_or, ite_mem_cons_or h.WPA_CIPHER_AES_CCM, ite_mem_cons_or _ _ _ [],
    ite_mem_cons_or h.WPA_CIPHER_AES_CCM _ _ []]
  simp only [List.not_mem_nil, if_false, Nat.or_zero]
  ac_rfl

theorem foldl_pairwiseSwitch (h : Hdr) (hd : h.LabelsDistinct) (l : List Nat) (init : Nat) :
    l.foldl (fun a t => pairwiseSwitch h t a) init = init ||| pairwiseMaskOf h l := by
  induction l generalizing init with
  | nil => simp [pairwiseMaskOf]
  | cons t l ih =>
    simp only [List.foldl_cons]
    rw [ih, pairwiseSwitch_eq h hd, pairwiseMaskOf_cons h t l, Nat.lor_assoc]


theorem rsnAkmSwitch_eq (h : Hdr) (hd : h.LabelsDistinct) (t cur : Nat) :
    rsnAkmSwitch h t cur = cur ||| keyMgmtOf h [t] := by
  obtain ⟨-, hnd⟩ := hd
  simp only [List.nodup_cons, List.mem_cons, List.mem_singleton, List.not_mem_nil, not_or,
    List.nodup_nil, and_true, not_false_eq_true] at hnd
  obtain ⟨⟨a1, a2, a3, a4⟩, ⟨b1, b2, b3⟩, ⟨c1, c2⟩, d1⟩ := hnd
  unfold rsnAkmSwitch keyMgmtOf
  simp only [List.mem_singleton]
  by_cases h1 : t = h.RSN_AKM_8021X
  · subst h1; simp [a1, a2, a3, a4, Ne.symm a1, Ne.symm a2, Ne.symm a3, Ne.symm a4]
  by_cases h2 : t = h.RSN_AKM_PSK
  · subst h2; simp [a1, b1, b2, b3, Ne.symm a1, Ne.symm b1, Ne.symm b2, Ne.symm b3]
  by_cases h3 : t = h.RSN_AKM_PSK_SHA256
  · subst h3; simp [a2, b1, c1, c2, Ne.symm a2, Ne.symm b1, Ne.symm c1, Ne.symm c2]
  by_cases h4 : t = h.RSN_AKM_SAE
  · subst h4; simp [a3, b2, c1, d1, Ne.symm a3, Ne.symm b2, Ne.symm c1, Ne.symm d1]
  by_cases h5 : t = h.RSN_AKM_OWE
  · subst h5; simp [a4, b3, c2, d1, Ne.symm a4, Ne.symm b3, Ne.symm c2, Ne.symm d1]
  simp [h1, h2, h3, h4, h5, Ne.symm h1, Ne.symm h2, Ne.symm h3, Ne.symm h4, Ne.symm h5]

theorem keyMgmtOf_cons (h : Hdr) (t : Nat) (l : List Nat) :
    keyMgmtOf h (t :: l) = keyMgmtOf h [t] ||| keyMgmtOf h l := by
  unfold keyMgmtOf
  rw [ite_mem_cons_or h.RSN_AKM_8021X, ite_mem_cons_or h.RSN_AKM_PSK,
    ite_mem_cons_or h.RSN_AKM_PSK_SHA256, ite_mem_cons_or h.RSN_AKM_SAE,
    ite_mem_cons_or h.RSN_AKM_OWE, ite_mem_cons_or h.RSN_AKM_8021X _ _ [],
    ite_mem_cons_or h.RSN_AKM_PSK _ _ [], ite_mem_cons_or h.RSN_AKM_PSK_SHA256 _ _ [],
    ite_mem_cons_or h.RSN_AKM_SAE _ _ [], ite_mem_cons_or h.RSN_AKM_OWE _ _ []]
  simp only [List.not_mem_nil, if_false, Nat.or_zero]
  ac_rfl

theorem foldl_rsnAkmSwitch (h : Hdr) (hd : h.LabelsDistinct) (l : List Nat) (init : Nat) :
    l.foldl (fun a t => rsnAkmSwitch h t a) init = init ||| keyMgmtOf h l := by
  induction l generalizing init with
  | nil => simp [keyMgmtOf]
  | cons t l ih =>
    simp only [List.foldl_cons]
    rw [ih, rsnAkmSwitch_eq h hd, keyMgmtOf_cons h t l, Nat.lor_assoc]

/-- Inside the declared length, the bytes of an element are the bytes of the
memory it lies in. -/
theorem elemByte_elementBytes (h : Hdr) (mem : Mem) (o k : Nat)
    (hk : k < rd8 mem (o + h.off_len) + 2) :
    elemByte (elementBytes h mem o) k = rd8 mem (o + k) := by
  unfold elemByte elementBytes
  rw [List.getD_eq_getElem _ _ (by simpa using hk)]
  simp

theorem elemU16_elementBytes (h : Hdr) (mem : Mem) (o k : Nat)
    (hk : k + 1 < rd8 mem (o + h.off_len) + 2) :
    elemU16 (elementBytes h mem o) k = rd16le mem (o + k) := by
  unfold elemU16 rd16le
  rw [elemByte_elementBytes h mem o k (by omega), elemByte_elementBytes h mem o (k + 1) hk]
  rfl


/-- Arithmetic form of the acceptance test of `woal_check_rsn_ie`, over the
natural numbers: the element holds the fixed part, the `p` pairwise suites and
an AKM block with room for one and for `a` suites. -/
theorem check_rsn_fst_iff (h : Hdr) (hs : h.SizesOk) (mem : Mem) (o : Nat) (c : SysConfig) :
    (woal_check_rsn_ie h mem o c).1 = true ↔
      (h.sizeof_IEEEtypes_Rsn_t ≤ rd8 mem (o + h.off_len) + 2 ∧
        1 ≤ rd16le mem (o + h.off_rsn_pairwise_count) ∧
        h.sizeof_IEEEtypes_Rsn_t
            + rd16le mem (o + h.off_rsn_pairwise_count) * h.sizeof_wpa_suite
            + h.sizeof_wpa_suite_auth_key_mgmt_t + h.sizeof_wpa_suite
          ≤ rd8 mem (o + h.off_len) + 2 ∧
        h.sizeof_IEEEtypes_Rsn_t
            + rd16le mem (o + h.off_rsn_pairwise_count) * h.sizeof_wpa_suite
            + h.sizeof_wpa_suite_auth_key_mgmt_t
            + rd16le mem (o + h.sizeof_IEEEtypes_Rsn_t
                + rd16le mem (o + h.off_rsn_pairwise_count) * h.sizeof_wpa_suite
                + h.off_akm_count) * h.sizeof_wpa_suite
          ≤ rd8 mem (o + h.off_len) + 2) := by
  obtain ⟨hb, hr, -, hss, hak⟩ := hs
  simp only [woal_check_rsn_ie]
  have hlen := rd8_lt mem (o + h.off_len)
  have hp := rd16le_lt mem (o + h.off_rsn_pairwise_count)
  generalize rd8 mem (o + h.off_len) = len at *
  generalize rd16le mem (o + h.off_rsn_pairwise_count) = p at *
  have ha := rd16le_lt mem
    (o + h.sizeof_IEEEtypes_Rsn_t + p * h.sizeof_wpa_suite + h.off_akm_count)
  generalize rd16le mem
    (o + h.sizeof_IEEEtypes_Rsn_t + p * h.sizeof_wpa_suite + h.off_akm_count) = a at *
  have hps : p * h.sizeof_wpa_suite ≤ 65535 * 1024 := Nat.mul_le_mul (by omega) hss
  have hsub : intSubSize h.size_t_bits ((len : Int) + 2)
      (h.sizeof_IEEEtypes_Rsn_t + p * h.sizeof_wpa_suite)
      = (len : Int) + 2 - ((h.sizeof_IEEEtypes_Rsn_t + p * h.sizeof_wpa_suite : Nat) : Int) :=
    intSubSize_eq _ _ _ hb (by push_cast; omega) (by push_cast; omega)
  rw [hsub]
  have hY : (a : Int) * (h.sizeof_wpa_suite : Int) = ((a * h.sizeof_wpa_suite : Nat) : Int) := by
    push_cast; rfl
  rw [hY]
  clear hsub hps hY
  generalize p * h.sizeof_wpa_suite = X
  generalize a * h.sizeof_wpa_suite = Y
  split_ifs with h1 h2 h3 h4
  all_goals simp only [Bool.false_eq_true, false_iff, true_iff, not_and, not_le, ge_iff_le,
    not_lt, not_true_eq_false, not_false_eq_true, iff_true, iff_false, and_true, true_and,
    not_not] at *
  all_goals omega

/-- Arithmetic form of the acceptance test of `woal_check_wpa_ie`. -/
theorem check_wpa_fst_iff (h : Hdr) (hs : h.SizesOk) (mem : Mem) (o : Nat) (c : SysConfig) :
    (woal_check_wpa_ie h mem o c).1 = true ↔
      (h.sizeof_IEEEtypes_Wpa_t ≤ rd8 mem (o + h.off_len) + 2 ∧
        1 ≤ rd16le mem (o + h.off_wpa_pairwise_count) ∧
        h.sizeof_IEEEtypes_Wpa_t
            + rd16le mem (o + h.off_wpa_pairwise_count) * h.sizeof_wpa_suite
            + h.sizeof_wpa_suite_auth_key_mgmt_t + h.sizeof_wpa_suite
          ≤ rd8 mem (o + h.off_len) + 2 ∧
        h.sizeof_IEEEtypes_Wpa_t
            + rd16le mem (o + h.off_wpa_pairwise_count) * h.sizeof_wpa_suite
            + h.sizeof_wpa_suite_auth_key_mgmt_t
            + rd16le mem (o + h.sizeof_IEEEtypes_Wpa_t
                + rd16le mem (o + h.off_wpa_pairwise_count) * h.sizeof_wpa_suite
                + h.off_akm_count) * h.sizeof_wpa_suite
          ≤ rd8 mem (o + h.off_len) + 2) := by
  obtain ⟨hb, -, hr, hss, hak⟩ := hs
  simp only [woal_check_wpa_ie]
  have hlen := rd8_lt mem (o + h.off_len)
  have hp := rd16le_lt mem (o + h.off_wpa_pairwise_count)
  generalize rd8 mem (o + h.off_len) = len at *
  generalize rd16le mem (o + h.off_wpa_pairwise_count) = p at *
  have ha := rd16le_lt mem
    (o + h.sizeof_IEEEtypes_Wpa_t + p * h.sizeof_wpa_suite + h.off_akm_count)
  generalize rd16le mem
    (o + h.sizeof_IEEEtypes_Wpa_t + p * h.sizeof_wpa_suite + h.off_akm_count) = a at *
  have hps : p * h.sizeof_wpa_suite ≤ 65535 * 1024 := Nat.mul_le_mul (by omega) hss
  have hsub : intSubSize h.size_t_bits ((len : Int) + 2)
      (h.sizeof_IEEEtypes_Wpa_t + p * h.sizeof_wpa_suite)
      = (len : Int) + 2 - ((h.sizeof_IEEEtypes_Wpa_t + p * h.sizeof_wpa_suite : Nat) : Int) :=
    intSubSize_eq _ _ _ hb (by push_cast; omega) (by push_cast; omega)
  rw [hsub]
  have hY : (a : Int) * (h.sizeof_wpa_suite : Int) = ((a * h.sizeof_wpa_suite : Nat) : Int) := by
    push_cast; rfl
  rw [hY]
  clear hsub hps hY
  generalize p * h.sizeof_wpa_suite = X
  generalize a * h.sizeof_wpa_suite = Y
  split_ifs with h1 h2 h3 h4
  all_goals simp only [Bool.false_eq_true, false_iff, true_iff, not_and, not_le, ge_iff_le,
    not_lt, not_true_eq_false, not_false_eq_true, iff_true, iff_false, and_true, true_and,
    not_not] at *
  all_goals omega

/-- On acceptance, the configuration returned by `woal_check_rsn_ie` is the
one built by the group switch and the two suite loops from zeroed fields. -/
theorem check_rsn_snd_of_accept (h : Hdr) (mem : Mem) (o : Nat) (c : SysConfig)
    (hacc : (woal_check_rsn_ie h mem o c).1 = true) :
    (woal_check_rsn_ie h mem o c).2 =
      forLoop (rd16le mem (o + h.sizeof_IEEEtypes_Rsn_t
          + rd16le mem (o + h.off_rsn_pairwise_count) * h.sizeof_wpa_suite + h.off_akm_count))
        (fun i c => { c with key_mgmt := (rsnAkmSwitch h
            (rd8 mem (o + h.sizeof_IEEEtypes_Rsn_t
              + rd16le mem (o + h.off_rsn_pairwise_count) * h.sizeof_wpa_suite
              + h.off_akm_list + i * h.sizeof_wpa_suite + h.off_suite_type)) c.key_mgmt) })
        (forLoop (rd16le mem (o + h.off_rsn_pairwise_count))
          (fun i c => { c with pairwise_cipher_wpa2 := (pairwiseSwitch h
              (rd8 mem (o + h.off_rsn_pairwise_list + i * h.sizeof_wpa_suite
                + h.off_suite_type)) c.pairwise_cipher_wpa2) })
          { c with
            group_cipher := groupCipherSwitch h (rd8 mem (o + h.off_rsn_group_type)) 0,
            pairwise_cipher_wpa2 := 0, key_mgmt := 0 }) := by
  simp only [woal_check_rsn_ie] at hacc ⊢
  split_ifs at hacc ⊢
  rfl


/-- In an accepted RSN element the pairwise suites read by the loop are the
listed ones. -/
theorem rsnPairwiseTypes_eq (h : Hdr) (hs : h.SizesOk) (hl : h.RsnLayoutOk) (mem : Mem)
    (o : Nat) (c : SysConfig) (hacc : (woal_check_rsn_ie h mem o c).1 = true) :
    rsnPairwiseTypes h (elementBytes h mem o)
      = (List.range (rd16le mem (o + h.off_rsn_pairwise_count))).map
          (fun i => rd8 mem (o + h.off_rsn_pairwise_list + i * h.sizeof_wpa_suite
            + h.off_suite_type)) := by
  obtain ⟨f1, f2, f3, f4⟩ := (check_rsn_fst_iff h hs mem o c).1 hacc
  obtain ⟨l1, l2, l3, l4, l5, l6⟩ := hl
  unfold rsnPairwiseTypes
  rw [elemU16_elementBytes h mem o _ (by omega)]
  apply List.map_congr_left
  intro i hi
  rw [List.mem_range] at hi
  have hmul : (i + 1) * h.sizeof_wpa_suite
      ≤ rd16le mem (o + h.off_rsn_pairwise_count) * h.sizeof_wpa_suite :=
    Nat.mul_le_mul_right _ hi
  rw [Nat.add_mul, Nat.one_mul] at hmul
  rw [elemByte_elementBytes h mem o _ (by omega)]
  congr 1
  omega

/-- In an accepted RSN element the AKM suites read by the loop are the listed
ones. -/
theorem rsnAkmTypes_eq (h : Hdr) (hs : h.SizesOk) (hl : h.RsnLayoutOk) (mem : Mem)
    (o : Nat) (c : SysConfig) (hacc : (woal_check_rsn_ie h mem o c).1 = true) :
    rsnAkmTypes h (elementBytes h mem o)
      = (List.range (rd16le mem (o + h.sizeof_IEEEtypes_Rsn_t
            + rd16le mem (o + h.off_rsn_pairwise_count) * h.sizeof_wpa_suite
            + h.off_akm_count))).map
          (fun i => rd8 mem (o + h.sizeof_IEEEtypes_Rsn_t
            + rd16le mem (o + h.off_rsn_pairwise_count) * h.sizeof_wpa_suite
            + h.off_akm_list + i * h.sizeof_wpa_suite + h.off_suite_type)) := by
  obtain ⟨f1, f2, f3, f4⟩ := (check_rsn_fst_iff h hs mem o c).1 hacc
  obtain ⟨l1, l2, l3, l4, l5, l6⟩ := hl
  unfold rsnAkmTypes rsnAkmOffset
  rw [elemU16_elementBytes h mem o h.off_rsn_pairwise_count (by omega)]
  rw [elemU16_elementBytes h mem o _ (by omega)]
  have e1 : o + (h.sizeof_IEEEtypes_Rsn_t
      + rd16le mem (o + h.off_rsn_pairwise_count) * h.sizeof_wpa_suite + h.off_akm_count)
      = o + h.sizeof_IEEEtypes_Rsn_t
        + rd16le mem (o + h.off_rsn_pairwise_count) * h.sizeof_wpa_suite + h.off_akm_count := by
    omega
  rw [e1]
  apply List.map_congr_left
  intro i hi
  rw [List.mem_range] at hi
  have hmul : (i + 1) * h.sizeof_wpa_suite
      ≤ rd16le mem (o + h.sizeof_IEEEtypes_Rsn_t
            + rd16le mem (o + h.off_rsn_pairwise_count) * h.sizeof_wpa_suite
            + h.off_akm_count) * h.sizeof_wpa_suite :=
    Nat.mul_le_mul_right _ hi
  rw [Nat.add_mul, Nat.one_mul] at hmul
  rw [elemByte_elementBytes h mem o _ (by omega)]
  congr 1
  omega

/-- C3: whenever `woal_check_rsn_ie` returns MTRUE, the three fields it
writes are functions of the bytes of the element alone, whatever they held
before: `wpa_cfg.group_cipher` is CIPHER_TKIP, CIPHER_AES_CCMP or 0 according
to the group suite type, `wpa_cfg.pairwise_cipher_wpa2` is the OR of
CIPHER_TKIP and CIPHER_AES_CCMP over the listed pairwise suites of those
types, and `key_mgmt` is the OR of the five KEY_MGMT bits over the listed AKM
suites of types 802.1X, PSK, PSK-SHA256, SAE and OWE; other suite types
contribute nothing. -/
theorem woal_check_rsn_ie_fields (h : Hdr) (hs : h.SizesOk) (hl : h.RsnLayoutOk)
    (hd : h.LabelsDistinct) (mem : Mem) (rsn_ie : Nat) (sys_config : SysConfig)
    (hacc : (woal_check_rsn_ie h mem rsn_ie sys_config).1 = true) :
    (woal_check_rsn_ie h mem rsn_ie sys_config).2.group_cipher
        = groupCipherOf h (rsnGroupType h (elementBytes h mem rsn_ie)) ∧
    (woal_check_rsn_ie h mem rsn_ie sys_config).2.pairwise_cipher_wpa2
        = pairwiseMaskOf h (rsnPairwiseTypes h (elementBytes h mem rsn_ie)) ∧
    (woal_check_rsn_ie h mem rsn_ie sys_config).2.key_mgmt
        = keyMgmtOf h (rsnAkmTypes h (elementBytes h mem rsn_ie)) := by
  rw [check_rsn_snd_of_accept h mem rsn_ie sys_config hacc,
    rsnPairwiseTypes_eq h hs hl mem rsn_ie sys_config hacc,
    rsnAkmTypes_eq h hs hl mem rsn_ie sys_config hacc]
  obtain ⟨f1, f2, f3, f4⟩ := (check_rsn_fst_iff h hs mem rsn_ie sys_config).1 hacc
  have hg : rsnGroupType h (elementBytes h mem rsn_ie)
      = rd8 mem (rsn_ie + h.off_rsn_group_type) := by
    unfold rsnGroupType
    exact elemByte_elementBytes h mem rsn_ie _ (by have := hl.1; omega)
  rw [hg]
  simp only [forLoop]
  rw [foldl_key_mgmt (fun i a => rsnAkmSwitch h
      (rd8 mem (rsn_ie + h.sizeof_IEEEtypes_Rsn_t
        + rd16le mem (rsn_ie + h.off_rsn_pairwise_count) * h.sizeof_wpa_suite
        + h.off_akm_list + i * h.sizeof_wpa_suite + h.off_suite_type)) a),
    foldl_pairwise_wpa2 (fun i a => pairwiseSwitch h
      (rd8 mem (rsn_ie + h.off_rsn_pairwise_list + i * h.sizeof_wpa_suite
        + h.off_suite_type)) a)]
  refine ⟨?_, ?_, ?_⟩
  · rfl
  · show List.foldl _ 0 _ = _
    rw [← Nat.zero_or (pairwiseMaskOf h _), ← foldl_pairwiseSwitch h hd, List.foldl_map]
  · show List.foldl _ 0 _ = _
    rw [← Nat.zero_or (keyMgmtOf h _), ← foldl_rsnAkmSwitch h hd, List.foldl_map]


/-- C2: `woal_check_rsn_ie` returns MTRUE exactly when the element is at
least `sizeof(IEEEtypes_Rsn_t)` bytes long (header included), lists at least
one pairwise suite, and what is left after the fixed part and the `p` pairwise
suites holds `sizeof(wpa_suite_auth_key_mgmt_t) + max(1, a) * sizeof(wpa_suite)`
bytes, where `p` and `a` are the little-endian pairwise and AKM suite counts;
in every other case it returns MFALSE. -/
theorem woal_check_rsn_ie_accepts_iff (h : Hdr) (hs : h.SizesOk) (mem : Mem) (rsn_ie : Nat)
    (sys_config : SysConfig) :
    let len : Int := rd8 mem (rsn_ie + h.off_len)
    let p : Nat := rd16le mem (rsn_ie + h.off_rsn_pairwise_count)
    let a : Nat := rd16le mem
      (rsn_ie + h.sizeof_IEEEtypes_Rsn_t + p * h.sizeof_wpa_suite + h.off_akm_count)
    ((woal_check_rsn_ie h mem rsn_ie sys_config).1 = true ↔
      (len + 2 ≥ (h.sizeof_IEEEtypes_Rsn_t : Int) ∧ p ≥ 1 ∧
        (len + 2) - (h.sizeof_IEEEtypes_Rsn_t : Int) - (p : Int) * (h.sizeof_wpa_suite : Int)
          ≥ (h.sizeof_wpa_suite_auth_key_mgmt_t : Int)
            + ((max 1 a : Nat) : Int) * (h.sizeof_wpa_suite : Int))) ∧
    ((woal_check_rsn_ie h mem rsn_ie sys_config).1 = false ↔
      ¬ (len + 2 ≥ (h.sizeof_IEEEtypes_Rsn_t : Int) ∧ p ≥ 1 ∧
        (len + 2) - (h.sizeof_IEEEtypes_Rsn_t : Int) - (p : Int) * (h.sizeof_wpa_suite : Int)
          ≥ (h.sizeof_wpa_suite_auth_key_mgmt_t : Int)
            + ((max 1 a : Nat) : Int) * (h.sizeof_wpa_suite : Int))) := by
  have key := check_rsn_fst_iff h hs mem rsn_ie sys_config
  dsimp only
  rw [Bool.eq_false_iff, Ne, key]
  generalize rd8 mem (rsn_ie + h.off_len) = len
  generalize rd16le mem (rsn_ie + h.off_rsn_pairwise_count) = p
  generalize rd16le mem
    (rsn_ie + h.sizeof_IEEEtypes_Rsn_t + p * h.sizeof_wpa_suite + h.off_akm_count) = a
  have hmax : ((max 1 a : Nat) : Int) * (h.sizeof_wpa_suite : Int)
      = max (((h.sizeof_wpa_suite : Nat) : Int)) (((a * h.sizeof_wpa_suite : Nat) : Int)) := by
    rcases Nat.eq_zero_or_pos a with h0 | h1
    · rw [h0]; simp
    · rw [max_eq_right h1]
      have : h.sizeof_wpa_suite ≤ a * h.sizeof_wpa_suite := Nat.le_mul_of_pos_left _ h1
      rw [max_eq_right (by exact_mod_cast this)]
      push_cast; rfl
  have hX : (p : Int) * (h.sizeof_wpa_suite : Int) = ((p * h.sizeof_wpa_suite : Nat) : Int) := by
    push_cast; rfl
  rw [hmax, hX]
  clear hmax hX key
  generalize p * h.sizeof_wpa_suite = X
  generalize a * h.sizeof_wpa_suite = Y
  have aux : (↑len + 2 ≥ (h.sizeof_IEEEtypes_Rsn_t : Int) ∧ p ≥ 1 ∧
      (↑len + 2 : Int) - ↑h.sizeof_IEEEtypes_Rsn_t - ↑X
        ≥ ↑h.sizeof_wpa_suite_auth_key_mgmt_t + max (↑h.sizeof_wpa_suite : Int) ↑Y) ↔
      (h.sizeof_IEEEtypes_Rsn_t ≤ len + 2 ∧ 1 ≤ p ∧
        h.sizeof_IEEEtypes_Rsn_t + X + h.sizeof_wpa_suite_auth_key_mgmt_t + h.sizeof_wpa_suite
          ≤ len + 2 ∧
        h.sizeof_IEEEtypes_Rsn_t + X + h.sizeof_wpa_suite_auth_key_mgmt_t + Y ≤ len + 2) := by
    rcases le_total ((h.sizeof_wpa_suite : Nat) : Int) (Y : Int) with hle | hle
    · rw [max_eq_right hle]; omega
    · rw [max_eq_left hle]; omega
  rw [aux]
  exact ⟨Iff.rfl, Iff.rfl⟩

/-- Witness for C2: the header constants of the on-air layout satisfy the
size bounds, and a WPA2-PSK/CCMP element of 22 bytes is accepted. -/
theorem woal_check_rsn_ie_accepts_iff_witness :
    wireHdr.SizesOk ∧
    (woal_check_rsn_ie wireHdr
      (memOfList [48, 20, 1, 0, 0, 15, 172, 4, 1, 0, 0, 15, 172, 4, 1, 0, 0, 15, 172, 2, 0, 0])
      0 ⟨0, 0, 0, 0, 0⟩).1 = true :=
  ⟨by decide,
   (woal_check_rsn_ie_accepts_iff wireHdr (by decide)
      (memOfList [48, 20, 1, 0, 0, 15, 172, 4, 1, 0, 0, 15, 172, 4, 1, 0, 0, 15, 172, 2, 0, 0])
      0 ⟨0, 0, 0, 0, 0⟩).1.2 (by decide)⟩

/-- Witness for C3: the on-air layout meets the hypotheses, and for the same
WPA2-PSK/CCMP element, accepted and read into a configuration with arbitrary
old values, the group cipher is CIPHER_AES_CCMP, the WPA2 pairwise mask is
CIPHER_AES_CCMP and `key_mgmt` is KEY_MGMT_PSK. -/
theorem woal_check_rsn_ie_fields_witness :
    (wireHdr.SizesOk ∧ wireHdr.RsnLayoutOk ∧ wireHdr.LabelsDistinct) ∧
    (woal_check_rsn_ie wireHdr
      (memOfList [48, 20, 1, 0, 0, 15, 172, 4, 1, 0, 0, 15, 172, 4, 1, 0, 0, 15, 172, 2, 0, 0])
      0 ⟨7, 7, 7, 7, 7⟩).1 = true ∧
    (woal_check_rsn_ie wireHdr
      (memOfList [48, 20, 1, 0, 0, 15, 172, 4, 1, 0, 0, 15, 172, 4, 1, 0, 0, 15, 172, 2, 0, 0])
      0 ⟨7, 7, 7, 7, 7⟩).2.group_cipher = 8 ∧
    (woal_check_rsn_ie wireHdr
      (memOfList [48, 20, 1, 0, 0, 15, 172, 4, 1, 0, 0, 15, 172, 4, 1, 0, 0, 15, 172, 2, 0, 0])
      0 ⟨7, 7, 7, 7, 7⟩).2.pairwise_cipher_wpa2 = 8 ∧
    (woal_check_rsn_ie wireHdr
      (memOfList [48, 20, 1, 0, 0, 15, 172, 4, 1, 0, 0, 15, 172, 4, 1, 0, 0, 15, 172, 2, 0, 0])
      0 ⟨7, 7, 7, 7, 7⟩).2.key_mgmt = 2 :=
  ⟨by decide, by decide,
   woal_check_rsn_ie_fields wireHdr (by decide) (by decide) (by decide)
    (memOfList [48, 20, 1, 0, 0, 15, 172, 4, 1, 0, 0, 15, 172, 4, 1, 0, 0, 15, 172, 2, 0, 0])
    0 ⟨7, 7, 7, 7, 7⟩ (by decide)⟩

/-! ## The element walk -/

theorem whileLoop_of_not_cond {σ : Type} (cond : σ → Bool) (body : σ → σ) (fuel : Nat) (s : σ)
    (hc : cond s = false) : whileLoop cond body fuel s = s := by
  cases fuel with
  | zero => rfl
  | succ n => simp [whileLoop, hc]

/-- An iteration of the element walk leaves at most `bytes_left - 2` bytes. -/
theorem wpaWalkBody_bytes_left (h : Hdr) (ie : Mem) (s : WpaWalk) (hc : 2 ≤ s.bytes_left) :
    (wpaWalkBody h ie s).bytes_left ≤ s.bytes_left - 2 := by
  unfold wpaWalkBody
  dsimp only
  split_ifs
  · simp; omega
  all_goals simp

/-- With `fuel` at least `bytes_left`, the loop of `woal_find_wpa_ies` ends
with its guard false: the model runs the loop to its exit. -/
theorem wpaWalk_loop_exits (h : Hdr) (ie : Mem) :
    ∀ (fuel : Nat) (s : WpaWalk), s.bytes_left ≤ fuel →
      wpaWalkCond (whileLoop wpaWalkCond (wpaWalkBody h ie) fuel s) = false := by
  intro fuel
  induction fuel with
  | zero =>
    intro s hs
    simp only [whileLoop, wpaWalkCond, decide_eq_false_iff_not, not_le]
    omega
  | succ n ih =>
    intro s hs
    unfold whileLoop
    by_cases hc : wpaWalkCond s = true
    · rw [if_pos hc]
      apply ih
      have h2 : 2 ≤ s.bytes_left := by simpa [wpaWalkCond] using hc
      have := wpaWalkBody_bytes_left h ie s h2
      push_cast at hs
      omega
    · rw [if_neg hc]
      simpa using hc

/-- The walk of `woal_find_wpa_ies` leaves its loop for every buffer and every
`len`, negative ones included. -/
theorem wpaWalk_exits (h : Hdr) (ie : Mem) (len : Int) (c : SysConfig) :
    (wpaWalk h ie len c).bytes_left < 2 := by
  have := wpaWalk_loop_exits h ie len.toNat
    { bytes_left := len, pcurrent_ptr := 0, wpa2 := false, wpa := false, sys_config := c }
    (by simp only; omega)
  simpa [wpaWalkCond, wpaWalk] using this


/-- `woal_check_rsn_ie` never writes `protocol`. -/
theorem woal_check_rsn_ie_protocol (h : Hdr) (mem : Mem) (o : Nat) (c : SysConfig) :
    (woal_check_rsn_ie h mem o c).2.protocol = c.protocol := by
  simp only [woal_check_rsn_ie, forLoop]
  split_ifs
  · rfl
  · rfl
  · rw [foldl_pairwise_wpa2 (fun i a => pairwiseSwitch h
      (rd8 mem (o + h.off_rsn_pairwise_list + i * h.sizeof_wpa_suite + h.off_suite_type)) a)]
  · rw [foldl_pairwise_wpa2 (fun i a => pairwiseSwitch h
      (rd8 mem (o + h.off_rsn_pairwise_list + i * h.sizeof_wpa_suite + h.off_suite_type)) a)]
  · rw [foldl_key_mgmt (fun i a => rsnAkmSwitch h
      (rd8 mem (o + h.sizeof_IEEEtypes_Rsn_t
        + rd16le mem (o + h.off_rsn_pairwise_count) * h.sizeof_wpa_suite
        + h.off_akm_list + i * h.sizeof_wpa_suite + h.off_suite_type)) a),
      foldl_pairwise_wpa2 (fun i a => pairwiseSwitch h
      (rd8 mem (o + h.off_rsn_pairwise_list + i * h.sizeof_wpa_suite + h.off_suite_type)) a)]

/-- `woal_check_wpa_ie` never writes `protocol`. -/
theorem woal_check_wpa_ie_protocol (h : Hdr) (mem : Mem) (o : Nat) (c : SysConfig) :
    (woal_check_wpa_ie h mem o c).2.protocol = c.protocol := by
  simp only [woal_check_wpa_ie, forLoop]
  split_ifs
  · rfl
  · rfl
  · rw [foldl_pairwise_wpa (fun i a => pairwiseSwitch h
      (rd8 mem (o + h.off_wpa_pairwise_list + i * h.sizeof_wpa_suite + h.off_suite_type)) a)]
  · rw [foldl_pairwise_wpa (fun i a => pairwiseSwitch h
      (rd8 mem (o + h.off_wpa_pairwise_list + i * h.sizeof_wpa_suite + h.off_suite_type)) a)]
  · rw [foldl_key_mgmt (fun i a => wpaAkmSwitch h
      (rd8 mem (o + h.sizeof_IEEEtypes_Wpa_t
        + rd16le mem (o + h.off_wpa_pairwise_count) * h.sizeof_wpa_suite
        + h.off_akm_list + i * h.sizeof_wpa_suite + h.off_suite_type)) a),
      foldl_pairwise_wpa (fun i a => pairwiseSwitch h
      (rd8 mem (o + h.off_wpa_pairwise_list + i * h.sizeof_wpa_suite + h.off_suite_type)) a)]

/-- The test on the vendor header made by the walk is the test for a WPA
vendor element. -/
theorem vendor_test_eq (h : Hdr) (hw : h.WalkOk) (ie : Mem) (o : Nat) :
    (rd8 ie o = h.VENDOR_SPECIFIC_221 ∧
      (memcmpEq ie (o + h.off_vend_oui) wpa_oui h.sizeof_vend_oui
        && rd8 ie (o + h.off_vend_oui_type) == wpa_oui.getD 3 0) = true)
      ↔ isWpaVendorIe h ie o = true := by
  obtain ⟨-, h3, h221, -⟩ := hw
  unfold isWpaVendorIe memcmpEq wpa_oui
  rw [h3, h221]
  simp [List.range_succ, and_assoc]


/-- The list of elements of a buffer does not depend on the bound on the
number of elements, once the bound is at least the number of bytes left:
`bufferElements` lists every element of the buffer. -/
theorem ieOffsets_fuel_stable (ie : Mem) :
    ∀ (fuel fuel' pos : Nat) (left : Int), left ≤ fuel → left ≤ fuel' →
      ieOffsets ie fuel pos left = ieOffsets ie fuel' pos left := by
  intro fuel
  induction fuel with
  | zero =>
    intro fuel' pos left h1 _
    cases fuel' with
    | zero => rfl
    | succ m =>
      have hlt := rd8_lt ie (pos + 1)
      simp only [ieOffsets]
      rw [if_neg (by push_cast at h1; omega)]
  | succ n ih =>
    intro fuel' pos left h1 h2
    have hlt := rd8_lt ie (pos + 1)
    cases fuel' with
    | zero =>
      simp only [ieOffsets]
      rw [if_neg (by push_cast at h2; omega)]
    | succ m =>
      simp only [ieOffsets]
      by_cases hc : (rd8 ie (pos + 1) : Int) + 2 ≤ left
      · rw [if_pos hc, if_pos hc]
        congr 1
        apply ih
        · push_cast at h1; omega
        · push_cast at h2; omega
      · rw [if_neg hc, if_neg hc]


/-- Result of the walk for one kind of element: the verdict on the last
element of that kind, or the initial value when there is none. -/
theorem lastVerdict_cons (p accepted : Nat → Bool) (o : Nat) (l : List Nat) (init : Bool) :
    (match ((o :: l).filter p).getLast? with
      | some x => accepted x
      | none => init)
    = (match (l.filter p).getLast? with
      | some x => accepted x
      | none => if p o then accepted o else init) := by
  by_cases hp : p o = true
  · rw [List.filter_cons_of_pos hp, List.getLast?_cons, if_pos hp]
    cases (l.filter p).getLast? <;> rfl
  · rw [List.filter_cons_of_neg hp, if_neg hp]

/-- One iteration of the walk on an element that fits: what it does to the
two verdicts, to the position and to `protocol`. -/
theorem wpaWalkBody_fits (h : Hdr) (hw : h.WalkOk) (ie : Mem) (s : WpaWalk)
    (hfit : (rd8 ie (s.pcurrent_ptr + 1) : Int) + 2 ≤ s.bytes_left) :
    (wpaWalkBody h ie s).wpa2
        = (if isRsnIe h ie s.pcurrent_ptr then rsnAccepted h ie s.pcurrent_ptr else s.wpa2) ∧
    (wpaWalkBody h ie s).wpa
        = (if isWpaVendorIe h ie s.pcurrent_ptr then wpaAccepted h ie s.pcurrent_ptr
            else s.wpa) ∧
    (wpaWalkBody h ie s).pcurrent_ptr = s.pcurrent_ptr + (rd8 ie (s.pcurrent_ptr + 1) + 2) ∧
    (wpaWalkBody h ie s).bytes_left
        = s.bytes_left - ((rd8 ie (s.pcurrent_ptr + 1) : Int) + 2) ∧
    (wpaWalkBody h ie s).sys_config.protocol = s.sys_config.protocol := by
  have hlt := rd8_lt ie (s.pcurrent_ptr + 1)
  have hvt := vendor_test_eq h hw ie s.pcurrent_ptr
  obtain ⟨h2, -, h221, hne⟩ := hw
  have htot : ((rd8 ie (s.pcurrent_ptr + 1) + h.sizeof_IEEEtypes_Header_t) % 2 ^ 16 : Nat)
      = rd8 ie (s.pcurrent_ptr + 1) + 2 := by
    rw [h2]; omega
  have hnot : ¬ s.bytes_left < ((rd8 ie (s.pcurrent_ptr + 1) + 2 : Nat) : Int) := by
    push_cast; omega
  unfold wpaWalkBody
  dsimp only
  rw [htot, if_neg hnot]
  by_cases hr : rd8 ie s.pcurrent_ptr = h.RSN_IE
  · have hv : isWpaVendorIe h ie s.pcurrent_ptr = false := by
      unfold isWpaVendorIe
      have : ¬ rd8 ie s.pcurrent_ptr = 221 := by rw [hr, ← h221]; exact hne
      simp [this]
    have hri : isRsnIe h ie s.pcurrent_ptr = true := by simp [isRsnIe, hr]
    rw [if_pos hr, hv, hri]
    refine ⟨?_, ?_, rfl, rfl, ?_⟩
    · exact woal_check_rsn_ie_fst_indep h ie _ _ _
    · rfl
    · exact woal_check_rsn_ie_protocol h ie _ _
  · have hri : isRsnIe h ie s.pcurrent_ptr = false := by simp [isRsnIe, hr]
    rw [if_neg hr, hri]
    by_cases hv : isWpaVendorIe h ie s.pcurrent_ptr = true
    · obtain ⟨hid, htest⟩ := hvt.2 hv
      rw [if_pos hid, if_pos htest, hv]
      refine ⟨rfl, ?_, rfl, rfl, ?_⟩
      · exact woal_check_wpa_ie_fst_indep h ie _ _ _
      · exact woal_check_wpa_ie_protocol h ie _ _
    · have hv' : isWpaVendorIe h ie s.pcurrent_ptr = false := by simpa using hv
      rw [hv']
      by_cases hid : rd8 ie s.pcurrent_ptr = h.VENDOR_SPECIFIC_221
      · have htest : ¬ (memcmpEq ie (s.pcurrent_ptr + h.off_vend_oui) wpa_oui h.sizeof_vend_oui
            && rd8 ie (s.pcurrent_ptr + h.off_vend_oui_type) == wpa_oui.getD 3 0) = true :=
          fun ht => hv (hvt.1 ⟨hid, ht⟩)
        rw [if_pos hid, if_neg htest]
        exact ⟨rfl, rfl, rfl, rfl, rfl⟩
      · rw [if_neg hid]
        exact ⟨rfl, rfl, rfl, rfl, rfl⟩

/-- Loop invariant of the element walk: from any state, the loop ends with
each verdict equal to the one on the last element of its kind among the
elements still ahead (the current value when there is none) and with
`protocol` untouched. -/
theorem wpaWalk_loop_spec (h : Hdr) (hw : h.WalkOk) (ie : Mem) :
    ∀ (fuel : Nat) (s : WpaWalk),
      (whileLoop wpaWalkCond (wpaWalkBody h ie) fuel s).wpa2
        = (match ((ieOffsets ie fuel s.pcurrent_ptr s.bytes_left).filter
              (isRsnIe h ie)).getLast? with
            | some o => rsnAccepted h ie o
            | none => s.wpa2) ∧
      (whileLoop wpaWalkCond (wpaWalkBody h ie) fuel s).wpa
        = (match ((ieOffsets ie fuel s.pcurrent_ptr s.bytes_left).filter
              (isWpaVendorIe h ie)).getLast? with
            | some o => wpaAccepted h ie o
            | none => s.wpa) ∧
      (whileLoop wpaWalkCond (wpaWalkBody h ie) fuel s).sys_config.protocol
        = s.sys_config.protocol := by
  intro fuel
  induction fuel with
  | zero => intro s; exact ⟨rfl, rfl, rfl⟩
  | succ n ih =>
    intro s
    have hlt := rd8_lt ie (s.pcurrent_ptr + 1)
    unfold whileLoop ieOffsets
    by_cases hfit : (rd8 ie (s.pcurrent_ptr + 1) : Int) + 2 ≤ s.bytes_left
    · have hc : wpaWalkCond s = true := by
        simp only [wpaWalkCond, decide_eq_true_eq]; omega
      obtain ⟨b1, b2, b3, b4, b5⟩ := wpaWalkBody_fits h hw ie s hfit
      obtain ⟨i1, i2, i3⟩ := ih (wpaWalkBody h ie s)
      rw [if_pos hc, if_pos hfit, lastVerdict_cons, lastVerdict_cons, i1, i2, i3,
        b1, b2, b3, b4, b5]
      exact ⟨rfl, rfl, rfl⟩
    · rw [if_neg hfit]
      by_cases hc : wpaWalkCond s = true
      · have hbody : wpaWalkBody h ie s = { s with bytes_left := 0 } := by
          unfold wpaWalkBody
          dsimp only
          rw [hw.1]
          have : ((rd8 ie (s.pcurrent_ptr + 1) + 2) % 2 ^ 16 : Nat)
              = rd8 ie (s.pcurrent_ptr + 1) + 2 := by omega
          rw [this, if_pos (by push_cast; omega)]
        rw [if_pos hc, hbody, whileLoop_of_not_cond _ _ _ _ (by simp [wpaWalkCond])]
        exact ⟨rfl, rfl, rfl⟩
      · rw [if_neg hc]
        exact ⟨rfl, rfl, rfl⟩


/-- C1 (amended): `woal_find_wpa_ies` returns MTRUE if and only if the last
RSN element of the buffer is accepted by `woal_check_rsn_ie` or the last WPA
vendor element (id 221, OUI 00:50:f2, type 1) is accepted by
`woal_check_wpa_ie`; it then sets `protocol` to PROTOCOL_WPA|PROTOCOL_WPA2
when both were accepted, PROTOCOL_WPA2 when only the RSN one was,
PROTOCOL_WPA when only the WPA one was; when it returns MFALSE, `protocol` is
left unchanged. -/
theorem woal_find_wpa_ies_last (h : Hdr) (hw : h.WalkOk) (ie : Mem) (len : Int)
    (sys_config : SysConfig) :
    ((woal_find_wpa_ies h ie len sys_config).1 = true ↔
      (lastRsnAccepted h ie len = true ∨ lastWpaAccepted h ie len = true)) ∧
    (woal_find_wpa_ies h ie len sys_config).2.protocol
      = (if lastWpaAccepted h ie len && lastRsnAccepted h ie len then
          h.PROTOCOL_WPA ||| h.PROTOCOL_WPA2
        else if lastRsnAccepted h ie len then h.PROTOCOL_WPA2
        else if lastWpaAccepted h ie len then h.PROTOCOL_WPA
        else sys_config.protocol) ∧
    ((woal_find_wpa_ies h ie len sys_config).1 = false →
      (woal_find_wpa_ies h ie len sys_config).2.protocol = sys_config.protocol) := by
  obtain ⟨i1, i2, i3⟩ := wpaWalk_loop_spec h hw ie len.toNat
    { bytes_left := len, pcurrent_ptr := 0, wpa2 := false, wpa := false,
      sys_config := sys_config }
  have e2 : (wpaWalk h ie len sys_config).wpa2 = lastRsnAccepted h ie len := i1
  have e1 : (wpaWalk h ie len sys_config).wpa = lastWpaAccepted h ie len := i2
  have e3 : (wpaWalk h ie len sys_config).sys_config.protocol = sys_config.protocol := i3
  unfold woal_find_wpa_ies
  dsimp only
  rw [e1, e2]
  cases lastRsnAccepted h ie len <;> cases lastWpaAccepted h ie len <;> simp [e3]

/-- C1 (as stated) fails: a buffer holding an accepted RSN element followed
by a second RSN element with an empty body contains an accepted RSN element,
yet `woal_find_wpa_ies` returns MFALSE, because the verdict on the second
element replaces the verdict on the first. -/
theorem woal_find_wpa_ies_not_any :
    ¬ ((woal_find_wpa_ies wireHdr
          (memOfList [48, 20, 1, 0, 0, 15, 172, 4, 1, 0, 0, 15, 172, 4, 1, 0, 0, 15, 172, 2,
            0, 0, 48, 0]) 24 ⟨0, 0, 0, 0, 0⟩).1 = true ↔
        ((∃ o ∈ bufferElements (memOfList [48, 20, 1, 0, 0, 15, 172, 4, 1, 0, 0, 15, 172, 4,
              1, 0, 0, 15, 172, 2, 0, 0, 48, 0]) 24,
            isRsnIe wireHdr (memOfList [48, 20, 1, 0, 0, 15, 172, 4, 1, 0, 0, 15, 172, 4,
              1, 0, 0, 15, 172, 2, 0, 0, 48, 0]) o = true ∧
            rsnAccepted wireHdr (memOfList [48, 20, 1, 0, 0, 15, 172, 4, 1, 0, 0, 15, 172, 4,
              1, 0, 0, 15, 172, 2, 0, 0, 48, 0]) o = true) ∨
         (∃ o ∈ bufferElements (memOfList [48, 20, 1, 0, 0, 15, 172, 4, 1, 0, 0, 15, 172, 4,
              1, 0, 0, 15, 172, 2, 0, 0, 48, 0]) 24,
            isWpaVendorIe wireHdr (memOfList [48, 20, 1, 0, 0, 15, 172, 4, 1, 0, 0, 15, 172, 4,
              1, 0, 0, 15, 172, 2, 0, 0, 48, 0]) o = true ∧
            wpaAccepted wireHdr (memOfList [48, 20, 1, 0, 0, 15, 172, 4, 1, 0, 0, 15, 172, 4,
              1, 0, 0, 15, 172, 2, 0, 0, 48, 0]) o = true))) := by
  decide

/-- Witness for C1 (amended): in a buffer with an accepted RSN element
followed by an accepted WPA vendor element the function returns MTRUE and
sets `protocol` to PROTOCOL_WPA|PROTOCOL_WPA2. -/
theorem woal_find_wpa_ies_last_witness :
    wireHdr.WalkOk ∧
    (woal_find_wpa_ies wireHdr
      (memOfList [48, 20, 1, 0, 0, 15, 172, 4, 1, 0, 0, 15, 172, 4, 1, 0, 0, 15, 172, 2, 0, 0,
        221, 22, 0, 80, 242, 1, 1, 0, 0, 80, 242, 2, 1, 0, 0, 80, 242, 2, 1, 0, 0, 80, 242, 2])
      46 ⟨0, 0, 0, 0, 0⟩).1 = true ∧
    (woal_find_wpa_ies wireHdr
      (memOfList [48, 20, 1, 0, 0, 15, 172, 4, 1, 0, 0, 15, 172, 4, 1, 0, 0, 15, 172, 2, 0, 0,
        221, 22, 0, 80, 242, 1, 1, 0, 0, 80, 242, 2, 1, 0, 0, 80, 242, 2, 1, 0, 0, 80, 242, 2])
      46 ⟨0, 0, 0, 0, 0⟩).2.protocol = 40 :=
  ⟨by decide,
   (woal_find_wpa_ies_last wireHdr (by decide) _ 46 ⟨0, 0, 0, 0, 0⟩).1.2 (by decide),
   (woal_find_wpa_ies_last wireHdr (by decide) _ 46 ⟨0, 0, 0, 0, 0⟩).2.1⟩


/-! ## woal_cfg80211_start_radar_detection -/

/-- C4 (amended): `woal_cfg80211_start_radar_detection` returns -EFAULT when
`priv->bss_started` is MTRUE and otherwise, when `handle->cac_period` is
nonzero or `handle->is_cac_timer_set` is set, returns -EBUSY; in both cases no
channel-check request is sent to firmware and `is_cac_timer_set`,
`cac_bss_index` and `dfs_channel` keep their values. -/
theorem start_radar_detection_refuses (k : Consts) (env : RadarEnv) (priv : moal_private)
    (chandef : cfg80211_chan_def) (cac_time_ms : Nat) :
    (priv.bss_started = true →
      (woal_cfg80211_start_radar_detection k env priv chandef cac_time_ms).ret
        = -(k.EFAULT : Int)) ∧
    (priv.bss_started ≠ true →
      (priv.phandle.cac_period ≠ 0 ∨ priv.phandle.is_cac_timer_set = true) →
      (woal_cfg80211_start_radar_detection k env priv chandef cac_time_ms).ret
        = -(k.EBUSY : Int)) ∧
    ((priv.bss_started = true ∨ priv.phandle.cac_period ≠ 0
        ∨ priv.phandle.is_cac_timer_set = true) →
      sentRequests (woal_cfg80211_start_radar_detection k env priv chandef cac_time_ms).events
        = [] ∧
      (woal_cfg80211_start_radar_detection k env priv chandef cac_time_ms).priv.phandle.is_cac_timer_set
        = priv.phandle.is_cac_timer_set ∧
      (woal_cfg80211_start_radar_detection k env priv chandef cac_time_ms).priv.phandle.cac_bss_index
        = priv.phandle.cac_bss_index ∧
      (woal_cfg80211_start_radar_detection k env priv chandef cac_time_ms).priv.phandle.dfs_channel
        = priv.phandle.dfs_channel) := by
  refine ⟨?_, ?_, ?_⟩
  · intro hs
    simp [woal_cfg80211_start_radar_detection, hs]
  · intro hs hb
    simp only [woal_cfg80211_start_radar_detection, if_neg hs, if_pos hb]
  · intro hcase
    by_cases hs : priv.bss_started = true
    · simp [woal_cfg80211_start_radar_detection, hs, freeUnlessPending, sentRequests]
    · have hb : priv.phandle.cac_period ≠ 0 ∨ priv.phandle.is_cac_timer_set = true := by
        rcases hcase with h1 | h2 | h3
        · exact absurd h1 hs
        · exact Or.inl h2
        · exact Or.inr h3
      simp only [woal_cfg80211_start_radar_detection, if_neg hs, if_pos hb]
      simp [freeUnlessPending, sentRequests]

/-- C4 (as stated) fails: with the BSS started and a CAC period pending on
the handle, the claim asks for -EBUSY, but the `bss_started` test comes first
and the function returns -EFAULT, which is a different value. -/
theorem start_radar_detection_started_and_busy :
    startedBusyPriv.bss_started = true ∧
    startedBusyPriv.phandle.cac_period ≠ 0 ∧
    (woal_cfg80211_start_radar_detection linuxConsts radarEnvOk startedBusyPriv
        chandef52 60000).ret = -(linuxConsts.EFAULT : Int) ∧
    (woal_cfg80211_start_radar_detection linuxConsts radarEnvOk startedBusyPriv
        chandef52 60000).ret ≠ -(linuxConsts.EBUSY : Int) := by
  decide

/-- Witness for C4 (amended): a started BSS gets -EFAULT, an idle BSS whose
handle has a CAC timer set gets -EBUSY. -/
theorem start_radar_detection_refuses_witness :
    (woal_cfg80211_start_radar_detection linuxConsts radarEnvOk runningPriv chandef52 60000).ret
      = -14 ∧
    (woal_cfg80211_start_radar_detection linuxConsts radarEnvOk
      { idlePriv with phandle := { idleHandle with is_cac_timer_set := true } }
      chandef52 60000).ret = -16 :=
  ⟨(start_radar_detection_refuses linuxConsts radarEnvOk runningPriv chandef52 60000).1
      (by decide),
   (start_radar_detection_refuses linuxConsts radarEnvOk
      { idlePriv with phandle := { idleHandle with is_cac_timer_set := true } }
      chandef52 60000).2.1 (by decide) (by decide)⟩


/-- C5 (amended): when the function reaches the channel-check ioctl and the
ioctl succeeds, it returns 0 with `handle->dfs_channel` equal to the requested
chandef, `handle->cac_bss_index` equal to `priv->bss_index`,
`handle->is_cac_timer_set` MTRUE and the CAC timer armed once, for exactly
(requested dwell time + 1000) ms whenever that sum fits the 32-bit timer
argument; when the ioctl does not succeed it returns -EFAULT, none of the
three fields is modified and the timer is not armed. -/
theorem start_radar_detection_ioctl (k : Consts) (env : RadarEnv) (priv : moal_private)
    (chandef : cfg80211_chan_def) (cac_time_ms : Nat) (req : Nat)
    (hstarted : priv.bss_started = false) (hperiod : priv.phandle.cac_period = 0)
    (htimer : priv.phandle.is_cac_timer_set = false)
    (hdrcs : (radarDrcsCheck env priv chandef).1 = false) (halloc : env.alloc = some req) :
    (env.ioctl_status = MLAN_STATUS_SUCCESS →
      (woal_cfg80211_start_radar_detection k env priv chandef cac_time_ms).ret = 0 ∧
      (woal_cfg80211_start_radar_detection k env priv chandef cac_time_ms).priv.phandle.dfs_channel
        = chandef ∧
      (woal_cfg80211_start_radar_detection k env priv chandef cac_time_ms).priv.phandle.cac_bss_index
        = priv.bss_index ∧
      (woal_cfg80211_start_radar_detection k env priv chandef cac_time_ms).priv.phandle.is_cac_timer_set
        = true ∧
      (radarDwellTime k env priv chandef cac_time_ms + 1000 < 2 ^ 32 →
        armedTimers (woal_cfg80211_start_radar_detection k env priv chandef cac_time_ms).events
          = [radarDwellTime k env priv chandef cac_time_ms + 1000])) ∧
    (env.ioctl_status ≠ MLAN_STATUS_SUCCESS →
      (woal_cfg80211_start_radar_detection k env priv chandef cac_time_ms).ret
        = -(k.EFAULT : Int) ∧
      (woal_cfg80211_start_radar_detection k env priv chandef cac_time_ms).priv.phandle.dfs_channel
        = priv.phandle.dfs_channel ∧
      (woal_cfg80211_start_radar_detection k env priv chandef cac_time_ms).priv.phandle.cac_bss_index
        = priv.phandle.cac_bss_index ∧
      (woal_cfg80211_start_radar_detection k env priv chandef cac_time_ms).priv.phandle.is_cac_timer_set
        = priv.phandle.is_cac_timer_set ∧
      armedTimers (woal_cfg80211_start_radar_detection k env priv chandef cac_time_ms).events
        = []) := by
  have hguard : ¬ (priv.phandle.cac_period ≠ 0 ∨ priv.phandle.is_cac_timer_set = true) := by
    simp [hperiod, htimer]
  have hns : ¬ priv.bss_started = true := by simp [hstarted]
  have hnd : ¬ (radarDrcsCheck env priv chandef).1 = true := by simp [hdrcs]
  constructor
  · intro hok
    simp only [woal_cfg80211_start_radar_detection, if_neg hns, if_neg hguard, if_neg hnd,
      halloc, hok, ne_eq, not_true_eq_false, if_false]
    refine ⟨trivial, trivial, trivial, trivial, ?_⟩
    intro hfit
    rw [Nat.mod_eq_of_lt hfit]
    have hd : armedTimers (radarDrcsCheck env priv chandef).2 = [] := by
      unfold radarDrcsCheck armedTimers
      split_ifs <;> rfl
    simp only [armedTimers] at hd
    simp [armedTimers, freeUnlessPending, List.filterMap_append, hd]
  · intro hfail
    simp only [woal_cfg80211_start_radar_detection, if_neg hns, if_neg hguard, if_neg hnd,
      halloc, ne_eq, hfail, not_false_eq_true, if_true]
    refine ⟨trivial, trivial, trivial, trivial, ?_⟩
    have hd : armedTimers (radarDrcsCheck env priv chandef).2 = [] := by
      unfold radarDrcsCheck armedTimers
      split_ifs <;> rfl
    simp only [armedTimers] at hd
    unfold freeUnlessPending
    split_ifs <;> simp [armedTimers, List.filterMap_append, hd]

/-- C5 (as stated) fails: for a dwell time of 4294967295 ms the sum
dwell + 1000 does not fit the 32-bit timer argument, and the timer is armed
for 999 ms instead of 4294968295 ms. -/
theorem start_radar_detection_timer_wraps :
    radarDwellTime linuxConsts radarEnvOk idlePriv chandef52 4294967295 = 4294967295 ∧
    (woal_cfg80211_start_radar_detection linuxConsts radarEnvOk idlePriv chandef52
        4294967295).ret = 0 ∧
    armedTimers (woal_cfg80211_start_radar_detection linuxConsts radarEnvOk idlePriv chandef52
        4294967295).events = [999] ∧
    armedTimers (woal_cfg80211_start_radar_detection linuxConsts radarEnvOk idlePriv chandef52
        4294967295).events ≠ [4294967295 + 1000] := by
  decide

/-- Witness for C5 (amended): with a kernel CAC time of 60000 ms and a
successful ioctl the handler returns 0, records channel 52 and arms the timer
for 61000 ms. -/
theorem start_radar_detection_ioctl_witness :
    (woal_cfg80211_start_radar_detection linuxConsts radarEnvOk idlePriv chandef52 60000).ret
      = 0 ∧
    (woal_cfg80211_start_radar_detection linuxConsts radarEnvOk idlePriv chandef52
      60000).priv.phandle.dfs_channel = chandef52 ∧
    armedTimers (woal_cfg80211_start_radar_detection linuxConsts radarEnvOk idlePriv chandef52
      60000).events = [61000] :=
  have w := (start_radar_detection_ioctl linuxConsts radarEnvOk idlePriv chandef52 60000 1
    (by decide) (by decide) (by decide) (by decide) (by decide)).1 (by decide)
  ⟨w.1, w.2.1, w.2.2.2.2 (by decide)⟩


theorem sentRequests_radarDrcsCheck (env : RadarEnv) (priv : moal_private)
    (chandef : cfg80211_chan_def) : sentRequests (radarDrcsCheck env priv chandef).2 = [] := by
  unfold radarDrcsCheck sentRequests
  split_ifs <;> rfl

/-- For values that fit their 32-bit fields, the dwell time written by the
source's assignments is the dwell time of the specification. -/
theorem radarDwellTime_eq_spec (k : Consts) (env : RadarEnv) (priv : moal_private)
    (chandef : cfg80211_chan_def) (cac_time_ms : Nat)
    (hmin : k.IEEE80211_DFS_MIN_CAC_TIME_MS * 10 < 2 ^ 32)
    (huser : priv.user_cac_period_msec < 2 ^ 32) (hcac : cac_time_ms < 2 ^ 32) :
    radarDwellTime k env priv chandef cac_time_ms
      = cacDwellSpec k env.is_etsi priv.user_cac_period_msec chandef cac_time_ms := by
  unfold radarDwellTime cacDwellSpec
  dsimp only
  rw [Nat.mod_eq_of_lt hmin, Nat.mod_eq_of_lt huser, Nat.mod_eq_of_lt hcac,
    Nat.mul_comm k.IEEE80211_DFS_MIN_CAC_TIME_MS 10]
  by_cases hu : priv.user_cac_period_msec = 0
  · simp only [hu, ne_eq, not_true_eq_false, if_false]
    by_cases he : env.is_etsi = true
    · simp only [he, if_true, true_and]
      by_cases h116 : chandef.hw_value = 116 ∧
          (chandef.width = k.NL80211_CHAN_WIDTH_40 ∨ chandef.width = k.NL80211_CHAN_WIDTH_80)
      · rw [if_pos h116, if_pos (Or.inr (Or.inr (Or.inr h116)))]
      · rw [if_neg h116]
        by_cases hw : chandef.hw_value = 120 ∨ chandef.hw_value = 124 ∨ chandef.hw_value = 128
        · rw [if_pos hw, if_pos (by tauto)]
        · rw [if_neg hw, if_neg (by tauto)]
    · simp [he]
  · simp [hu]

/-- C6: the dwell time that `woal_cfg80211_start_radar_detection` puts in the
one channel-check request it sends is `priv->user_cac_period_msec` when that
is nonzero; otherwise 10 * IEEE80211_DFS_MIN_CAC_TIME_MS when the country is
an ETSI one and the channel is 120, 124 or 128, or is 116 with width 40 or
80 MHz; otherwise the `cac_time_ms` supplied by the kernel. -/
theorem start_radar_detection_dwell (k : Consts) (env : RadarEnv) (priv : moal_private)
    (chandef : cfg80211_chan_def) (cac_time_ms : Nat) (req : Nat)
    (hmin : k.IEEE80211_DFS_MIN_CAC_TIME_MS * 10 < 2 ^ 32)
    (huser : priv.user_cac_period_msec < 2 ^ 32) (hcac : cac_time_ms < 2 ^ 32)
    (hstarted : priv.bss_started = false) (hperiod : priv.phandle.cac_period = 0)
    (htimer : priv.phandle.is_cac_timer_set = false)
    (hdrcs : (radarDrcsCheck env priv chandef).1 = false) (halloc : env.alloc = some req) :
    sentRequests (woal_cfg80211_start_radar_detection k env priv chandef cac_time_ms).events
      = [IoctlCmd.MLAN_OID_11H_CHANNEL_CHECK (chandef.hw_value % 2 ^ 8) true
          (cacDwellSpec k env.is_etsi priv.user_cac_period_msec chandef cac_time_ms)] := by
  have hguard : ¬ (priv.phandle.cac_period ≠ 0 ∨ priv.phandle.is_cac_timer_set = true) := by
    simp [hperiod, htimer]
  have hns : ¬ priv.bss_started = true := by simp [hstarted]
  have hnd : ¬ (radarDrcsCheck env priv chandef).1 = true := by simp [hdrcs]
  have hd := sentRequests_radarDrcsCheck env priv chandef
  rw [← radarDwellTime_eq_spec k env priv chandef cac_time_ms hmin huser hcac]
  simp only [sentRequests] at hd
  simp only [woal_cfg80211_start_radar_detection, if_neg hns, if_neg hguard, if_neg hnd, halloc]
  unfold freeUnlessPending
  split_ifs <;> simp [sentRequests, List.filterMap_append, hd]

/-- Witness for C6: in an ETSI country, channel 116 at 80 MHz gets a dwell
time of 600000 ms in place of the kernel's 60000 ms. -/
theorem start_radar_detection_dwell_witness :
    sentRequests (woal_cfg80211_start_radar_detection linuxConsts
        { radarEnvOk with is_etsi := true } idlePriv
        { chandef52 with hw_value := 116, width := 3 } 60000).events
      = [IoctlCmd.MLAN_OID_11H_CHANNEL_CHECK 116 true 600000] :=
  start_radar_detection_dwell linuxConsts { radarEnvOk with is_etsi := true } idlePriv
    { chandef52 with hw_value := 116, width := 3 } 60000 1
    (by decide) (by decide) (by decide) (by decide) (by decide) (by decide) (by decide)
    (by decide)


/-! ## woal_switch_uap_channel -/

/-- For a width the driver knows, the width switch yields the bandwidth of
the CSA target. -/
theorem csaWidthSwitch_known (k : Consts) (hk : k.WidthsDistinct) (env : SwitchEnv)
    (csa_chan : cfg80211_chan_def) (channel bw : Nat)
    (hbw : csaTargetBandwidth k csa_chan.width = some bw) :
    (csaWidthSwitch k env csa_chan channel).1 = bw := by
  simp only [List.nodup_cons, List.mem_cons, List.mem_singleton, List.not_mem_nil, not_or,
    List.nodup_nil, and_true, not_false_eq_true, or_false] at hk
  unfold csaTargetBandwidth at hbw
  unfold csaWidthSwitch
  simp only [List.mem_cons, List.mem_singleton, List.not_mem_nil, or_false] at hbw
  split_ifs at hbw with c1 c2 c3
  · have e : bw = k.CHAN_BW_20MHZ := by simpa using hbw.symm
    rw [e]
    by_cases n1 : csa_chan.width = k.NL80211_CHAN_WIDTH_5
        ∨ csa_chan.width = k.NL80211_CHAN_WIDTH_10
        ∨ csa_chan.width = k.NL80211_CHAN_WIDTH_20_NOHT
    · rw [if_pos n1]
    · rw [if_neg n1, if_pos (by tauto)]
  · have e : bw = k.CHAN_BW_40MHZ := by simpa using hbw.symm
    have n1 : ¬ (csa_chan.width = k.NL80211_CHAN_WIDTH_5 ∨ csa_chan.width = k.NL80211_CHAN_WIDTH_10
        ∨ csa_chan.width = k.NL80211_CHAN_WIDTH_20_NOHT) := by tauto
    have n2 : ¬ csa_chan.width = k.NL80211_CHAN_WIDTH_20 := by tauto
    rw [if_neg n1, if_neg n2, if_pos c2, e]
    split_ifs <;> rfl
  · have e : bw = k.CHAN_BW_80MHZ := by simpa using hbw.symm
    have n1 : ¬ (csa_chan.width = k.NL80211_CHAN_WIDTH_5 ∨ csa_chan.width = k.NL80211_CHAN_WIDTH_10
        ∨ csa_chan.width = k.NL80211_CHAN_WIDTH_20_NOHT) := by tauto
    have n2 : ¬ csa_chan.width = k.NL80211_CHAN_WIDTH_20 := by tauto
    rw [if_neg n1, if_neg n2, if_neg c2, if_pos (by tauto), e]

/-- C7: `woal_switch_uap_channel` clears the management IEs, stops the uAP,
sets the stored `beacon_after` IEs, sets the new channel, starts the uAP and
notifies cfg80211, in this order; when stopping, setting the beacon, setting
the channel or starting fails, no later step is made and `priv->channel`,
`priv->bandwidth`, `priv->chan` and `priv->uap_tx_blocked` are left as they
were; when all steps succeed they are updated to the CSA target and
transmission is unblocked. -/
theorem switch_uap_channel_steps (k : Consts) (hk : k.WidthsDistinct) (env : SwitchEnv)
    (priv : moal_private) :
    let out := woal_switch_uap_channel k env priv
    let sb := woal_cfg80211_set_beacon k env.beacon (some priv.beacon_after)
    let kept := out.priv.channel = priv.channel ∧ out.priv.bandwidth = priv.bandwidth ∧
      out.priv.chan = priv.chan ∧ out.priv.uap_tx_blocked = priv.uap_tx_blocked
    (env.stop_ret ≠ 0 →
      out.events = [Event.clear_all_mgmt_ies, Event.uap_bss_ctrl BssCtrl.UAP_BSS_STOP] ∧ kept) ∧
    (env.stop_ret = 0 → sb.1 ≠ 0 →
      out.events = [Event.clear_all_mgmt_ies, Event.uap_bss_ctrl BssCtrl.UAP_BSS_STOP] ++ sb.2
        ∧ kept) ∧
    (env.stop_ret = 0 → sb.1 = 0 → env.set_channel_status ≠ MLAN_STATUS_SUCCESS →
      out.events = [Event.clear_all_mgmt_ies, Event.uap_bss_ctrl BssCtrl.UAP_BSS_STOP] ++ sb.2
        ++ [Event.set_get_ap_channel (csaChannelInfo k env priv)] ∧ kept) ∧
    (env.stop_ret = 0 → sb.1 = 0 → env.set_channel_status = MLAN_STATUS_SUCCESS →
      env.start_ret ≠ 0 →
      out.events = [Event.clear_all_mgmt_ies, Event.uap_bss_ctrl BssCtrl.UAP_BSS_STOP] ++ sb.2
        ++ [Event.set_get_ap_channel (csaChannelInfo k env priv),
            Event.uap_bss_ctrl BssCtrl.UAP_BSS_START] ∧ kept) ∧
    (env.stop_ret = 0 → sb.1 = 0 → env.set_channel_status = MLAN_STATUS_SUCCESS →
      env.start_ret = 0 →
      (∃ unblock, out.events
          = [Event.clear_all_mgmt_ies, Event.uap_bss_ctrl BssCtrl.UAP_BSS_STOP] ++ sb.2
            ++ [Event.set_get_ap_channel (csaChannelInfo k env priv),
                Event.uap_bss_ctrl BssCtrl.UAP_BSS_START,
                Event.ch_switch_notify priv.csa_chan] ++ unblock ∧
          ∀ e ∈ unblock, e = Event.netif_carrier_on ∨ e = Event.start_queue) ∧
      out.priv.channel = env.frequency_to_channel priv.csa_chan.center_freq ∧
      out.priv.chan = priv.csa_chan ∧
      out.priv.uap_tx_blocked = false ∧
      (∀ bw, csaTargetBandwidth k priv.csa_chan.width = some bw → out.priv.bandwidth = bw)) := by
  intro out sb kept
  refine ⟨?_, ?_, ?_, ?_, ?_⟩
  · intro h1
    simp only [out, kept, woal_switch_uap_channel, if_pos h1]
    refine ⟨?_, ?_, ?_, ?_, ?_⟩ <;> first | rfl | trivial
  · intro h1 h2
    have h1' : ¬ env.stop_ret ≠ 0 := by simp [h1]
    simp only [out, kept, woal_switch_uap_channel, if_neg h1']
    rw [if_pos h2]
    exact ⟨rfl, rfl, rfl, rfl, rfl⟩
  · intro h1 h2 h3
    have h1' : ¬ env.stop_ret ≠ 0 := by simp [h1]
    have h2' : ¬ sb.1 ≠ 0 := by simp [h2]
    have h3' : MLAN_STATUS_SUCCESS ≠ env.set_channel_status := fun h => h3 h.symm
    simp only [out, kept, woal_switch_uap_channel, if_neg h1']
    rw [if_neg h2', if_pos h3']
    exact ⟨rfl, rfl, rfl, rfl, rfl⟩
  · intro h1 h2 h3 h4
    have h1' : ¬ env.stop_ret ≠ 0 := by simp [h1]
    have h2' : ¬ sb.1 ≠ 0 := by simp [h2]
    have h3' : ¬ MLAN_STATUS_SUCCESS ≠ env.set_channel_status := by simp [h3]
    simp only [out, kept, woal_switch_uap_channel, if_neg h1']
    rw [if_neg h2', if_neg h3', if_pos h4]
    refine ⟨?_, rfl, rfl, rfl, rfl⟩
    simp [csaChannelInfo, sb]
  · intro h1 h2 h3 h4
    have h1' : ¬ env.stop_ret ≠ 0 := by simp [h1]
    have h2' : ¬ sb.1 ≠ 0 := by simp [h2]
    have h3' : ¬ MLAN_STATUS_SUCCESS ≠ env.set_channel_status := by simp [h3]
    have h4' : ¬ env.start_ret ≠ 0 := by simp [h4]
    simp only [out, woal_switch_uap_channel, if_neg h1']
    rw [if_neg h2', if_neg h3', if_neg h4']
    by_cases hb : priv.uap_tx_blocked = true
    · simp only [hb, if_true]
      refine ⟨⟨(if env.carrier_ok = false then [Event.netif_carrier_on] else [])
          ++ [Event.start_queue], ?_, ?_⟩, trivial, trivial, trivial, ?_⟩
      · simp [csaChannelInfo, sb]
      · intro e he
        split_ifs at he <;> simp at he <;> tauto
      · intro bw hbw
        exact csaWidthSwitch_known k hk env priv.csa_chan _ bw hbw
    · have hb' : priv.uap_tx_blocked = false := by simpa using hb
      simp only [hb', Bool.false_eq_true, if_false]
      refine ⟨⟨[], ?_, ?_⟩, ?_, ?_, ?_, ?_⟩
      · simp [csaChannelInfo, sb]
      · intro e he; simp at he
      · first | rfl | trivial
      · first | rfl | trivial
      · first | rfl | trivial
      · intro bw hbw
        exact csaWidthSwitch_known k hk env priv.csa_chan _ bw hbw


/-- Witness for C7: with every step succeeding, a BSS on channel 36 with
transmission blocked ends on channel 52, 20 MHz, unblocked. -/
theorem switch_uap_channel_steps_witness :
    linuxConsts.WidthsDistinct ∧
    (woal_switch_uap_channel linuxConsts switchEnvOk runningPriv).priv.channel = 52 ∧
    (woal_switch_uap_channel linuxConsts switchEnvOk runningPriv).priv.chan = chandef52 ∧
    (woal_switch_uap_channel linuxConsts switchEnvOk runningPriv).priv.uap_tx_blocked = false ∧
    (woal_switch_uap_channel linuxConsts switchEnvOk runningPriv).priv.bandwidth = 0 :=
  have w := (switch_uap_channel_steps linuxConsts (by decide) switchEnvOk runningPriv).2.2.2.2
    (by decide) (by decide) (by decide) (by decide)
  ⟨by decide, w.2.1, w.2.2.1, w.2.2.2.1, w.2.2.2.2 0 (by decide)⟩

/-! ## woal_cfg80211_channel_switch -/

theorem queuedWork_enable_dfs_support (k : Consts) (env : IoctlEnv)
    (chandef : cfg80211_chan_def) : queuedWork (woal_enable_dfs_support k env chandef) = [] := by
  unfold woal_enable_dfs_support queuedWork freeUnlessPending
  split_ifs
  · rfl
  · cases env.alloc <;> rfl
  · cases env.alloc <;> rfl

theorem queuedWork_set_beacon (k : Consts) (env : BeaconEnv)
    (params : Option cfg80211_beacon_data) :
    queuedWork (woal_cfg80211_set_beacon k env params).2 = [] := by
  unfold woal_cfg80211_set_beacon queuedWork
  cases params with
  | none => rfl
  | some p =>
    dsimp only
    split_ifs <;> simp

theorem queuedWork_append (a b : List Event) :
    queuedWork (a ++ b) = queuedWork a ++ queuedWork b := by
  unfold queuedWork
  exact List.filterMap_append _ _ _

/-- The calls made by `woal_cfg80211_channel_switch` before it decides about
the delayed work queue none. -/
theorem queuedWork_csa_prefix (k : Consts) (env : CsaEnv) (priv : moal_private)
    (p : cfg80211_csa_settings) (bss_cfg : Nat) :
    queuedWork
      ((if p.radar_required = true then woal_enable_dfs_support k env.dfs p.chandef else [])
        ++ [Event.kzalloc bss_cfg]
        ++ (if p.block_tx = true then
              (({ priv with uap_tx_blocked := true } : moal_private),
                (if env.carrier_ok = true then [Event.netif_carrier_off] else [])
                  ++ [Event.stop_queue])
            else (priv, [])).2
        ++ [Event.clear_all_mgmt_ies]
        ++ (woal_cfg80211_set_beacon k env.beacon (some p.beacon_csa)).2) = [] := by
  simp only [queuedWork_append, queuedWork_set_beacon, List.append_nil]
  have h1 : queuedWork (if p.radar_required = true then
      woal_enable_dfs_support k env.dfs p.chandef else []) = [] := by
    split_ifs
    · exact queuedWork_enable_dfs_support _ _ _
    · rfl
  rw [h1]
  split_ifs <;> rfl


/-- C8 (amended): `woal_cfg80211_channel_switch` returns -EINVAL without
queuing any work when `params` is NULL or when the requested chandef is
identical to `priv->chan`; otherwise, when the `bss_cfg` allocation succeeds,
the CSA IEs are set successfully, firmware ECSA is disabled and the read of
the current firmware BSS configuration succeeds, it stores the target chandef
in `priv->csa_chan` and the post-switch beacon in `priv->beacon_after` and
queues exactly one delayed CSA work item whose delay is
`params->count * beacon_period` milliseconds; when firmware ECSA is enabled no
work item is queued. -/
theorem channel_switch_queue (k : Consts) (env : CsaEnv) (priv : moal_private) :
    ((woal_cfg80211_channel_switch k env priv none).ret = -(k.EINVAL : Int) ∧
      queuedWork (woal_cfg80211_channel_switch k env priv none).events = []) ∧
    (∀ p : cfg80211_csa_settings, env.chandef_identical = true →
      (woal_cfg80211_channel_switch k env priv (some p)).ret = -(k.EINVAL : Int) ∧
      queuedWork (woal_cfg80211_channel_switch k env priv (some p)).events = []) ∧
    (∀ (p : cfg80211_csa_settings) (bss_cfg : Nat),
      env.chandef_identical = false → env.kzalloc = some bss_cfg →
      (woal_cfg80211_set_beacon k env.beacon (some p.beacon_csa)).1 = 0 →
      priv.phandle.fw_ecsa_enable = 0 →
      env.sys_config_status = MLAN_STATUS_SUCCESS →
      p.count < 2 ^ 8 → env.beacon_period < 2 ^ 16 →
      (woal_cfg80211_channel_switch k env priv (some p)).priv.csa_chan = p.chandef ∧
      (woal_cfg80211_channel_switch k env priv (some p)).priv.beacon_after = p.beacon_after ∧
      queuedWork (woal_cfg80211_channel_switch k env priv (some p)).events
        = [p.count * env.beacon_period]) ∧
    (∀ params : Option cfg80211_csa_settings, priv.phandle.fw_ecsa_enable ≠ 0 →
      queuedWork (woal_cfg80211_channel_switch k env priv params).events = []) := by
  have hdfs : ∀ p : cfg80211_csa_settings, queuedWork (if p.radar_required = true then
      woal_enable_dfs_support k env.dfs p.chandef else []) = [] := by
    intro p
    split_ifs
    · exact queuedWork_enable_dfs_support _ _ _
    · rfl
  refine ⟨⟨rfl, rfl⟩, ?_, ?_, ?_⟩
  · intro p hid
    simp only [woal_cfg80211_channel_switch, hid, if_true, queuedWork_append, hdfs]
    exact ⟨trivial, rfl⟩
  · intro p bss_cfg hid hz hsb hecsa hcfg hcount hbp
    have hid' : ¬ env.chandef_identical = true := by simp [hid]
    have hsb' : ¬ (woal_cfg80211_set_beacon k env.beacon (some p.beacon_csa)).1 ≠ 0 := by
      simp [hsb]
    have hecsa' : (if p.block_tx = true then
        (({ priv with uap_tx_blocked := true } : moal_private),
          (if env.carrier_ok = true then [Event.netif_carrier_off] else [])
            ++ [Event.stop_queue])
        else (priv, [])).1.phandle.fw_ecsa_enable = 0 := by
      split_ifs <;> exact hecsa
    have hcfg' : ¬ MLAN_STATUS_SUCCESS ≠ env.sys_config_status := by simp [hcfg]
    have hmul : p.count * env.beacon_period < 2 ^ 32 := by
      have : p.count * env.beacon_period < 2 ^ 8 * 2 ^ 16 :=
        Nat.mul_lt_mul'' hcount hbp
      omega
    have hpre := queuedWork_csa_prefix k env priv p bss_cfg
    simp only [woal_cfg80211_channel_switch, if_neg hid', hz]
    rw [if_neg hsb', if_pos hecsa', if_neg hcfg']
    refine ⟨rfl, rfl, ?_⟩
    simp only [queuedWork_append, hpre, Nat.mod_eq_of_lt hmul]
    rfl
  · intro params hecsa
    cases params with
    | none => rfl
    | some p =>
      simp only [woal_cfg80211_channel_switch]
      by_cases hid : env.chandef_identical = true
      · simp only [hid, if_true, queuedWork_append, hdfs]
        rfl
      · rw [if_neg hid]
        cases hz : env.kzalloc with
        | none =>
          simp only [queuedWork_append, hdfs]
          rfl
        | some bss_cfg =>
          have hpre := queuedWork_csa_prefix k env priv p bss_cfg
          have hecsa' : ¬ (if p.block_tx = true then
              (({ priv with uap_tx_blocked := true } : moal_private),
                (if env.carrier_ok = true then [Event.netif_carrier_off] else [])
                  ++ [Event.stop_queue])
              else (priv, [])).1.phandle.fw_ecsa_enable = 0 := by
            split_ifs <;> exact hecsa
          dsimp only
          by_cases hsb : (woal_cfg80211_set_beacon k env.beacon (some p.beacon_csa)).1 ≠ 0
          · rw [if_pos hsb]
            simp only [queuedWork_append, hpre]
            rfl
          · rw [if_neg hsb, if_neg hecsa']
            simp only [queuedWork_append, hpre]
            rfl

/-- C8 (as stated) fails: with the CSA IEs set successfully and firmware
ECSA disabled, a failing read of the firmware BSS configuration makes the
function return -EFAULT with no work item queued, although the target chandef
has been stored. -/
theorem channel_switch_config_read_fails :
    csaEnvConfigFails.chandef_identical = false ∧
    (woal_cfg80211_set_beacon linuxConsts csaEnvConfigFails.beacon
      (some csaTo52.beacon_csa)).1 = 0 ∧
    runningPriv.phandle.fw_ecsa_enable = 0 ∧
    (woal_cfg80211_channel_switch linuxConsts csaEnvConfigFails runningPriv
      (some csaTo52)).priv.csa_chan = csaTo52.chandef ∧
    queuedWork (woal_cfg80211_channel_switch linuxConsts csaEnvConfigFails runningPriv
      (some csaTo52)).events = [] ∧
    (woal_cfg80211_channel_switch linuxConsts csaEnvConfigFails runningPriv
      (some csaTo52)).ret = -(linuxConsts.EFAULT : Int) := by
  decide

/-- Witness for C8 (amended): a switch to channel 52 announced for 5 beacons
of period 100 queues one work item with a delay of 500 ms. -/
theorem channel_switch_queue_witness :
    (woal_cfg80211_channel_switch linuxConsts csaEnvOk runningPriv (some csaTo52)).priv.csa_chan
      = chandef52 ∧
    queuedWork (woal_cfg80211_channel_switch linuxConsts csaEnvOk runningPriv
      (some csaTo52)).events = [500] :=
  have w := (channel_switch_queue linuxConsts csaEnvOk runningPriv).2.2.1 csaTo52 2
    (by decide) (by decide) (by decide) (by decide) (by decide) (by decide) (by decide)
  ⟨w.1, w.2.2⟩

/-- C9: the code returns 0 where the claim asks for a nonzero value.  When
`woal_cfg80211_set_beacon` fails to install the CSA management IEs (here with
-EFAULT), `woal_cfg80211_channel_switch` leaves through `done` with `ret` still
0: it returns 0 and queues no work. -/
theorem channel_switch_beacon_failure_returns_zero :
    (woal_cfg80211_set_beacon linuxConsts csaEnvBeaconFails.beacon
      (some csaTo52.beacon_csa)).1 = -14 ∧
    (woal_cfg80211_channel_switch linuxConsts csaEnvBeaconFails runningPriv
      (some csaTo52)).ret = 0 ∧
    queuedWork (woal_cfg80211_channel_switch linuxConsts csaEnvBeaconFails runningPriv
      (some csaTo52)).events = [] := by
  decide


/-! ## Ownership of the ioctl request buffer -/

theorem freeCount_append (req : Nat) (a b : List Event) :
    freeCount req (a ++ b) = freeCount req a + freeCount req b := by
  unfold freeCount
  exact List.count_append _ _ _

theorem freeCount_freeUnlessPending (req : Nat) (status : mlan_status) :
    freeCount req (freeUnlessPending status (some req))
      = if status ≠ MLAN_STATUS_PENDING then 1 else 0 := by
  unfold freeCount freeUnlessPending
  split_ifs <;> simp

/-- The start of every request: allocation and submission free nothing. -/
theorem freeCount_alloc_request (req r : Nat) (cmd : IoctlCmd) :
    freeCount req [Event.alloc_mlan_ioctl_req r, Event.request_ioctl r cmd] = 0 := by
  simp [freeCount]

/-- A nested `woal_deauth_station` working on another buffer neither
allocates nor frees the buffer `req`. -/
theorem woal_deauth_station_other (k : Consts) (env : IoctlEnv) (mac : List Nat)
    (reason req : Nat) (hne : env.alloc ≠ some req) :
    freeCount req (woal_deauth_station k env mac reason).2 = 0 ∧
    Event.alloc_mlan_ioctl_req req ∉ (woal_deauth_station k env mac reason).2 := by
  unfold woal_deauth_station
  cases ha : env.alloc with
  | none => simp [freeCount, freeUnlessPending]
  | some r =>
    have hr : r ≠ req := fun h => hne (by rw [ha, h])
    have hr' : req ≠ r := fun h => hr h.symm
    dsimp only
    unfold freeUnlessPending freeCount
    split_ifs <;> simp [hr, hr']

/-- The loop of `woal_deauth_all_station` neither allocates nor frees the
buffer `req` when every nested request works on another buffer. -/
theorem deauth_all_loop_other (k : Consts) (env : DeauthAllEnv) (req : Nat)
    (hne : ∀ i, (env.nested i).alloc ≠ some req) (l : List Nat) (init : Int × List Event) :
    freeCount req (l.foldl (fun acc i => deauthAllBody k env i acc) init).2
      = freeCount req init.2 := by
  induction l generalizing init with
  | nil => rfl
  | cons i l ih =>
    rw [List.foldl_cons, ih]
    simp only [deauthAllBody, freeCount_append,
      (woal_deauth_station_other k (env.nested i) _ _ req (hne i)).1, Nat.add_zero]


/-- C10: in each function of the file that allocates an ioctl request and
submits it with `woal_request_ioctl`, on every path that returns after the
allocation the request buffer is handed to `kfree` exactly once when the
status returned by `woal_request_ioctl` is not MLAN_STATUS_PENDING and is not
freed at all when it is.  (Nested deauthentication requests work on buffers of
their own.) -/
theorem ioctl_req_freed_unless_pending (k : Consts) (req : Nat) :
    (∀ (env : IoctlEnv) (mac : List Nat) (reason : Nat), env.alloc = some req →
      Event.alloc_mlan_ioctl_req req ∈ (woal_deauth_station k env mac reason).2 →
      freeCount req (woal_deauth_station k env mac reason).2
        = if env.ioctl_status ≠ MLAN_STATUS_PENDING then 1 else 0) ∧
    (∀ (env : DeauthAssocEnv) (priv : moal_private) (mac : Option (List Nat)) (reason : Nat),
      env.own.alloc = some req → env.nested.alloc ≠ some req →
      Event.alloc_mlan_ioctl_req req ∈ (woal_deauth_assoc_station k env priv mac reason).2 →
      freeCount req (woal_deauth_assoc_station k env priv mac reason).2
        = if env.own.ioctl_status ≠ MLAN_STATUS_PENDING then 1 else 0) ∧
    (∀ (env : DeauthAllEnv) (priv : moal_private),
      env.own.alloc = some req → (∀ i, (env.nested i).alloc ≠ some req) →
      Event.alloc_mlan_ioctl_req req ∈ (woal_deauth_all_station k env priv).2 →
      freeCount req (woal_deauth_all_station k env priv).2
        = if env.own.ioctl_status ≠ MLAN_STATUS_PENDING then 1 else 0) ∧
    (∀ (env : IoctlEnv) (chandef : cfg80211_chan_def), env.alloc = some req →
      Event.alloc_mlan_ioctl_req req ∈ woal_enable_dfs_support k env chandef →
      freeCount req (woal_enable_dfs_support k env chandef)
        = if env.ioctl_status ≠ MLAN_STATUS_PENDING then 1 else 0) ∧
    (∀ (env : IoctlEnv), env.alloc = some req →
      Event.alloc_mlan_ioctl_req req ∈ (woal_bss_remove env).2 →
      freeCount req (woal_bss_remove env).2
        = if env.ioctl_status ≠ MLAN_STATUS_PENDING then 1 else 0) ∧
    (∀ (env : GetStationEnv) (priv : moal_private) (mac : List Nat) (stainfo : station_info),
      env.own.alloc = some req →
      Event.alloc_mlan_ioctl_req req
        ∈ (woal_uap_cfg80211_get_station k env priv mac stainfo).events →
      freeCount req (woal_uap_cfg80211_get_station k env priv mac stainfo).events
        = if env.own.ioctl_status ≠ MLAN_STATUS_PENDING then 1 else 0) ∧
    (∀ (env : DumpStationEnv) (priv : moal_private) (idx : Int) (mac : List Nat)
        (sinfo : station_info),
      env.own.alloc = some req →
      Event.alloc_mlan_ioctl_req req
        ∈ (woal_uap_cfg80211_dump_station k env priv idx mac sinfo).events →
      freeCount req (woal_uap_cfg80211_dump_station k env priv idx mac sinfo).events
        = if env.own.ioctl_status ≠ MLAN_STATUS_PENDING then 1 else 0) ∧
    (∀ (env : RadarEnv) (priv : moal_private) (chandef : cfg80211_chan_def)
        (cac_time_ms : Nat),
      env.alloc = some req →
      Event.alloc_mlan_ioctl_req req
        ∈ (woal_cfg80211_start_radar_detection k env priv chandef cac_time_ms).events →
      freeCount req (woal_cfg80211_start_radar_detection k env priv chandef cac_time_ms).events
        = if env.ioctl_status ≠ MLAN_STATUS_PENDING then 1 else 0) := by
  refine ⟨?_, ?_, ?_, ?_, ?_, ?_, ?_, ?_⟩
  · intro env mac reason ha _
    simp only [woal_deauth_station, ha]
    split_ifs <;>
      simp only [freeCount_append, freeCount_alloc_request, freeCount_freeUnlessPending,
        Nat.zero_add] <;> simp_all
  · intro env priv mac reason ha hne hmem
    unfold woal_deauth_assoc_station at hmem ⊢
    cases mac with
    | none => simp at hmem
    | some m =>
      simp only [ha] at hmem ⊢
      by_cases hm : priv.media_connected = false
      · rw [if_pos hm] at hmem
        split_ifs at hmem <;> simp at hmem
      · rw [if_neg hm]
        have hev0 : freeCount req
            (if env.host_mlme = true then [Event.cfg80211_del_sta m] else []) = 0 := by
          split_ifs <;> simp [freeCount]
        have hn := (woal_deauth_station_other k env.nested m reason req hne).1
        split_ifs
        all_goals first
          | (simp only [freeCount_append, freeCount_alloc_request, freeCount_freeUnlessPending,
              hev0, Nat.zero_add]
             simp_all)
          | (cases findStation k env.sta_list m <;>
              simp only [freeCount_append, freeCount_alloc_request,
                freeCount_freeUnlessPending, hev0, hn, Nat.zero_add, Nat.add_zero] <;>
              simp_all)
  · intro env priv ha hne hmem
    unfold woal_deauth_all_station at hmem ⊢
    by_cases hm : priv.media_connected = false
    · rw [if_pos hm] at hmem
      simp at hmem
    · rw [if_neg hm]
      simp only [ha]
      have hloop : freeCount req (forLoop env.sta_list.sta_count (deauthAllBody k env)
          (-(k.EFAULT : Int), [Event.alloc_mlan_ioctl_req req,
            Event.request_ioctl req IoctlCmd.MLAN_OID_UAP_STA_LIST])).2 = 0 := by
        unfold forLoop
        rw [deauth_all_loop_other k env req hne]
        exact freeCount_alloc_request req req _
      split_ifs
      all_goals first
        | (simp only [freeCount_append, freeCount_alloc_request, freeCount_freeUnlessPending,
            Nat.zero_add]
           simp_all
           done)
        | (simp only [freeCount_append, hloop, freeCount_freeUnlessPending, Nat.zero_add]
           simp [freeCount]
           try assumption)
  · intro env chandef ha hmem
    unfold woal_enable_dfs_support at hmem ⊢
    by_cases hf : chandef.flags &&& k.IEEE80211_CHAN_RADAR = 0
    · rw [if_pos hf] at hmem
      simp at hmem
    · rw [if_neg hf]
      simp only [ha, freeCount_append, freeCount_alloc_request, freeCount_freeUnlessPending,
        Nat.zero_add]
  · intro env ha _
    simp only [woal_bss_remove, ha, freeCount_append, freeCount_alloc_request,
      freeCount_freeUnlessPending, Nat.zero_add]
  · intro env priv mac stainfo ha hmem
    unfold woal_uap_cfg80211_get_station at hmem ⊢
    by_cases hm : priv.media_connected = false
    · rw [if_pos hm] at hmem
      simp at hmem
    · rw [if_neg hm]
      simp only [ha]
      split_ifs <;>
        simp only [freeCount_append, freeCount_alloc_request, freeCount_freeUnlessPending,
          Nat.zero_add] <;> simp_all [freeCount]
  · intro env priv idx mac sinfo ha hmem
    unfold woal_uap_cfg80211_dump_station at hmem ⊢
    by_cases hm : priv.media_connected = false
    · rw [if_pos hm] at hmem
      simp at hmem
    · rw [if_neg hm]
      simp only [ha]
      split_ifs <;>
        simp only [freeCount_append, freeCount_alloc_request, freeCount_freeUnlessPending,
          Nat.zero_add] <;> simp_all [freeCount]
  · intro env priv chandef cac_time_ms ha hmem
    have hd : freeCount req (radarDrcsCheck env priv chandef).2 = 0 := by
      unfold radarDrcsCheck freeCount
      split_ifs <;> simp
    have hdm : Event.alloc_mlan_ioctl_req req ∉ (radarDrcsCheck env priv chandef).2 := by
      unfold radarDrcsCheck
      split_ifs <;> simp
    unfold woal_cfg80211_start_radar_detection at hmem ⊢
    simp only [ha] at hmem ⊢
    split_ifs at hmem ⊢
    all_goals first
      | (exfalso; simp [freeUnlessPending, hdm] at hmem; done)
      | (simp only [freeCount_append, freeCount_alloc_request, freeCount_freeUnlessPending,
          hd, Nat.zero_add]
         simp_all [freeCount])


/-- Witness for C10: `woal_bss_remove` on buffer 7 frees it once when the
request fails and not at all when the request is pending. -/
theorem ioctl_req_freed_unless_pending_witness :
    freeCount 7 (woal_bss_remove { alloc := some 7, ioctl_status := MLAN_STATUS_FAILURE }).2
      = 1 ∧
    freeCount 7 (woal_bss_remove { alloc := some 7, ioctl_status := MLAN_STATUS_PENDING }).2
      = 0 :=
  ⟨(ioctl_req_freed_unless_pending linuxConsts 7).2.2.2.2.1
      { alloc := some 7, ioctl_status := MLAN_STATUS_FAILURE } rfl (by decide),
   (ioctl_req_freed_unless_pending linuxConsts 7).2.2.2.2.1
      { alloc := some 7, ioctl_status := MLAN_STATUS_PENDING } rfl (by decide)⟩


/-! ## `woal_cfg80211_add_mon_if` and `woal_cfg80211_change_bss` -/

/-- Claim C11, at the input on which the code departs from it: with no monitor
interface yet and a STA priv present, a NULL result of `woal_prepare_mon_if`
makes `woal_cfg80211_add_mon_if` return 0 although no device was created,
registered or passed out through `new_dev`. -/
theorem add_mon_if_prepare_failure_returns_zero :
    (woal_cfg80211_add_mon_if linuxConsts mlanApConsts monEnvPrepareFails).ret = 0 ∧
    (woal_cfg80211_add_mon_if linuxConsts mlanApConsts monEnvPrepareFails).new_dev = none ∧
    (woal_cfg80211_add_mon_if linuxConsts mlanApConsts monEnvPrepareFails).mon_if = none ∧
    (∀ ndev, MonCall.register_netdevice ndev ∉
      (woal_cfg80211_add_mon_if linuxConsts mlanApConsts monEnvPrepareFails).calls) := by
  refine ⟨by decide, by decide, by decide, ?_⟩
  intro ndev
  simp [woal_cfg80211_add_mon_if, monEnvPrepareFails]

/-- Every other failure of `woal_cfg80211_add_mon_if` gives a nonzero value,
and a return value of 0 with `woal_prepare_mon_if` having succeeded means the
device was registered, stored and passed out. -/
theorem add_mon_if_other_paths (k : Consts) (a : ApConsts) (env : MonEnv)
    (hE : k.EFAULT ≠ 0) :
    (env.mon_if_exists = true → (woal_cfg80211_add_mon_if k a env).ret ≠ 0) ∧
    (env.mon_if_exists = false → env.sta_priv = false →
      (woal_cfg80211_add_mon_if k a env).ret ≠ 0) ∧
    (∀ ndev, env.mon_if_exists = false → env.sta_priv = true → env.prepare = some ndev →
      ((env.net_monitor_status ≠ MLAN_STATUS_SUCCESS ∨
          env.chandef_status = MLAN_STATUS_FAILURE ∨ env.register_ret ≠ 0) →
        (woal_cfg80211_add_mon_if k a env).ret ≠ 0) ∧
      ((woal_cfg80211_add_mon_if k a env).ret = 0 →
        (woal_cfg80211_add_mon_if k a env).mon_if = some ndev ∧
        MonCall.register_netdevice ndev ∈ (woal_cfg80211_add_mon_if k a env).calls ∧
        (env.new_dev = true → (woal_cfg80211_add_mon_if k a env).new_dev = some ndev))) := by
  have hE2 : -(k.EFAULT : Int) ≠ 0 := by omega
  refine ⟨?_, ?_, ?_⟩
  · intro h; simp [woal_cfg80211_add_mon_if, h, hE]
  · intro h1 h2; simp [woal_cfg80211_add_mon_if, h1, h2, hE]
  · intro ndev h1 h2 h3
    simp only [woal_cfg80211_add_mon_if, h1, h2, h3]
    by_cases hn : env.net_monitor_status = MLAN_STATUS_SUCCESS
    · by_cases hc : env.chandef_status = MLAN_STATUS_FAILURE
      · simp [hn, hc, hE]
      · by_cases hr : env.register_ret = 0
        · simp [hn, hc, hr]
        · simp [hn, hc, hr]
    · simp [hn, hE]

/-- Claim C12, at the input on which the code departs from it: the read of
the configuration succeeds, turning AP isolation on changes
`pkt_forward_ctl`, the firmware rejects the SET request, and
`woal_cfg80211_change_bss` returns 0. -/
theorem change_bss_set_failure_returns_zero :
    changeBssEnvSetFails.set_status = MLAN_STATUS_FAILURE ∧
    Event.set_sys_config_bss 12 2 ∈
      (woal_cfg80211_change_bss linuxConsts mlanApConsts changeBssEnvSetFails idlePriv
        ⟨1, 0⟩).events ∧
    (woal_cfg80211_change_bss linuxConsts mlanApConsts changeBssEnvSetFails idlePriv
      ⟨1, 0⟩).ret = 0 := by
  refine ⟨rfl, ?_, ?_⟩ <;>
    simp [woal_cfg80211_change_bss, changeBssEnvSetFails, idlePriv, mlanApConsts]

/-- The read failure of `woal_cfg80211_change_bss` and the allocation failure
do give a nonzero value. -/
theorem change_bss_get_failure (k : Consts) (a : ApConsts) (env : ChangeBssEnv)
    (priv : moal_private) (params : bss_parameters) (hE : k.EFAULT ≠ 0)
    (h : env.kzalloc = none ∨ env.get_status ≠ MLAN_STATUS_SUCCESS) :
    (woal_cfg80211_change_bss k a env priv params).ret = -(k.EFAULT : Int) ∧
    (woal_cfg80211_change_bss k a env priv params).ret ≠ 0 := by
  have hE2 : -(k.EFAULT : Int) ≠ 0 := by omega
  unfold woal_cfg80211_change_bss
  cases hk : env.kzalloc with
  | none => exact ⟨rfl, hE2⟩
  | some buf =>
    rcases h with h | h
    · simp [hk] at h
    · simp [h, hE]


/-! ## `woal_cfg80211_set_mac_acl` -/

theorem moal_memcpy_ext_length (dest : List Nat) (src : Mem) (num : Nat) :
    (moal_memcpy_ext dest src num dest.length).length = dest.length := by
  simp only [moal_memcpy_ext, List.length_append, List.length_map, List.length_range,
    List.length_drop]
  omega

theorem moal_memcpy_ext_copied (dest : List Nat) (src : Mem) (num size b : Nat)
    (hb : b < min num size) :
    (moal_memcpy_ext dest src num size)[b]? = some (rd8 src b) := by
  simp only [moal_memcpy_ext]
  rw [List.getElem?_append_left (by simpa using hb)]
  simp [List.getElem?_map, List.getElem?_range, hb]

theorem moal_memcpy_ext_kept (dest : List Nat) (src : Mem) (num size b : Nat)
    (hb : min num size ≤ b) :
    (moal_memcpy_ext dest src num size)[b]? = dest[b]? := by
  simp only [moal_memcpy_ext]
  rw [List.getElem?_append_right (by simpa using hb)]
  simp only [List.length_map, List.length_range, List.getElem?_drop]
  congr 1
  omega

theorem setMacAclFilter_spec (a : ApConsts) (params : cfg80211_acl_data)
    (hmax : a.MAX_MAC_FILTER_NUM < 2 ^ 16) (hn : 0 ≤ params.n_acl_entries)
    (hallow : a.MAC_FILTER_MODE_ALLOW_MAC < 2 ^ 16)
    (hblock : a.MAC_FILTER_MODE_BLOCK_MAC < 2 ^ 16)
    (hpol : a.NL80211_ACL_POLICY_DENY_UNLESS_LISTED ≠
      a.NL80211_ACL_POLICY_ACCEPT_UNLESS_LISTED) :
    (setMacAclFilter a params).mac_count =
        min params.n_acl_entries.toNat a.MAX_MAC_FILTER_NUM ∧
    (setMacAclFilter a params).mac_list.length =
        a.MAX_MAC_FILTER_NUM * a.sizeof_mlan_802_11_mac_addr ∧
    (∀ i j, i < (setMacAclFilter a params).mac_count → j < a.sizeof_mlan_802_11_mac_addr →
      (setMacAclFilter a params).mac_list[i * a.sizeof_mlan_802_11_mac_addr + j]? =
        some (rd8 params.mac_addrs (i * a.sizeof_mlan_802_11_mac_addr + j))) ∧
    (∀ b, (setMacAclFilter a params).mac_count * a.sizeof_mlan_802_11_mac_addr ≤ b →
      b < a.MAX_MAC_FILTER_NUM * a.sizeof_mlan_802_11_mac_addr →
      (setMacAclFilter a params).mac_list[b]? = some 0) ∧
    (params.acl_policy = a.NL80211_ACL_POLICY_DENY_UNLESS_LISTED →
      (setMacAclFilter a params).filter_mode = a.MAC_FILTER_MODE_ALLOW_MAC) ∧
    (params.acl_policy = a.NL80211_ACL_POLICY_ACCEPT_UNLESS_LISTED →
      (setMacAclFilter a params).filter_mode = a.MAC_FILTER_MODE_BLOCK_MAC) := by
  have hcount : (setMacAclFilter a params).mac_count =
      min params.n_acl_entries.toNat a.MAX_MAC_FILTER_NUM := by
    simp only [setMacAclFilter]
    split_ifs with h
    · have : params.n_acl_entries % 2 ^ 16 = params.n_acl_entries := by
        apply Int.emod_eq_of_lt hn; omega
      rw [this]; omega
    · rw [Nat.mod_eq_of_lt hmax]; omega
  have hle : (setMacAclFilter a params).mac_count ≤ a.MAX_MAC_FILTER_NUM := by
    rw [hcount]; exact Nat.min_le_right _ _
  have hlist : (setMacAclFilter a params).mac_list =
      moal_memcpy_ext
        (List.replicate (a.MAX_MAC_FILTER_NUM * a.sizeof_mlan_802_11_mac_addr) 0)
        params.mac_addrs
        ((setMacAclFilter a params).mac_count * a.sizeof_mlan_802_11_mac_addr)
        (List.replicate (a.MAX_MAC_FILTER_NUM * a.sizeof_mlan_802_11_mac_addr) 0).length := rfl
  have hmul : (setMacAclFilter a params).mac_count * a.sizeof_mlan_802_11_mac_addr ≤
      a.MAX_MAC_FILTER_NUM * a.sizeof_mlan_802_11_mac_addr := Nat.mul_le_mul_right _ hle
  refine ⟨hcount, ?_, ?_, ?_, ?_, ?_⟩
  · rw [hlist, moal_memcpy_ext_length]; simp
  · intro i j hi hj
    rw [hlist]
    apply moal_memcpy_ext_copied
    simp only [List.length_replicate]
    have h1 : i * a.sizeof_mlan_802_11_mac_addr + j <
        (i + 1) * a.sizeof_mlan_802_11_mac_addr := by rw [Nat.add_mul]; omega
    have h2 : (i + 1) * a.sizeof_mlan_802_11_mac_addr ≤
        (setMacAclFilter a params).mac_count * a.sizeof_mlan_802_11_mac_addr :=
      Nat.mul_le_mul_right _ hi
    rw [Nat.min_eq_left hmul]
    omega
  · intro b hb1 hb2
    rw [hlist, moal_memcpy_ext_kept]
    · simp [hb2]
    · simp only [List.length_replicate]
      rw [Nat.min_eq_left hmul]; exact hb1
  · intro h
    simp only [setMacAclFilter, h, if_true]
    exact Nat.mod_eq_of_lt hallow
  · intro h
    have h2 : ¬ (a.NL80211_ACL_POLICY_ACCEPT_UNLESS_LISTED =
        a.NL80211_ACL_POLICY_DENY_UNLESS_LISTED) := fun e => hpol e.symm
    simp only [setMacAclFilter, h, if_neg h2, if_true]
    exact Nat.mod_eq_of_lt hblock

theorem submittedFilters_append (x y : List Event) :
    submittedFilters (x ++ y) = submittedFilters x ++ submittedFilters y := by
  simp [submittedFilters, List.filterMap_append]

theorem set_mac_acl_submits (k : Consts) (a : ApConsts) (env : AclEnv)
    (priv : moal_private) (params : cfg80211_acl_data) (buf : Nat)
    (hk : env.kzalloc = some buf) (hg : env.get_status = MLAN_STATUS_SUCCESS) :
    submittedFilters (woal_cfg80211_set_mac_acl k a env priv params).events =
      [setMacAclFilter a params] := by
  simp only [woal_cfg80211_set_mac_acl, hk, hg]
  by_cases hb : priv.bss_started = true <;>
    simp [hb, submittedFilters, List.filterMap_append, List.filterMap_cons]

theorem set_mac_acl_ret (k : Consts) (a : ApConsts) (env : AclEnv)
    (priv : moal_private) (params : cfg80211_acl_data) (hE : k.EFAULT ≠ 0) :
    ((woal_cfg80211_set_mac_acl k a env priv params).ret = 0 ↔
      (env.kzalloc.isSome = true ∧ env.get_status = MLAN_STATUS_SUCCESS ∧
        env.set_status = MLAN_STATUS_SUCCESS)) ∧
    ((woal_cfg80211_set_mac_acl k a env priv params).ret ≠ 0 →
      (woal_cfg80211_set_mac_acl k a env priv params).ret = -(k.EFAULT : Int)) := by
  have hE2 : -(k.EFAULT : Int) ≠ 0 := by omega
  unfold woal_cfg80211_set_mac_acl
  cases hk : env.kzalloc with
  | none => simp [hE]
  | some buf =>
    by_cases hg : env.get_status = MLAN_STATUS_SUCCESS
    · by_cases hs : env.set_status = MLAN_STATUS_SUCCESS
      · simp [hg, hs]
      · simp [hg, hs, hE]
    · simp [hg, hE]

/-- Claim C13: when `woal_cfg80211_set_mac_acl` reaches its SET request
(allocation and read of the configuration succeeded), it submits exactly one
filter, with `mac_count = min(n_acl_entries, MAX_MAC_FILTER_NUM)`, the first
`mac_count` addresses of `params->mac_addrs` in order in `mac_list`, every
later byte of `mac_list` zero, and the filter mode that the policy selects;
the function returns 0 exactly when the SET request is made and succeeds, and
`-EFAULT` otherwise. -/
theorem set_mac_acl_filter (k : Consts) (a : ApConsts) (env : AclEnv)
    (priv : moal_private) (params : cfg80211_acl_data) (buf : Nat)
    (hsz : a.sizeof_mlan_802_11_mac_addr = k.ETH_ALEN)
    (hmax : a.MAX_MAC_FILTER_NUM < 2 ^ 16) (hn : 0 ≤ params.n_acl_entries)
    (hallow : a.MAC_FILTER_MODE_ALLOW_MAC < 2 ^ 16)
    (hblock : a.MAC_FILTER_MODE_BLOCK_MAC < 2 ^ 16)
    (hpol : a.NL80211_ACL_POLICY_DENY_UNLESS_LISTED ≠
      a.NL80211_ACL_POLICY_ACCEPT_UNLESS_LISTED)
    (hE : k.EFAULT ≠ 0)
    (hk : env.kzalloc = some buf) (hg : env.get_status = MLAN_STATUS_SUCCESS) :
    (∃ f, submittedFilters (woal_cfg80211_set_mac_acl k a env priv params).events = [f] ∧
      f.mac_count = min params.n_acl_entries.toNat a.MAX_MAC_FILTER_NUM ∧
      f.mac_list.length = a.MAX_MAC_FILTER_NUM * k.ETH_ALEN ∧
      (∀ i j, i < f.mac_count → j < k.ETH_ALEN →
        f.mac_list[i * k.ETH_ALEN + j]? =
          some (rd8 params.mac_addrs (i * k.ETH_ALEN + j))) ∧
      (∀ b, f.mac_count * k.ETH_ALEN ≤ b → b < a.MAX_MAC_FILTER_NUM * k.ETH_ALEN →
        f.mac_list[b]? = some 0) ∧
      (params.acl_policy = a.NL80211_ACL_POLICY_DENY_UNLESS_LISTED →
        f.filter_mode = a.MAC_FILTER_MODE_ALLOW_MAC) ∧
      (params.acl_policy = a.NL80211_ACL_POLICY_ACCEPT_UNLESS_LISTED →
        f.filter_mode = a.MAC_FILTER_MODE_BLOCK_MAC)) ∧
    ((woal_cfg80211_set_mac_acl k a env priv params).ret = 0 ↔
      env.set_status = MLAN_STATUS_SUCCESS) ∧
    (env.set_status ≠ MLAN_STATUS_SUCCESS →
      (woal_cfg80211_set_mac_acl k a env priv params).ret = -(k.EFAULT : Int)) := by
  have hspec := setMacAclFilter_spec a params hmax hn hallow hblock hpol
  rw [hsz] at hspec
  have hret := set_mac_acl_ret k a env priv params hE
  refine ⟨⟨setMacAclFilter a params, set_mac_acl_submits k a env priv params buf hk hg,
    hspec⟩, ?_, ?_⟩
  · rw [hret.1]; simp [hk, hg]
  · intro hs
    apply hret.2
    rw [Ne, hret.1]
    exact fun h => hs h.2.2

theorem set_mac_acl_filter_witness :
    (∃ f, submittedFilters
        (woal_cfg80211_set_mac_acl linuxConsts mlanApConsts aclEnvOk idlePriv
          aclTwoAddrs).events = [f] ∧
      f.mac_count = min aclTwoAddrs.n_acl_entries.toNat mlanApConsts.MAX_MAC_FILTER_NUM ∧
      f.mac_list.length = mlanApConsts.MAX_MAC_FILTER_NUM * linuxConsts.ETH_ALEN ∧
      (∀ i j, i < f.mac_count → j < linuxConsts.ETH_ALEN →
        f.mac_list[i * linuxConsts.ETH_ALEN + j]? =
          some (rd8 aclTwoAddrs.mac_addrs (i * linuxConsts.ETH_ALEN + j))) ∧
      (∀ b, f.mac_count * linuxConsts.ETH_ALEN ≤ b →
        b < mlanApConsts.MAX_MAC_FILTER_NUM * linuxConsts.ETH_ALEN →
        f.mac_list[b]? = some 0) ∧
      (aclTwoAddrs.acl_policy = mlanApConsts.NL80211_ACL_POLICY_DENY_UNLESS_LISTED →
        f.filter_mode = mlanApConsts.MAC_FILTER_MODE_ALLOW_MAC) ∧
      (aclTwoAddrs.acl_policy = mlanApConsts.NL80211_ACL_POLICY_ACCEPT_UNLESS_LISTED →
        f.filter_mode = mlanApConsts.MAC_FILTER_MODE_BLOCK_MAC)) ∧
    ((woal_cfg80211_set_mac_acl linuxConsts mlanApConsts aclEnvOk idlePriv
        aclTwoAddrs).ret = 0 ↔ aclEnvOk.set_status = MLAN_STATUS_SUCCESS) ∧
    (aclEnvOk.set_status ≠ MLAN_STATUS_SUCCESS →
      (woal_cfg80211_set_mac_acl linuxConsts mlanApConsts aclEnvOk idlePriv
        aclTwoAddrs).ret = -(linuxConsts.EFAULT : Int)) :=
  set_mac_acl_filter linuxConsts mlanApConsts aclEnvOk idlePriv aclTwoAddrs 1
    rfl (by decide) (by decide) (by decide) (by decide) (by decide) (by decide) rfl rfl

/-! ## `woal_cfg80211_set_txq_params` -/

theorem ilog2Aux_eq_log (fuel : Nat) : ∀ n, n ≤ fuel → ilog2Aux fuel n = Nat.log 2 n := by
  induction fuel with
  | zero =>
    intro n hn
    have : n = 0 := by omega
    subst this
    simp [ilog2Aux]
  | succ f ih =>
    intro n hn
    unfold ilog2Aux
    by_cases h : n < 2
    · rw [if_pos h, Nat.log_of_lt h]
    · rw [if_neg h, ih (n / 2) (by omega),
        Nat.log_of_one_lt_of_le (by decide : 1 < 2) (by omega : 2 ≤ n)]

theorem ilog2_eq_log (n : Nat) : ilog2 n = Nat.log 2 n :=
  ilog2Aux_eq_log n n (Nat.le_refl n)

theorem ilog2_floor (n : Nat) (hn : n ≠ 0) : 2 ^ ilog2 n ≤ n ∧ n < 2 ^ (ilog2 n + 1) := by
  rw [ilog2_eq_log]
  exact ⟨Nat.pow_log_le_self 2 hn, Nat.lt_pow_succ_log_self (by decide : 1 < 2) n⟩

theorem ilog2_two_pow_sub (c j : Nat) (hc : c = 2 ^ j - 1) : 2 ^ ilog2 (c + 1) - 1 = c := by
  have h1 : 0 < 2 ^ j := Nat.pos_pow_of_pos j (by decide)
  have h2 : c + 1 = 2 ^ j := by omega
  rw [h2, ilog2_eq_log, Nat.log_pow (by decide : 1 < 2)]
  omega

theorem ilog2_two_pow_lt (c j : Nat) (hc : c = 2 ^ j - 1) (hj : j ≤ 15) :
    ilog2 (c + 1) < 2 ^ 4 := by
  have h1 : 0 < 2 ^ j := Nat.pos_pow_of_pos j (by decide)
  have h2 : c + 1 = 2 ^ j := by omega
  rw [h2, ilog2_eq_log, Nat.log_pow (by decide : 1 < 2)]
  omega

theorem txqAcIndex_cases (a : ApConsts)
    (hd : a.NL80211_AC_VI ≠ a.NL80211_AC_VO ∧ a.NL80211_AC_BK ≠ a.NL80211_AC_VO ∧
      a.NL80211_AC_BK ≠ a.NL80211_AC_VI ∧ a.NL80211_AC_BE ≠ a.NL80211_AC_VO ∧
      a.NL80211_AC_BE ≠ a.NL80211_AC_VI ∧ a.NL80211_AC_BE ≠ a.NL80211_AC_BK) :
    txqAcIndex a a.NL80211_AC_BE = 0 ∧ txqAcIndex a a.NL80211_AC_BK = 1 ∧
    txqAcIndex a a.NL80211_AC_VI = 2 ∧ txqAcIndex a a.NL80211_AC_VO = 3 := by
  obtain ⟨h1, h2, h3, h4, h5, h6⟩ := hd
  simp [txqAcIndex, h1, h2, h3, h4, h5, h6]

theorem txqAcIndex_lt (a : ApConsts) (ac : Nat) : txqAcIndex a ac < 4 := by
  unfold txqAcIndex; split_ifs <;> omega

/-- Claim C14 as stated fails on the bit-fields: with the 4-bit `aifsn` of the
vendor header and `params->aifs = 16` (a valid `u8`), the entry submitted for
`NL80211_AC_BE` has `aifsn = 0`, not `params->aifs`. -/
theorem set_txq_params_aifs_truncated :
    (woal_cfg80211_set_txq_params linuxConsts mlanApConsts txqEnvOk ⟨2, 0, 15, 1023, 16⟩).2 =
      [Event.get_ap_wmm_para,
        Event.set_ap_wmm_para (⟨0, 0, 0, 10, 4, 0⟩ :: txqEnvOk.ac_params.tail)] ∧
    (16 : Nat) < 2 ^ 8 ∧ (0 : Nat) ≠ 16 := by
  decide

/-- Claim C14, amended: the access-category index is BE -> 0, BK -> 1,
VI -> 2, VO -> 3; when the GET request succeeds the function submits the
entries read from firmware with only entry `ac` modified, and there
`tx_op_limit = params->txop`, `aifsn = params->aifs` when `aifs` fits the
`aifsn` bit-field, and `ecw_min`, `ecw_max` are `floor(log2(cw + 1))` when
that fits the `ecw` bit-fields; for `cw = 2^j - 1` with `j <= 15` and
bit-fields of 4 bits the stored exponent `e` satisfies `2^e - 1 = cw`. -/
theorem set_txq_params_entry (k : Consts) (a : ApConsts) (env : TxqEnv)
    (params : ieee80211_txq_params)
    (hd : a.NL80211_AC_VI ≠ a.NL80211_AC_VO ∧ a.NL80211_AC_BK ≠ a.NL80211_AC_VO ∧
      a.NL80211_AC_BK ≠ a.NL80211_AC_VI ∧ a.NL80211_AC_BE ≠ a.NL80211_AC_VO ∧
      a.NL80211_AC_BE ≠ a.NL80211_AC_VI ∧ a.NL80211_AC_BE ≠ a.NL80211_AC_BK)
    (hlen : env.ac_params.length = 4)
    (hg : env.get_status = MLAN_STATUS_SUCCESS)
    (htxop : params.txop < 2 ^ 16) :
    (txqAcIndex a a.NL80211_AC_BE = 0 ∧ txqAcIndex a a.NL80211_AC_BK = 1 ∧
      txqAcIndex a a.NL80211_AC_VI = 2 ∧ txqAcIndex a a.NL80211_AC_VO = 3) ∧
    ∃ sent old new,
      (woal_cfg80211_set_txq_params k a env params).2 =
        [Event.get_ap_wmm_para, Event.set_ap_wmm_para sent] ∧
      sent.length = 4 ∧
      (∀ i, i ≠ txqAcIndex a params.ac → sent[i]? = env.ac_params[i]?) ∧
      env.ac_params[txqAcIndex a params.ac]? = some old ∧
      sent[txqAcIndex a params.ac]? = some new ∧
      new.acm = old.acm ∧ new.aci = old.aci ∧
      new.tx_op_limit = params.txop ∧
      (params.aifs < 2 ^ a.bits_aifsn → new.aifsn = params.aifs) ∧
      (ilog2 (params.cwmin + 1) < 2 ^ a.bits_ecw →
        new.ecw_min = ilog2 (params.cwmin + 1) ∧
        2 ^ new.ecw_min ≤ params.cwmin + 1 ∧ params.cwmin + 1 < 2 ^ (new.ecw_min + 1)) ∧
      (ilog2 (params.cwmax + 1) < 2 ^ a.bits_ecw →
        new.ecw_max = ilog2 (params.cwmax + 1) ∧
        2 ^ new.ecw_max ≤ params.cwmax + 1 ∧ params.cwmax + 1 < 2 ^ (new.ecw_max + 1)) ∧
      (a.bits_ecw = 4 →
        (∀ j, j ≤ 15 → params.cwmin = 2 ^ j - 1 → 2 ^ new.ecw_min - 1 = params.cwmin) ∧
        (∀ j, j ≤ 15 → params.cwmax = 2 ^ j - 1 → 2 ^ new.ecw_max - 1 = params.cwmax)) := by
  refine ⟨txqAcIndex_cases a hd, ?_⟩
  have hlt : txqAcIndex a params.ac < env.ac_params.length := by
    rw [hlen]; exact txqAcIndex_lt a params.ac
  refine ⟨env.ac_params.modify (txqEntry a params) (txqAcIndex a params.ac),
    env.ac_params[txqAcIndex a params.ac],
    txqEntry a params env.ac_params[txqAcIndex a params.ac], ?_, ?_, ?_, ?_, ?_, ?_⟩
  · simp only [woal_cfg80211_set_txq_params, hg, ne_eq, not_true_eq_false, if_false]
  · simp [hlen]
  · intro i hi
    exact List.getElem?_modify_ne _ _ (fun e => hi e.symm)
  · exact List.getElem?_eq_getElem hlt
  · rw [List.getElem?_modify_eq, List.getElem?_eq_getElem hlt]; rfl
  · refine ⟨rfl, rfl, Nat.mod_eq_of_lt htxop, fun h => Nat.mod_eq_of_lt h, ?_, ?_, ?_⟩
    · intro h
      have e : ilog2 (params.cwmin + 1) % 2 ^ a.bits_ecw = ilog2 (params.cwmin + 1) :=
        Nat.mod_eq_of_lt h
      refine ⟨e, ?_⟩
      show 2 ^ (ilog2 (params.cwmin + 1) % 2 ^ a.bits_ecw) ≤ _ ∧
        _ < 2 ^ (ilog2 (params.cwmin + 1) % 2 ^ a.bits_ecw + 1)
      rw [e]; exact ilog2_floor _ (by omega)
    · intro h
      have e : ilog2 (params.cwmax + 1) % 2 ^ a.bits_ecw = ilog2 (params.cwmax + 1) :=
        Nat.mod_eq_of_lt h
      refine ⟨e, ?_⟩
      show 2 ^ (ilog2 (params.cwmax + 1) % 2 ^ a.bits_ecw) ≤ _ ∧
        _ < 2 ^ (ilog2 (params.cwmax + 1) % 2 ^ a.bits_ecw + 1)
      rw [e]; exact ilog2_floor _ (by omega)
    · intro hb
      refine ⟨fun j hj hc => ?_, fun j hj hc => ?_⟩
      · show 2 ^ (ilog2 (params.cwmin + 1) % 2 ^ a.bits_ecw) - 1 = _
        rw [hb, Nat.mod_eq_of_lt (ilog2_two_pow_lt _ j hc hj)]
        exact ilog2_two_pow_sub _ j hc
      · show 2 ^ (ilog2 (params.cwmax + 1) % 2 ^ a.bits_ecw) - 1 = _
        rw [hb, Nat.mod_eq_of_lt (ilog2_two_pow_lt _ j hc hj)]
        exact ilog2_two_pow_sub _ j hc

theorem set_txq_params_entry_witness :
    (txqAcIndex mlanApConsts mlanApConsts.NL80211_AC_BE = 0 ∧
      txqAcIndex mlanApConsts mlanApConsts.NL80211_AC_BK = 1 ∧
      txqAcIndex mlanApConsts mlanApConsts.NL80211_AC_VI = 2 ∧
      txqAcIndex mlanApConsts mlanApConsts.NL80211_AC_VO = 3) ∧
    ∃ sent old new,
      (woal_cfg80211_set_txq_params linuxConsts mlanApConsts txqEnvOk txqParamsBe).2 =
        [Event.get_ap_wmm_para, Event.set_ap_wmm_para sent] ∧
      sent.length = 4 ∧
      (∀ i, i ≠ txqAcIndex mlanApConsts txqParamsBe.ac → sent[i]? = txqEnvOk.ac_params[i]?) ∧
      txqEnvOk.ac_params[txqAcIndex mlanApConsts txqParamsBe.ac]? = some old ∧
      sent[txqAcIndex mlanApConsts txqParamsBe.ac]? = some new ∧
      new.acm = old.acm ∧ new.aci = old.aci ∧
      new.tx_op_limit = txqParamsBe.txop ∧
      (txqParamsBe.aifs < 2 ^ mlanApConsts.bits_aifsn → new.aifsn = txqParamsBe.aifs) ∧
      (ilog2 (txqParamsBe.cwmin + 1) < 2 ^ mlanApConsts.bits_ecw →
        new.ecw_min = ilog2 (txqParamsBe.cwmin + 1) ∧
        2 ^ new.ecw_min ≤ txqParamsBe.cwmin + 1 ∧
        txqParamsBe.cwmin + 1 < 2 ^ (new.ecw_min + 1)) ∧
      (ilog2 (txqParamsBe.cwmax + 1) < 2 ^ mlanApConsts.bits_ecw →
        new.ecw_max = ilog2 (txqParamsBe.cwmax + 1) ∧
        2 ^ new.ecw_max ≤ txqParamsBe.cwmax + 1 ∧
        txqParamsBe.cwmax + 1 < 2 ^ (new.ecw_max + 1)) ∧
      (mlanApConsts.bits_ecw = 4 →
        (∀ j, j ≤ 15 → txqParamsBe.cwmin = 2 ^ j - 1 →
          2 ^ new.ecw_min - 1 = txqParamsBe.cwmin) ∧
        (∀ j, j ≤ 15 → txqParamsBe.cwmax = 2 ^ j - 1 →
          2 ^ new.ecw_max - 1 = txqParamsBe.cwmax)) :=
  set_txq_params_entry linuxConsts mlanApConsts txqEnvOk txqParamsBe
    (by decide) rfl rfl (by decide)


/-! ## `woal_uap_cfg80211_dump_station` and `woal_uap_cfg80211_get_station` -/

/-- Claim C15 as stated fails for a negative `idx`: the test
`idx >= sta_count` is a signed comparison, so `idx = -1` passes it, the
station list is read at index -1 and the function returns 0 with what it
found there. -/
theorem dump_station_negative_index :
    dumpStationIndices dumpEnvOne runningPriv (-1) = [-1] ∧
    (woal_uap_cfg80211_dump_station linuxConsts dumpEnvOne runningPriv (-1)
      [0, 0, 0, 0, 0, 0] emptySinfo).ret = 0 ∧
    (woal_uap_cfg80211_dump_station linuxConsts dumpEnvOne runningPriv (-1)
      [0, 0, 0, 0, 0, 0] emptySinfo).mac = [9, 9, 9, 9, 9, 9] := by
  decide

theorem inactive_time_eq (sec usec last : Nat) (hu : usec < 2 ^ 32)
    (hl : last < 2 ^ 64) :
    ((((((sec % 2 ^ 32) * 1000 + (usec % 2 ^ 32) / 1000) % 2 ^ 64 + 2 ^ 64 - last % 2 ^ 64)
        % 2 ^ 64 % 2 ^ 32 : Nat) : Int)) =
      (((sec * 1000 + usec / 1000 : Nat) : Int) - (last : Int)) % 2 ^ 32 := by
  norm_num at hu hl ⊢
  omega

/-- Claim C15, amended in its indexing clause: with media connected and the
station-list request succeeding, for `0 <= idx < sta_count` the function
returns 0, copies the MAC address of entry `idx` into `mac`, sets `signal` to
its `rssi` and `inactive_time` to `(current ms - last_rx_in_msec)` modulo
`2^32` when `last_rx_in_msec` is nonzero and to 0 otherwise; for
`idx >= sta_count` it returns `-EFAULT` and leaves `mac` and `sinfo` as they
were; for every `idx >= 0` the station list is read only at indices in
`[0, sta_count)`; with media not connected it returns `-ENOENT`. -/
theorem dump_station_entry (k : Consts) (env : DumpStationEnv) (priv : moal_private)
    (idx : Int) (mac : List Nat) (sinfo : station_info) (req : Nat)
    (halloc : env.own.alloc = some req)
    (hstatus : env.own.ioctl_status = MLAN_STATUS_SUCCESS)
    (husec : env.usec < 2 ^ 32)
    (hlast : ∀ i, (env.sta_list.info i).last_rx_in_msec < 2 ^ 64)
    (hmac : ∀ i, k.ETH_ALEN ≤ (env.sta_list.info i).mac_address.length) :
    (priv.media_connected = true → 0 ≤ idx → idx < (env.sta_list.sta_count : Int) →
      (woal_uap_cfg80211_dump_station k env priv idx mac sinfo).ret = 0 ∧
      (∀ j, j < k.ETH_ALEN →
        (woal_uap_cfg80211_dump_station k env priv idx mac sinfo).mac[j]? =
          (env.sta_list.info idx).mac_address[j]?) ∧
      (woal_uap_cfg80211_dump_station k env priv idx mac sinfo).sinfo.signal =
        (env.sta_list.info idx).rssi ∧
      ((env.sta_list.info idx).last_rx_in_msec ≠ 0 →
        (((woal_uap_cfg80211_dump_station k env priv idx mac sinfo).sinfo.inactive_time : Nat)
            : Int) =
          (((env.sec * 1000 + env.usec / 1000 : Nat) : Int) -
            ((env.sta_list.info idx).last_rx_in_msec : Int)) % 2 ^ 32) ∧
      ((env.sta_list.info idx).last_rx_in_msec = 0 →
        (woal_uap_cfg80211_dump_station k env priv idx mac sinfo).sinfo.inactive_time = 0)) ∧
    (priv.media_connected = true → (env.sta_list.sta_count : Int) ≤ idx →
      (woal_uap_cfg80211_dump_station k env priv idx mac sinfo).ret = -(k.EFAULT : Int) ∧
      (woal_uap_cfg80211_dump_station k env priv idx mac sinfo).mac = mac ∧
      (woal_uap_cfg80211_dump_station k env priv idx mac sinfo).sinfo = sinfo) ∧
    (0 ≤ idx → ∀ i ∈ dumpStationIndices env priv idx,
      0 ≤ i ∧ i < (env.sta_list.sta_count : Int)) ∧
    (priv.media_connected = false →
      (woal_uap_cfg80211_dump_station k env priv idx mac sinfo).ret = -(k.ENOENT : Int)) := by
  refine ⟨?_, ?_, ?_, ?_⟩
  · intro hm h0 hlt
    have hge : ¬ (idx ≥ (env.sta_list.sta_count : Int)) := by omega
    have hmf : ¬ (priv.media_connected = false) := by simp [hm]
    simp only [woal_uap_cfg80211_dump_station, halloc, hstatus, if_neg hmf, if_neg hge,
      ne_eq, not_true_eq_false, if_false]
    by_cases hl : (env.sta_list.info idx).last_rx_in_msec = 0
    · rw [if_neg (not_not.mpr hl)]
      refine ⟨rfl, ?_, rfl, fun h => absurd hl h, fun _ => rfl⟩
      intro j hj
      rw [List.getElem?_append_left (by
        rw [List.length_take]; have := hmac idx; omega)]
      rw [List.getElem?_take_of_lt hj]
    · rw [if_pos hl]
      refine ⟨rfl, ?_, rfl, fun _ => ?_, fun h => absurd h hl⟩
      · intro j hj
        rw [List.getElem?_append_left (by
          rw [List.length_take]; have := hmac idx; omega)]
        rw [List.getElem?_take_of_lt hj]
      · exact inactive_time_eq env.sec env.usec _ husec (hlast idx)
  · intro hm hge
    have hmf : ¬ (priv.media_connected = false) := by simp [hm]
    have hge2 : idx ≥ (env.sta_list.sta_count : Int) := hge
    simp only [woal_uap_cfg80211_dump_station, halloc, hstatus, if_neg hmf, if_pos hge2,
      ne_eq, not_true_eq_false, if_false]
    exact ⟨trivial, trivial, trivial⟩
  · intro h0 i hi
    unfold dumpStationIndices at hi
    rw [halloc] at hi
    simp only [hstatus, ne_eq, not_true_eq_false, if_false] at hi
    split_ifs at hi with h1 h2
    · simp at hi
    · simp at hi
    · simp only [List.mem_singleton] at hi
      subst hi
      exact ⟨h0, by omega⟩
  · intro hm
    simp [woal_uap_cfg80211_dump_station, hm]

theorem dump_station_entry_witness :
    (runningPriv.media_connected = true → (0 : Int) ≤ 0 →
      (0 : Int) < (dumpEnvOne.sta_list.sta_count : Int) →
      (woal_uap_cfg80211_dump_station linuxConsts dumpEnvOne runningPriv 0
        [0, 0, 0, 0, 0, 0] emptySinfo).ret = 0 ∧
      (∀ j, j < linuxConsts.ETH_ALEN →
        (woal_uap_cfg80211_dump_station linuxConsts dumpEnvOne runningPriv 0
          [0, 0, 0, 0, 0, 0] emptySinfo).mac[j]? =
          (dumpEnvOne.sta_list.info 0).mac_address[j]?) ∧
      (woal_uap_cfg80211_dump_station linuxConsts dumpEnvOne runningPriv 0
        [0, 0, 0, 0, 0, 0] emptySinfo).sinfo.signal =
        (dumpEnvOne.sta_list.info 0).rssi ∧
      ((dumpEnvOne.sta_list.info 0).last_rx_in_msec ≠ 0 →
        (((woal_uap_cfg80211_dump_station linuxConsts dumpEnvOne runningPriv 0
            [0, 0, 0, 0, 0, 0] emptySinfo).sinfo.inactive_time : Nat) : Int) =
          (((dumpEnvOne.sec * 1000 + dumpEnvOne.usec / 1000 : Nat) : Int) -
            ((dumpEnvOne.sta_list.info 0).last_rx_in_msec : Int)) % 2 ^ 32) ∧
      ((dumpEnvOne.sta_list.info 0).last_rx_in_msec = 0 →
        (woal_uap_cfg80211_dump_station linuxConsts dumpEnvOne runningPriv 0
          [0, 0, 0, 0, 0, 0] emptySinfo).sinfo.inactive_time = 0)) ∧
    (runningPriv.media_connected = true → (dumpEnvOne.sta_list.sta_count : Int) ≤ 0 →
      (woal_uap_cfg80211_dump_station linuxConsts dumpEnvOne runningPriv 0
        [0, 0, 0, 0, 0, 0] emptySinfo).ret = -(linuxConsts.EFAULT : Int) ∧
      (woal_uap_cfg80211_dump_station linuxConsts dumpEnvOne runningPriv 0
        [0, 0, 0, 0, 0, 0] emptySinfo).mac = [0, 0, 0, 0, 0, 0] ∧
      (woal_uap_cfg80211_dump_station linuxConsts dumpEnvOne runningPriv 0
        [0, 0, 0, 0, 0, 0] emptySinfo).sinfo = emptySinfo) ∧
    ((0 : Int) ≤ 0 → ∀ i ∈ dumpStationIndices dumpEnvOne runningPriv 0,
      0 ≤ i ∧ i < (dumpEnvOne.sta_list.sta_count : Int)) ∧
    (runningPriv.media_connected = false →
      (woal_uap_cfg80211_dump_station linuxConsts dumpEnvOne runningPriv 0
        [0, 0, 0, 0, 0, 0] emptySinfo).ret = -(linuxConsts.ENOENT : Int)) :=
  dump_station_entry linuxConsts dumpEnvOne runningPriv 0 [0, 0, 0, 0, 0, 0] emptySinfo 1
    rfl rfl (by decide)
    (by intro i; simp only [dumpEnvOne, oneStation]; split_ifs <;> decide)
    (by intro i; simp only [dumpEnvOne, oneStation]; split_ifs <;> decide)


theorem find?_range_spec (p : Nat → Bool) (n : Nat) :
    (∀ i, (List.range n).find? p = some i → i < n ∧ p i = true ∧ ∀ j, j < i → p j = false) ∧
    ((List.range n).find? p = none → ∀ j, j < n → p j = false) := by
  induction n with
  | zero => simp
  | succ n ih =>
    rw [List.range_succ, List.find?_append]
    cases h : (List.range n).find? p with
    | some i0 =>
      obtain ⟨h1, h2, h3⟩ := ih.1 i0 h
      simp only [Option.or, Option.some.injEq]
      refine ⟨?_, fun hc => by simp at hc⟩
      intro i hi
      subst hi
      exact ⟨by omega, h2, h3⟩
    | none =>
      have hn := ih.2 h
      simp only [Option.or]
      by_cases hp : p n = true
      · simp only [List.find?_cons, hp, Option.some.injEq, List.find?_nil]
        refine ⟨?_, fun hc => by simp at hc⟩
        intro i hi
        subst hi
        exact ⟨by omega, hp, hn⟩
      · have hp2 : p n = false := by simpa using hp
        simp only [List.find?_cons, hp2, List.find?_nil]
        refine ⟨fun i hc => by simp at hc, ?_⟩
        intro _ j hj
        by_cases hjn : j = n
        · subst hjn; exact hp2
        · exact hn j (by omega)

theorem findStation_some (k : Consts) (sta_list : StaList) (mac : List Nat) (i : Nat)
    (h : findStation k sta_list mac = some i) :
    i < sta_list.sta_count ∧ macEq k (sta_list.info (i : Int)).mac_address mac = true ∧
    ∀ j, j < i → macEq k (sta_list.info (j : Int)).mac_address mac = false :=
  (find?_range_spec (fun i => macEq k (sta_list.info (i : Int)).mac_address mac)
    sta_list.sta_count).1 i h

theorem findStation_none (k : Consts) (sta_list : StaList) (mac : List Nat)
    (h : findStation k sta_list mac = none) :
    ∀ j, j < sta_list.sta_count → macEq k (sta_list.info (j : Int)).mac_address mac = false :=
  (find?_range_spec (fun i => macEq k (sta_list.info (i : Int)).mac_address mac)
    sta_list.sta_count).2 h

/-- Claim C16: `woal_uap_cfg80211_get_station` returns `-ENOENT` when media is
not connected; when the station-list and statistics requests both succeed it
returns 0 exactly when some entry `i < sta_count` has the MAC address `mac`,
and then `signal` is the `rssi` of the first such entry; with media connected
and the station not in the list the return value is nonzero. -/
theorem get_station_found_iff (k : Consts) (env : GetStationEnv) (priv : moal_private)
    (mac : List Nat) (stainfo : station_info)
    (hE : k.EFAULT ≠ 0) (hM : k.ENOMEM ≠ 0) (hF : k.MLAN_STATUS_FAILURE ≠ 0) :
    (priv.media_connected = false →
      (woal_uap_cfg80211_get_station k env priv mac stainfo).ret = -(k.ENOENT : Int)) ∧
    (priv.media_connected = true → env.own.alloc.isSome = true →
      env.own.ioctl_status = MLAN_STATUS_SUCCESS → env.stats_status = MLAN_STATUS_SUCCESS →
      ((woal_uap_cfg80211_get_station k env priv mac stainfo).ret = 0 ↔
        ∃ i, i < env.sta_list.sta_count ∧
          macEq k (env.sta_list.info (i : Int)).mac_address mac = true) ∧
      ((woal_uap_cfg80211_get_station k env priv mac stainfo).ret = 0 →
        ∃ i, i < env.sta_list.sta_count ∧
          macEq k (env.sta_list.info (i : Int)).mac_address mac = true ∧
          (∀ j, j < i → macEq k (env.sta_list.info (j : Int)).mac_address mac = false) ∧
          (woal_uap_cfg80211_get_station k env priv mac stainfo).sinfo.signal =
            (env.sta_list.info (i : Int)).rssi)) ∧
    (priv.media_connected = true →
      (∀ i, i < env.sta_list.sta_count →
        macEq k (env.sta_list.info (i : Int)).mac_address mac = false) →
      (woal_uap_cfg80211_get_station k env priv mac stainfo).ret ≠ 0) := by
  have hE2 : -(k.EFAULT : Int) ≠ 0 := by omega
  have hM2 : -(k.ENOMEM : Int) ≠ 0 := by omega
  refine ⟨?_, ?_, ?_⟩
  · intro hm
    simp [woal_uap_cfg80211_get_station, hm]
  · intro hm ha hs hst
    obtain ⟨req, hreq⟩ := Option.isSome_iff_exists.mp ha
    have hmf : ¬ (priv.media_connected = false) := by simp [hm]
    simp only [woal_uap_cfg80211_get_station, hreq, hs, hst, if_neg hmf, ne_eq,
      not_true_eq_false, if_false]
    cases hf : findStation k env.sta_list mac with
    | some i =>
      obtain ⟨h1, h2, h3⟩ := findStation_some k env.sta_list mac i hf
      refine ⟨⟨fun _ => ⟨i, h1, h2⟩, fun _ => rfl⟩, fun _ => ⟨i, h1, h2, h3, rfl⟩⟩
    | none =>
      have hn := findStation_none k env.sta_list mac hf
      refine ⟨⟨fun h => absurd h hE2, ?_⟩, fun h => absurd h hE2⟩
      rintro ⟨i, hi, hmi⟩
      rw [hn i hi] at hmi
      exact absurd hmi (by decide)
  · intro hm hn
    have hmf : ¬ (priv.media_connected = false) := by simp [hm]
    have hf : findStation k env.sta_list mac = none := by
      cases hf : findStation k env.sta_list mac with
      | none => rfl
      | some i =>
        obtain ⟨h1, h2, _⟩ := findStation_some k env.sta_list mac i hf
        rw [hn i h1] at h2
        exact absurd h2 (by decide)
    simp only [woal_uap_cfg80211_get_station, if_neg hmf, hf]
    cases env.own.alloc with
    | none => exact hM2
    | some req =>
      simp only []
      split_ifs
      · exact hE2
      · exact hF
      · exact hE2

theorem get_station_found_iff_witness :
    (runningPriv.media_connected = false →
      (woal_uap_cfg80211_get_station linuxConsts getEnvOne runningPriv [2, 0, 0, 0, 0, 1]
        emptySinfo).ret = -(linuxConsts.ENOENT : Int)) ∧
    (runningPriv.media_connected = true → getEnvOne.own.alloc.isSome = true →
      getEnvOne.own.ioctl_status = MLAN_STATUS_SUCCESS →
      getEnvOne.stats_status = MLAN_STATUS_SUCCESS →
      ((woal_uap_cfg80211_get_station linuxConsts getEnvOne runningPriv [2, 0, 0, 0, 0, 1]
          emptySinfo).ret = 0 ↔
        ∃ i, i < getEnvOne.sta_list.sta_count ∧
          macEq linuxConsts (getEnvOne.sta_list.info (i : Int)).mac_address
            [2, 0, 0, 0, 0, 1] = true) ∧
      ((woal_uap_cfg80211_get_station linuxConsts getEnvOne runningPriv [2, 0, 0, 0, 0, 1]
          emptySinfo).ret = 0 →
        ∃ i, i < getEnvOne.sta_list.sta_count ∧
          macEq linuxConsts (getEnvOne.sta_list.info (i : Int)).mac_address
            [2, 0, 0, 0, 0, 1] = true ∧
          (∀ j, j < i → macEq linuxConsts (getEnvOne.sta_list.info (j : Int)).mac_address
            [2, 0, 0, 0, 0, 1] = false) ∧
          (woal_uap_cfg80211_get_station linuxConsts getEnvOne runningPriv [2, 0, 0, 0, 0, 1]
            emptySinfo).sinfo.signal = (getEnvOne.sta_list.info (i : Int)).rssi)) ∧
    (runningPriv.media_connected = true →
      (∀ i, i < getEnvOne.sta_list.sta_count →
        macEq linuxConsts (getEnvOne.sta_list.info (i : Int)).mac_address
          [2, 0, 0, 0, 0, 1] = false) →
      (woal_uap_cfg80211_get_station linuxConsts getEnvOne runningPriv [2, 0, 0, 0, 0, 1]
        emptySinfo).ret ≠ 0) :=
  get_station_found_iff linuxConsts getEnvOne runningPriv [2, 0, 0, 0, 0, 1] emptySinfo
    (by decide) (by decide) (by decide)


/-! ## `woal_cfg80211_del_beacon` -/

theorem map_const_eq_replicate (l : List Nat) (c : Nat) :
    l.map (fun _ => c) = List.replicate l.length c := by
  induction l with
  | nil => rfl
  | cons x xs ih => simp [List.replicate_succ, ih]

theorem delBeaconReset_fields (env : DelBeaconEnv) (priv : moal_private) (ev : List Event) :
    (delBeaconReset env priv ev).1.cipher = 0 ∧
    (delBeaconReset env priv ev).1.channel = 0 ∧
    (delBeaconReset env priv ev).1.bandwidth = 0 ∧
    (delBeaconReset env priv ev).1.multi_ap_flag = 0 ∧
    (delBeaconReset env priv ev).1.uap_wep_key = priv.uap_wep_key.map (fun _ => 0) ∧
    (delBeaconReset env priv ev).1.uap_host_based = priv.uap_host_based ∧
    (delBeaconReset env priv ev).1.dscp_map = priv.dscp_map ∧
    (delBeaconReset env priv ev).1.chan = priv.chan ∧
    (delBeaconReset env priv ev).1.phandle = priv.phandle ∧
    (∀ e, e ∈ ev → e ∈ (delBeaconReset env priv ev).2) := by
  refine ⟨rfl, rfl, rfl, rfl, rfl, rfl, rfl, rfl, rfl, ?_⟩
  intro e he
  simp only [delBeaconReset]
  split_ifs <;> simp [he]

theorem delBeaconStop_frame (env : DelBeaconEnv) (priv : moal_private) (ev : List Event) :
    (delBeaconStop env priv ev).1.uap_host_based = priv.uap_host_based ∧
    (delBeaconStop env priv ev).1.dscp_map = priv.dscp_map ∧
    (delBeaconStop env priv ev).1.chan = priv.chan ∧
    (delBeaconStop env priv ev).1.phandle = priv.phandle ∧
    (∀ e, e ∈ ev → e ∈ (delBeaconStop env priv ev).2) := by
  have hr := delBeaconReset_fields env priv
  unfold delBeaconStop
  simp only []
  split_ifs
  · exact ⟨rfl, rfl, rfl, rfl, fun e he => by simp [he]⟩
  · exact ⟨rfl, rfl, rfl, rfl, fun e he => by simp [he]⟩
  · exact ⟨rfl, rfl, rfl, rfl, fun e he => by simp [he]⟩
  · obtain ⟨_, _, _, _, _, h1, h2, h3, h4, h5⟩ := hr
      (ev ++ [Event.uap_bss_ctrl BssCtrl.UAP_BSS_STOP] ++
        [Event.uap_bss_ctrl BssCtrl.UAP_BSS_RESET] ++ [Event.request_set_mac_address])
    exact ⟨h1, h2, h3, h4, fun e he => h5 e (by simp [he])⟩
  · obtain ⟨_, _, _, _, _, h1, h2, h3, h4, h5⟩ := hr ev
    exact ⟨h1, h2, h3, h4, h5⟩

theorem delBeaconStop_reset (env : DelBeaconEnv) (priv : moal_private) (ev : List Event)
    (hb : priv.bss_started = true →
      env.stop_ret = 0 ∧ env.reset_ret = 0 ∧ env.set_mac_status ≠ MLAN_STATUS_FAILURE) :
    (delBeaconStop env priv ev).1.cipher = 0 ∧
    (delBeaconStop env priv ev).1.channel = 0 ∧
    (delBeaconStop env priv ev).1.bandwidth = 0 ∧
    (delBeaconStop env priv ev).1.multi_ap_flag = 0 ∧
    (delBeaconStop env priv ev).1.uap_wep_key = priv.uap_wep_key.map (fun _ => 0) := by
  unfold delBeaconStop
  by_cases hs : priv.bss_started = true
  · obtain ⟨h1, h2, h3⟩ := hb hs
    have h1n : ¬ (env.stop_ret ≠ 0) := by simp [h1]
    have h2n : ¬ (env.reset_ret ≠ 0) := by simp [h2]
    rw [if_pos hs, if_neg h1n, if_neg h2n, if_neg h3]
    exact ⟨rfl, rfl, rfl, rfl, rfl⟩
  · rw [if_neg hs]
    exact ⟨rfl, rfl, rfl, rfl, rfl⟩

theorem delBeaconCac_fields (priv : moal_private) (ev : List Event) :
    (delBeaconCac priv ev).1.uap_host_based = priv.uap_host_based ∧
    (delBeaconCac priv ev).1.dscp_map = priv.dscp_map ∧
    (delBeaconCac priv ev).1.chan = zeroChandef ∧
    (delBeaconCac priv ev).1.uap_wep_key = priv.uap_wep_key ∧
    (delBeaconCac priv ev).1.bss_started = priv.bss_started ∧
    ((priv.phandle.is_cac_timer_set = true ∧ priv.phandle.cac_bss_index = priv.bss_index) →
      Event.cancel_timer ∈ (delBeaconCac priv ev).2 ∧
      (delBeaconCac priv ev).1.phandle.is_cac_timer_set = false ∧
      (delBeaconCac priv ev).1.phandle.cac_bss_index = 0xff) := by
  unfold delBeaconCac
  simp only []
  by_cases hc : priv.phandle.is_cac_timer_set = true ∧ priv.bss_index = priv.phandle.cac_bss_index
  · rw [if_pos hc]
    refine ⟨rfl, rfl, rfl, rfl, rfl, fun _ => ⟨?_, rfl, rfl⟩⟩
    split_ifs <;> simp
  · rw [if_neg hc]
    refine ⟨rfl, rfl, rfl, rfl, rfl, fun h => absurd ⟨h.1, h.2.symm⟩ hc⟩

theorem delBeaconBegin_fields (k : Consts) (env : DelBeaconEnv) (priv : moal_private) :
    (delBeaconBegin k env priv).1 =
      { priv with uap_host_based := false, dscp_map := priv.dscp_map.map (fun _ => 0xFF) } :=
  rfl

/-- Claim C17: `woal_cfg80211_del_beacon` always returns 0; in an abnormal
driver state it changes nothing and calls nothing; otherwise
`uap_host_based` is MFALSE, every byte of `dscp_map` is 0xFF and `priv->chan`
is zero afterwards, and, unless the BSS was started and one of the stop,
reset and set-MAC-address requests failed, `cipher`, `channel`, `bandwidth`
and `multi_ap_flag` are 0 and every byte of the WEP keys is zero; a CAC owned
by this BSS has its timer cancelled and leaves `is_cac_timer_set = MFALSE`
and `cac_bss_index = 0xff`. -/
theorem del_beacon_effects (k : Consts) (env : DelBeaconEnv) (priv : moal_private) :
    (woal_cfg80211_del_beacon k env priv).ret = 0 ∧
    ((priv.phandle.driver_status ≠ 0 ∨ priv.phandle.surprise_removed ≠ 0) →
      (woal_cfg80211_del_beacon k env priv).priv = priv ∧
      (woal_cfg80211_del_beacon k env priv).dfs_priv = env.dfs_priv ∧
      (woal_cfg80211_del_beacon k env priv).events = []) ∧
    (¬ (priv.phandle.driver_status ≠ 0 ∨ priv.phandle.surprise_removed ≠ 0) →
      ((woal_cfg80211_del_beacon k env priv).priv.uap_host_based = false ∧
        (woal_cfg80211_del_beacon k env priv).priv.dscp_map =
          List.replicate priv.dscp_map.length 0xFF ∧
        (woal_cfg80211_del_beacon k env priv).priv.chan = zeroChandef) ∧
      ((priv.bss_started = true →
          env.stop_ret = 0 ∧ env.reset_ret = 0 ∧ env.set_mac_status ≠ MLAN_STATUS_FAILURE) →
        (woal_cfg80211_del_beacon k env priv).priv.cipher = 0 ∧
        (woal_cfg80211_del_beacon k env priv).priv.channel = 0 ∧
        (woal_cfg80211_del_beacon k env priv).priv.bandwidth = 0 ∧
        (woal_cfg80211_del_beacon k env priv).priv.multi_ap_flag = 0 ∧
        (woal_cfg80211_del_beacon k env priv).priv.uap_wep_key =
          List.replicate priv.uap_wep_key.length 0) ∧
      ((priv.phandle.is_cac_timer_set = true ∧ priv.phandle.cac_bss_index = priv.bss_index) →
        Event.cancel_timer ∈ (woal_cfg80211_del_beacon k env priv).events ∧
        (woal_cfg80211_del_beacon k env priv).priv.phandle.is_cac_timer_set = false ∧
        (woal_cfg80211_del_beacon k env priv).priv.phandle.cac_bss_index = 0xff)) := by
  refine ⟨?_, ?_, ?_⟩
  · unfold woal_cfg80211_del_beacon
    simp only []
    split_ifs <;> rfl
  · intro h
    simp only [woal_cfg80211_del_beacon, if_pos h]
    exact ⟨trivial, trivial, trivial⟩
  · intro h
    simp only [woal_cfg80211_del_beacon, if_neg h]
    generalize hev : (delBeaconBackground env (delBeaconBegin k env priv).2).2 = ev
    have hB := delBeaconBegin_fields k env priv
    obtain ⟨c1, c2, c3, c4, c5, c6⟩ := delBeaconCac_fields (delBeaconBegin k env priv).1 ev
    obtain ⟨s1, s2, s3, s4, s5⟩ := delBeaconStop_frame env
      (delBeaconCac (delBeaconBegin k env priv).1 ev).1
      (delBeaconCac (delBeaconBegin k env priv).1 ev).2
    refine ⟨⟨?_, ?_, ?_⟩, ?_, ?_⟩
    · rw [s1, c1, hB]
    · rw [s2, c2, hB]; exact map_const_eq_replicate _ _
    · rw [s3, c3]
    · intro hb
      obtain ⟨r1, r2, r3, r4, r5⟩ := delBeaconStop_reset env
        (delBeaconCac (delBeaconBegin k env priv).1 ev).1
        (delBeaconCac (delBeaconBegin k env priv).1 ev).2
        (by rw [c5, hB]; exact hb)
      refine ⟨r1, r2, r3, r4, ?_⟩
      rw [r5, c4, hB]; exact map_const_eq_replicate _ _
    · intro hc
      obtain ⟨d1, d2, d3⟩ := c6 (by rw [hB]; exact hc)
      refine ⟨s5 _ d1, ?_, ?_⟩
      · rw [s4]; exact d2
      · rw [s4]; exact d3

theorem del_beacon_example :
    (woal_cfg80211_del_beacon linuxConsts delBeaconEnvOk cacOwnerPriv).priv.dscp_map =
      [255, 255, 255, 255] ∧
    (woal_cfg80211_del_beacon linuxConsts delBeaconEnvOk cacOwnerPriv).priv.uap_wep_key =
      [0, 0, 0, 0] ∧
    (woal_cfg80211_del_beacon linuxConsts delBeaconEnvOk cacOwnerPriv).priv.phandle.cac_bss_index
      = 255 ∧
    (woal_cfg80211_del_beacon linuxConsts delBeaconEnvOk cacOwnerPriv).events =
      [Event.update_uap_channel_dfs_state, Event.cancel_scan, Event.cancel_timer,
        Event.cancel_chan_report_ioctl, Event.cac_event_aborted chandef52,
        Event.flush_workqueue, Event.uap_bss_ctrl BssCtrl.UAP_BSS_STOP,
        Event.uap_bss_ctrl BssCtrl.UAP_BSS_RESET, Event.request_set_mac_address,
        Event.clear_all_mgmt_ies] := by
  decide


/-! ## `woal_set_wmm_ies` -/

theorem wmm_vendor_test_eq (h : Hdr) (hw : h.WalkOk) (ie : Mem) (o : Nat) :
    (rd8 ie o = h.VENDOR_SPECIFIC_221 ∧
      (memcmpEq ie (o + h.off_vend_oui) wmm_oui h.sizeof_vend_oui
        && rd8 ie (o + h.off_vend_oui_type) == wmm_oui.getD 3 0) = true)
      ↔ isWmmVendorIe h ie o = true := by
  obtain ⟨-, h3, h221, -⟩ := hw
  unfold isWmmVendorIe memcmpEq wmm_oui
  rw [h3, h221]
  simp [List.range_succ, and_assoc]

/-- One iteration of the WMM walk on an element whose header and body fit. -/
theorem wmmWalkBody_fits (h : Hdr) (a : ApConsts) (hw : h.WalkOk) (ie : Mem) (s : WmmWalk)
    (hfit : (rd8 ie (s.pcurrent_ptr + 1) : Int) + 2 ≤ s.bytes_left) :
    (wmmWalkBody h a ie s).sys_config
        = (if isWmmParameterIe h a ie s.pcurrent_ptr then wmmCopy ie s.sys_config s.pcurrent_ptr
            else s.sys_config) ∧
    (wmmWalkBody h a ie s).pcurrent_ptr = s.pcurrent_ptr + (rd8 ie (s.pcurrent_ptr + 1) + 2) ∧
    (wmmWalkBody h a ie s).bytes_left
        = s.bytes_left - ((rd8 ie (s.pcurrent_ptr + 1) : Int) + 2) := by
  have hlt := rd8_lt ie (s.pcurrent_ptr + 1)
  have hvt := wmm_vendor_test_eq h hw ie s.pcurrent_ptr
  obtain ⟨h2, -, h221, hne⟩ := hw
  have htot : ((rd8 ie (s.pcurrent_ptr + 1) + h.sizeof_IEEEtypes_Header_t) % 2 ^ 16 : Nat)
      = rd8 ie (s.pcurrent_ptr + 1) + 2 := by
    rw [h2]; omega
  have hnot : ¬ s.bytes_left < ((rd8 ie (s.pcurrent_ptr + 1) + 2 : Nat) : Int) := by
    push_cast; omega
  unfold wmmWalkBody
  dsimp only
  rw [htot, if_neg hnot]
  refine ⟨?_, rfl, rfl⟩
  unfold isWmmParameterIe
  by_cases hv : isWmmVendorIe h ie s.pcurrent_ptr = true
  · obtain ⟨hid, htest⟩ := hvt.2 hv
    rw [if_pos hid, if_pos htest, hv, Bool.true_and]
    by_cases hsz : rd8 ie (s.pcurrent_ptr + 1) + 2 = a.sizeof_IEEEtypes_WmmParameter_t
    · rw [if_pos hsz, if_pos (by simpa using hsz)]
      unfold wmmCopy
      rw [h2]
    · rw [if_neg hsz, if_neg (by simpa using hsz)]
  · have hv' : isWmmVendorIe h ie s.pcurrent_ptr = false := by simpa using hv
    rw [hv', Bool.false_and]
    by_cases hid : rd8 ie s.pcurrent_ptr = h.VENDOR_SPECIFIC_221
    · have htest : ¬ (memcmpEq ie (s.pcurrent_ptr + h.off_vend_oui) wmm_oui h.sizeof_vend_oui
          && rd8 ie (s.pcurrent_ptr + h.off_vend_oui_type) == wmm_oui.getD 3 0) = true :=
        fun ht => hv (hvt.1 ⟨hid, ht⟩)
      rw [if_pos hid, if_neg htest]
      rfl
    · rw [if_neg hid]
      rfl

/-- One iteration of the WMM walk on an element that does not fit. -/
theorem wmmWalkBody_truncated (h : Hdr) (a : ApConsts) (h2 : h.sizeof_IEEEtypes_Header_t = 2)
    (ie : Mem) (s : WmmWalk)
    (hfit : s.bytes_left < (rd8 ie (s.pcurrent_ptr + 1) : Int) + 2) :
    wmmWalkBody h a ie s = { s with bytes_left := 0 } := by
  have hlt := rd8_lt ie (s.pcurrent_ptr + 1)
  unfold wmmWalkBody
  dsimp only
  rw [h2]
  have : ((rd8 ie (s.pcurrent_ptr + 1) + 2) % 2 ^ 16 : Nat)
      = rd8 ie (s.pcurrent_ptr + 1) + 2 := by omega
  rw [this, if_pos (by push_cast; omega)]

/-- Loop invariant of the WMM walk: from any state, the loop ends with the
configuration obtained by copying, in order, every WMM parameter element of
the right size among the elements still ahead. -/
theorem wmmWalk_loop_spec (h : Hdr) (a : ApConsts) (hw : h.WalkOk) (ie : Mem) :
    ∀ (fuel : Nat) (s : WmmWalk),
      (whileLoop wmmWalkCond (wmmWalkBody h a ie) fuel s).sys_config
        = ((ieOffsets ie fuel s.pcurrent_ptr s.bytes_left).filter
            (isWmmParameterIe h a ie)).foldl (wmmCopy ie) s.sys_config := by
  intro fuel
  induction fuel with
  | zero => intro s; rfl
  | succ n ih =>
    intro s
    have hlt := rd8_lt ie (s.pcurrent_ptr + 1)
    unfold whileLoop ieOffsets
    by_cases hfit : (rd8 ie (s.pcurrent_ptr + 1) : Int) + 2 ≤ s.bytes_left
    · have hc : wmmWalkCond s = true := by
        simp only [wmmWalkCond, decide_eq_true_eq]; omega
      obtain ⟨b1, b2, b3⟩ := wmmWalkBody_fits h a hw ie s hfit
      rw [if_pos hc, if_pos hfit, ih (wmmWalkBody h a ie s), b1, b2, b3]
      by_cases hp : isWmmParameterIe h a ie s.pcurrent_ptr = true
      · rw [List.filter_cons_of_pos hp, List.foldl_cons, if_pos hp]
      · rw [List.filter_cons_of_neg hp, if_neg hp]
    · rw [if_neg hfit]
      by_cases hc : wmmWalkCond s = true
      · rw [if_pos hc, wmmWalkBody_truncated h a hw.1 ie s (by omega),
          whileLoop_of_not_cond _ _ _ _ (by simp [wmmWalkCond])]
        rfl
      · rw [if_neg hc]; rfl

theorem foldl_wmmCopy_flag (ie : Mem) (l : List Nat) (c : WmmConfig) (hl : l ≠ []) :
    (l.foldl (wmmCopy ie) c).uap_host_based_config = true := by
  induction l generalizing c with
  | nil => exact absurd rfl hl
  | cons x xs ih =>
    rw [List.foldl_cons]
    cases xs with
    | nil => rfl
    | cons y ys => exact ih _ (by simp)

/-- Claim C18: `woal_set_wmm_ies` leaves the configuration that results from
copying, in buffer order, the body of every WMM vendor element (id 221, OUI
00:50:f2, type 2) whose total length equals
`sizeof(IEEEtypes_WmmParameter_t)` into `wmm_para` and setting
`uap_host_based_config`; a buffer with no such element of exactly that size
leaves the configuration unchanged, so a change implies that such an element
is in the buffer, and when there is one `uap_host_based_config` is MTRUE. -/
theorem set_wmm_ies_copies (h : Hdr) (a : ApConsts) (hw : h.WalkOk) (ie : Mem) (len : Int)
    (c : WmmConfig) :
    woal_set_wmm_ies h a ie len c
      = ((bufferElements ie len).filter (isWmmParameterIe h a ie)).foldl (wmmCopy ie) c ∧
    ((∀ o ∈ bufferElements ie len, isWmmParameterIe h a ie o = false) →
      woal_set_wmm_ies h a ie len c = c) ∧
    (woal_set_wmm_ies h a ie len c ≠ c →
      ∃ o ∈ bufferElements ie len, isWmmVendorIe h ie o = true ∧
        rd8 ie (o + 1) + 2 = a.sizeof_IEEEtypes_WmmParameter_t) ∧
    ((∃ o ∈ bufferElements ie len, isWmmParameterIe h a ie o = true) →
      (woal_set_wmm_ies h a ie len c).uap_host_based_config = true) := by
  have hspec : woal_set_wmm_ies h a ie len c
      = ((bufferElements ie len).filter (isWmmParameterIe h a ie)).foldl (wmmCopy ie) c :=
    wmmWalk_loop_spec h a hw ie len.toNat
      { bytes_left := len, pcurrent_ptr := 0, sys_config := c }
  have hnone : (∀ o ∈ bufferElements ie len, isWmmParameterIe h a ie o = false) →
      woal_set_wmm_ies h a ie len c = c := by
    intro hn
    rw [hspec, List.filter_eq_nil_iff.mpr (fun o ho => by simp [hn o ho])]
    rfl
  refine ⟨hspec, hnone, ?_, ?_⟩
  · intro hne
    by_contra hex
    apply hne
    apply hnone
    intro o ho
    by_contra hp
    apply hex
    have hp' : isWmmParameterIe h a ie o = true := by simpa using hp
    unfold isWmmParameterIe at hp'
    simp only [Bool.and_eq_true, beq_iff_eq] at hp'
    exact ⟨o, ho, hp'.1, hp'.2⟩
  · rintro ⟨o, ho, hp⟩
    rw [hspec]
    apply foldl_wmmCopy_flag
    intro hnil
    have : o ∈ (bufferElements ie len).filter (isWmmParameterIe h a ie) :=
      List.mem_filter.mpr ⟨ho, hp⟩
    rw [hnil] at this
    simp at this

theorem set_wmm_ies_copies_witness :
    woal_set_wmm_ies wireHdr mlanApConsts (memOfList wmmBuffer) 29 ⟨List.replicate 24 0, false⟩
      = ((bufferElements (memOfList wmmBuffer) 29).filter
          (isWmmParameterIe wireHdr mlanApConsts (memOfList wmmBuffer))).foldl
          (wmmCopy (memOfList wmmBuffer)) ⟨List.replicate 24 0, false⟩ ∧
    ((∀ o ∈ bufferElements (memOfList wmmBuffer) 29,
        isWmmParameterIe wireHdr mlanApConsts (memOfList wmmBuffer) o = false) →
      woal_set_wmm_ies wireHdr mlanApConsts (memOfList wmmBuffer) 29
        ⟨List.replicate 24 0, false⟩ = ⟨List.replicate 24 0, false⟩) ∧
    (woal_set_wmm_ies wireHdr mlanApConsts (memOfList wmmBuffer) 29
        ⟨List.replicate 24 0, false⟩ ≠ ⟨List.replicate 24 0, false⟩ →
      ∃ o ∈ bufferElements (memOfList wmmBuffer) 29,
        isWmmVendorIe wireHdr (memOfList wmmBuffer) o = true ∧
        rd8 (memOfList wmmBuffer) (o + 1) + 2 = mlanApConsts.sizeof_IEEEtypes_WmmParameter_t) ∧
    ((∃ o ∈ bufferElements (memOfList wmmBuffer) 29,
        isWmmParameterIe wireHdr mlanApConsts (memOfList wmmBuffer) o = true) →
      (woal_set_wmm_ies wireHdr mlanApConsts (memOfList wmmBuffer) 29
        ⟨List.replicate 24 0, false⟩).uap_host_based_config = true) :=
  set_wmm_ies_copies wireHdr mlanApConsts (by decide) (memOfList wmmBuffer) 29
    ⟨List.replicate 24 0, false⟩

theorem set_wmm_ies_example :
    woal_set_wmm_ies wireHdr mlanApConsts (memOfList wmmBuffer) 29 ⟨List.replicate 24 0, false⟩
      = ⟨[0, 0x50, 0xf2, 2, 1, 1, 0, 0, 3, 164, 0, 0, 39, 164, 0, 0, 66, 67, 94, 0, 98, 50,
          47, 0], true⟩ := by
  decide


/-! ## Termination of the element walks -/

/-- Once the guard is false, more iterations change nothing. -/
theorem whileLoop_add {σ : Type} (cond : σ → Bool) (body : σ → σ) :
    ∀ (n m : Nat) (s : σ), cond (whileLoop cond body n s) = false →
      whileLoop cond body (n + m) s = whileLoop cond body n s := by
  intro n
  induction n with
  | zero =>
    intro m s hc
    rw [Nat.zero_add]
    exact whileLoop_of_not_cond cond body m s hc
  | succ n ih =>
    intro m s hc
    rw [Nat.succ_add]
    unfold whileLoop at hc ⊢
    by_cases hs : cond s = true
    · rw [if_pos hs] at hc
      rw [if_pos hs, if_pos hs]
      exact ih m (body s) hc
    · rw [if_neg hs, if_neg hs]

theorem wpaWalkBody_step (h : Hdr) (h2 : h.sizeof_IEEEtypes_Header_t = 2) (ie : Mem)
    (s : WpaWalk) :
    ((rd8 ie (s.pcurrent_ptr + 1) : Int) + 2 ≤ s.bytes_left →
      (wpaWalkBody h ie s).bytes_left = s.bytes_left - ((rd8 ie (s.pcurrent_ptr + 1) : Int) + 2) ∧
      (wpaWalkBody h ie s).pcurrent_ptr = s.pcurrent_ptr + (rd8 ie (s.pcurrent_ptr + 1) + 2)) ∧
    (s.bytes_left < (rd8 ie (s.pcurrent_ptr + 1) : Int) + 2 →
      wpaWalkBody h ie s = { s with bytes_left := 0 }) := by
  have hlt := rd8_lt ie (s.pcurrent_ptr + 1)
  have htot : ((rd8 ie (s.pcurrent_ptr + 1) + h.sizeof_IEEEtypes_Header_t) % 2 ^ 16 : Nat)
      = rd8 ie (s.pcurrent_ptr + 1) + 2 := by
    rw [h2]; omega
  unfold wpaWalkBody
  dsimp only
  rw [htot]
  refine ⟨fun hfit => ?_, fun hfit => ?_⟩
  · rw [if_neg (by push_cast; omega)]
    exact ⟨rfl, rfl⟩
  · rw [if_pos (by push_cast; omega)]

theorem wmmWalkBody_step (h : Hdr) (a : ApConsts) (h2 : h.sizeof_IEEEtypes_Header_t = 2)
    (ie : Mem) (s : WmmWalk) :
    ((rd8 ie (s.pcurrent_ptr + 1) : Int) + 2 ≤ s.bytes_left →
      (wmmWalkBody h a ie s).bytes_left
        = s.bytes_left - ((rd8 ie (s.pcurrent_ptr + 1) : Int) + 2) ∧
      (wmmWalkBody h a ie s).pcurrent_ptr
        = s.pcurrent_ptr + (rd8 ie (s.pcurrent_ptr + 1) + 2)) ∧
    (s.bytes_left < (rd8 ie (s.pcurrent_ptr + 1) : Int) + 2 →
      wmmWalkBody h a ie s = { s with bytes_left := 0 }) := by
  have hlt := rd8_lt ie (s.pcurrent_ptr + 1)
  have htot : ((rd8 ie (s.pcurrent_ptr + 1) + h.sizeof_IEEEtypes_Header_t) % 2 ^ 16 : Nat)
      = rd8 ie (s.pcurrent_ptr + 1) + 2 := by
    rw [h2]; omega
  unfold wmmWalkBody
  dsimp only
  rw [htot]
  refine ⟨fun hfit => ?_, fun hfit => ?_⟩
  · rw [if_neg (by push_cast; omega)]
    exact ⟨rfl, rfl⟩
  · rw [if_pos (by push_cast; omega)]

/-- An iteration of the WMM walk leaves at most `bytes_left - 2` bytes. -/
theorem wmmWalkBody_bytes_left (h : Hdr) (a : ApConsts) (ie : Mem) (s : WmmWalk)
    (hc : 2 ≤ s.bytes_left) :
    (wmmWalkBody h a ie s).bytes_left ≤ s.bytes_left - 2 := by
  unfold wmmWalkBody
  dsimp only
  split_ifs
  · simp; omega
  all_goals simp

theorem wmmWalk_loop_exits (h : Hdr) (a : ApConsts) (ie : Mem) :
    ∀ (fuel : Nat) (s : WmmWalk), s.bytes_left ≤ fuel →
      wmmWalkCond (whileLoop wmmWalkCond (wmmWalkBody h a ie) fuel s) = false := by
  intro fuel
  induction fuel with
  | zero =>
    intro s hs
    simp only [whileLoop, wmmWalkCond, decide_eq_false_iff_not, not_le]
    omega
  | succ n ih =>
    intro s hs
    unfold whileLoop
    by_cases hc : wmmWalkCond s = true
    · rw [if_pos hc]
      apply ih
      have h2 : 2 ≤ s.bytes_left := by simpa [wmmWalkCond] using hc
      have := wmmWalkBody_bytes_left h a ie s h2
      push_cast at hs
      omega
    · rw [if_neg hc]
      simpa using hc

/-- Claim C20: the element walks of `woal_find_wpa_ies` and `woal_set_wmm_ies`
terminate for every buffer and every `len`: after `len` iterations (none for
`len <= 0`) the guard `bytes_left >= 2` is false and further iterations
change nothing; an iteration on an element that fits lowers the remaining
count by `element_len + 2` and advances by as much, and an iteration on an
element whose declared length exceeds the remaining count sets the count to
0 and changes nothing else, which ends the walk. -/
theorem ie_walks_terminate (h : Hdr) (a : ApConsts) (h2 : h.sizeof_IEEEtypes_Header_t = 2)
    (ie : Mem) :
    (∀ (len : Int) (c : SysConfig),
      wpaWalkCond (wpaWalk h ie len c) = false ∧
      ∀ m, whileLoop wpaWalkCond (wpaWalkBody h ie) (len.toNat + m)
          { bytes_left := len, pcurrent_ptr := 0, wpa2 := false, wpa := false, sys_config := c }
        = wpaWalk h ie len c) ∧
    (∀ (len : Int) (c : WmmConfig),
      wmmWalkCond (wmmWalk h a ie len c) = false ∧
      ∀ m, whileLoop wmmWalkCond (wmmWalkBody h a ie) (len.toNat + m)
          { bytes_left := len, pcurrent_ptr := 0, sys_config := c }
        = wmmWalk h a ie len c) ∧
    (∀ s : WpaWalk, 2 ≤ s.bytes_left →
      ((rd8 ie (s.pcurrent_ptr + 1) : Int) + 2 ≤ s.bytes_left →
        (wpaWalkBody h ie s).bytes_left
          = s.bytes_left - ((rd8 ie (s.pcurrent_ptr + 1) : Int) + 2) ∧
        (wpaWalkBody h ie s).pcurrent_ptr
          = s.pcurrent_ptr + (rd8 ie (s.pcurrent_ptr + 1) + 2)) ∧
      (s.bytes_left < (rd8 ie (s.pcurrent_ptr + 1) : Int) + 2 →
        wpaWalkBody h ie s = { s with bytes_left := 0 } ∧
        wpaWalkCond (wpaWalkBody h ie s) = false)) ∧
    (∀ s : WmmWalk, 2 ≤ s.bytes_left →
      ((rd8 ie (s.pcurrent_ptr + 1) : Int) + 2 ≤ s.bytes_left →
        (wmmWalkBody h a ie s).bytes_left
          = s.bytes_left - ((rd8 ie (s.pcurrent_ptr + 1) : Int) + 2) ∧
        (wmmWalkBody h a ie s).pcurrent_ptr
          = s.pcurrent_ptr + (rd8 ie (s.pcurrent_ptr + 1) + 2)) ∧
      (s.bytes_left < (rd8 ie (s.pcurrent_ptr + 1) : Int) + 2 →
        wmmWalkBody h a ie s = { s with bytes_left := 0 } ∧
        wmmWalkCond (wmmWalkBody h a ie s) = false)) := by
  refine ⟨?_, ?_, ?_, ?_⟩
  · intro len c
    have hex : wpaWalkCond (wpaWalk h ie len c) = false :=
      wpaWalk_loop_exits h ie len.toNat
        { bytes_left := len, pcurrent_ptr := 0, wpa2 := false, wpa := false, sys_config := c }
        (by simp only; omega)
    exact ⟨hex, fun m => whileLoop_add _ _ _ m _ hex⟩
  · intro len c
    have hex : wmmWalkCond (wmmWalk h a ie len c) = false :=
      wmmWalk_loop_exits h a ie len.toNat
        { bytes_left := len, pcurrent_ptr := 0, sys_config := c }
        (by simp only; omega)
    exact ⟨hex, fun m => whileLoop_add _ _ _ m _ hex⟩
  · intro s _
    obtain ⟨f1, f2⟩ := wpaWalkBody_step h h2 ie s
    refine ⟨f1, fun ht => ⟨f2 ht, ?_⟩⟩
    rw [f2 ht]; rfl
  · intro s _
    obtain ⟨f1, f2⟩ := wmmWalkBody_step h a h2 ie s
    refine ⟨f1, fun ht => ⟨f2 ht, ?_⟩⟩
    rw [f2 ht]; rfl

theorem ie_walks_terminate_witness :
    (∀ (len : Int) (c : SysConfig),
      wpaWalkCond (wpaWalk wireHdr (memOfList wmmBuffer) len c) = false ∧
      ∀ m, whileLoop wpaWalkCond (wpaWalkBody wireHdr (memOfList wmmBuffer)) (len.toNat + m)
          { bytes_left := len, pcurrent_ptr := 0, wpa2 := false, wpa := false, sys_config := c }
        = wpaWalk wireHdr (memOfList wmmBuffer) len c) ∧
    (∀ (len : Int) (c : WmmConfig),
      wmmWalkCond (wmmWalk wireHdr mlanApConsts (memOfList wmmBuffer) len c) = false ∧
      ∀ m, whileLoop wmmWalkCond (wmmWalkBody wireHdr mlanApConsts (memOfList wmmBuffer))
          (len.toNat + m) { bytes_left := len, pcurrent_ptr := 0, sys_config := c }
        = wmmWalk wireHdr mlanApConsts (memOfList wmmBuffer) len c) ∧
    (∀ s : WpaWalk, 2 ≤ s.bytes_left →
      ((rd8 (memOfList wmmBuffer) (s.pcurrent_ptr + 1) : Int) + 2 ≤ s.bytes_left →
        (wpaWalkBody wireHdr (memOfList wmmBuffer) s).bytes_left
          = s.bytes_left - ((rd8 (memOfList wmmBuffer) (s.pcurrent_ptr + 1) : Int) + 2) ∧
        (wpaWalkBody wireHdr (memOfList wmmBuffer) s).pcurrent_ptr
          = s.pcurrent_ptr + (rd8 (memOfList wmmBuffer) (s.pcurrent_ptr + 1) + 2)) ∧
      (s.bytes_left < (rd8 (memOfList wmmBuffer) (s.pcurrent_ptr + 1) : Int) + 2 →
        wpaWalkBody wireHdr (memOfList wmmBuffer) s = { s with bytes_left := 0 } ∧
        wpaWalkCond (wpaWalkBody wireHdr (memOfList wmmBuffer) s) = false)) ∧
    (∀ s : WmmWalk, 2 ≤ s.bytes_left →
      ((rd8 (memOfList wmmBuffer) (s.pcurrent_ptr + 1) : Int) + 2 ≤ s.bytes_left →
        (wmmWalkBody wireHdr mlanApConsts (memOfList wmmBuffer) s).bytes_left
          = s.bytes_left - ((rd8 (memOfList wmmBuffer) (s.pcurrent_ptr + 1) : Int) + 2) ∧
        (wmmWalkBody wireHdr mlanApConsts (memOfList wmmBuffer) s).pcurrent_ptr
          = s.pcurrent_ptr + (rd8 (memOfList wmmBuffer) (s.pcurrent_ptr + 1) + 2)) ∧
      (s.bytes_left < (rd8 (memOfList wmmBuffer) (s.pcurrent_ptr + 1) : Int) + 2 →
        wmmWalkBody wireHdr mlanApConsts (memOfList wmmBuffer) s = { s with bytes_left := 0 } ∧
        wmmWalkCond (wmmWalkBody wireHdr mlanApConsts (memOfList wmmBuffer) s) = false)) :=
  ie_walks_terminate wireHdr mlanApConsts rfl (memOfList wmmBuffer)


/-! ## The bytes read by `woal_find_wpa_ies` -/

/-- Claim C19, at inputs on which the code departs from it: on the buffer
`dd 00` of length 2 (a vendor element with an empty body) the OUI comparison
reads offsets 2 and 3, and on a 10-byte buffer holding an RSN element that ends
after its pairwise count of 1 the pairwise loop reads offset 13; both
offsets lie beyond the end of the buffer. -/
theorem find_wpa_ies_reads_past_buffer :
    findWpaIesReads wireHdr (memOfList [221, 0]) 2 = [0, 1, 2, 3] ∧
    findWpaIesReads wireHdr (memOfList [48, 8, 1, 0, 0, 15, 172, 4, 1, 0]) 10
      = [0, 1, 1, 7, 8, 9, 13] ∧
    (woal_find_wpa_ies wireHdr (memOfList [221, 0]) 2 ⟨0, 0, 0, 0, 0⟩).1 = false := by
  decide


/-! ## `woal_cfg80211_beacon_config`: the flag `enable_11n` -/

theorem beaconConfigHtBlock_flags (k : Consts) (ht_tx_cfg_ret : Int) (enable_11n : Bool) :
    (beaconConfigHtBlock k ht_tx_cfg_ret enable_11n).2.head?
      = some (HtCall.set_uap_ht_tx_cfg enable_11n) ∧
    ∀ f ∈ htFlags (beaconConfigHtBlock k ht_tx_cfg_ret enable_11n).2, f = enable_11n := by
  cases enable_11n <;> by_cases hr : ht_tx_cfg_ret = 0 <;>
    simp [beaconConfigHtBlock, htFlags, hr]

/-- Claim C21: in `woal_cfg80211_beacon_config` the flag `enable_11n` with
which firmware is configured is MFALSE whenever `sys_config->protocol` is
PROTOCOL_STATIC_WEP, and whenever the protocol includes WPA or WPA2 and, for
a WPA version enabled in `params->crypto.wpa_versions`, the pairwise cipher
mask of that version is exactly CIPHER_TKIP; with any other security mode
and a channel width other than 5, 10 or 20-no-HT it is MTRUE; the calls
`woal_set_uap_ht_tx_cfg` and `woal_uap_set_11n_status` receive that flag. -/
theorem beacon_config_enable_11n (h : Hdr) (k : Consts) (a : ApConsts) (channel width : Nat)
    (sys_config : SysConfig) (wpa_versions : Nat) (ht_tx_cfg_ret : Int) :
    (sys_config.protocol = a.PROTOCOL_STATIC_WEP →
      beaconConfigEnable11n h k a channel width sys_config wpa_versions = false) ∧
    (sys_config.protocol &&& (h.PROTOCOL_WPA ||| h.PROTOCOL_WPA2) ≠ 0 →
      ((wpa_versions &&& a.NL80211_WPA_VERSION_1 ≠ 0
          ∧ sys_config.pairwise_cipher_wpa = h.CIPHER_TKIP) ∨
        (wpa_versions &&& a.NL80211_WPA_VERSION_2 ≠ 0
          ∧ sys_config.pairwise_cipher_wpa2 = h.CIPHER_TKIP)) →
      beaconConfigEnable11n h k a channel width sys_config wpa_versions = false) ∧
    (sys_config.protocol ≠ a.PROTOCOL_STATIC_WEP →
      ¬ (sys_config.protocol &&& (h.PROTOCOL_WPA ||| h.PROTOCOL_WPA2) ≠ 0 ∧
        ((wpa_versions &&& a.NL80211_WPA_VERSION_1 ≠ 0
            ∧ sys_config.pairwise_cipher_wpa = h.CIPHER_TKIP) ∨
          (wpa_versions &&& a.NL80211_WPA_VERSION_2 ≠ 0
            ∧ sys_config.pairwise_cipher_wpa2 = h.CIPHER_TKIP))) →
      (width ≠ k.NL80211_CHAN_WIDTH_5 ∧ width ≠ k.NL80211_CHAN_WIDTH_10
        ∧ width ≠ k.NL80211_CHAN_WIDTH_20_NOHT) →
      beaconConfigEnable11n h k a channel width sys_config wpa_versions = true) ∧
    (beaconConfigHtBlock k ht_tx_cfg_ret
        (beaconConfigEnable11n h k a channel width sys_config wpa_versions)).2.head?
      = some (HtCall.set_uap_ht_tx_cfg
          (beaconConfigEnable11n h k a channel width sys_config wpa_versions)) ∧
    (∀ f ∈ htFlags (beaconConfigHtBlock k ht_tx_cfg_ret
        (beaconConfigEnable11n h k a channel width sys_config wpa_versions)).2,
      f = beaconConfigEnable11n h k a channel width sys_config wpa_versions) := by
  refine ⟨?_, ?_, ?_, (beaconConfigHtBlock_flags k ht_tx_cfg_ret _).1,
    (beaconConfigHtBlock_flags k ht_tx_cfg_ret _).2⟩
  · intro hw
    simp [beaconConfigEnable11n, beaconConfigSecurity, hw]
  · intro hp hv
    unfold beaconConfigEnable11n beaconConfigSecurity
    dsimp only
    by_cases hw : sys_config.protocol = a.PROTOCOL_STATIC_WEP
    · rw [if_pos hw]
    · rw [if_neg hw, if_pos hp]
      by_cases h2 : wpa_versions &&& a.NL80211_WPA_VERSION_2 ≠ 0
          ∧ sys_config.pairwise_cipher_wpa2 = h.CIPHER_TKIP
      · rw [if_pos h2]
      · rw [if_neg h2]
        rcases hv with h1 | h2'
        · rw [if_pos h1]
        · exact absurd h2' h2
  · intro hw hn hwd
    unfold beaconConfigEnable11n beaconConfigSecurity beaconConfigWidthSwitch
    dsimp only
    have hwn : ¬ (width = k.NL80211_CHAN_WIDTH_5 ∨ width = k.NL80211_CHAN_WIDTH_10
        ∨ width = k.NL80211_CHAN_WIDTH_20_NOHT) := by
      rintro (e | e | e)
      · exact hwd.1 e
      · exact hwd.2.1 e
      · exact hwd.2.2 e
    rw [if_neg hw, if_neg hwn]
    by_cases hp : sys_config.protocol &&& (h.PROTOCOL_WPA ||| h.PROTOCOL_WPA2) ≠ 0
    · have h1 : ¬ (wpa_versions &&& a.NL80211_WPA_VERSION_1 ≠ 0
          ∧ sys_config.pairwise_cipher_wpa = h.CIPHER_TKIP) := fun e => hn ⟨hp, Or.inl e⟩
      have h2 : ¬ (wpa_versions &&& a.NL80211_WPA_VERSION_2 ≠ 0
          ∧ sys_config.pairwise_cipher_wpa2 = h.CIPHER_TKIP) := fun e => hn ⟨hp, Or.inr e⟩
      rw [if_pos hp, if_neg h2, if_neg h1]
      split_ifs <;> rfl
    · rw [if_neg hp]
      split_ifs <;> rfl

theorem beacon_config_enable_11n_example :
    beaconConfigEnable11n wireHdr linuxConsts mlanApConsts 6 linuxConsts.NL80211_CHAN_WIDTH_20
      ⟨32, 2, 4, 0, 4⟩ 2 = false ∧
    beaconConfigEnable11n wireHdr linuxConsts mlanApConsts 6 linuxConsts.NL80211_CHAN_WIDTH_20
      ⟨32, 2, 8, 0, 8⟩ 2 = true ∧
    beaconConfigEnable11n wireHdr linuxConsts mlanApConsts 6 linuxConsts.NL80211_CHAN_WIDTH_20
      ⟨32, 2, 4, 0, 12⟩ 2 = true := by
  simp [beaconConfigEnable11n, beaconConfigSecurity, beaconConfigWidthSwitch, wireHdr,
    linuxConsts, mlanApConsts]


end MoalUapCfg80211
